import Mathlib

/-!
# wedding-manager: optimistic update / real-time sync core

Shallow embedding of the budget, task and note screens
(`src/screens/BudgetTrackerScreen.js`, `src/screens/TaskListScreen.js`,
`src/screens/NotesScreen.js`), of the write and subscribe helpers of
`src/services/FirebaseService.js` and of `src/redux/tasksSlice.js`.

Conventions of the embedding

* A React state variable is a field of the screen structure.  `setX(v)` writes the
  field, `setX(prev => f(prev))` applies `f` to the field's current value.
* The names a handler reads from its enclosing render (`expenses`, `budget`,
  `editingExpense`, `tasks`, ...) are passed as a second screen value `r`, the
  state as it was rendered when the handler was created; the state the handler
  writes to is `s`.  A press on the freshly rendered screen is `r = s`.
* An `async` handler is cut at every `await`: the part up to the `await` runs
  at once, stream callbacks delivered while the promise is pending run next, and
  the continuation runs with the `Outcome` of the promise.
* `Alert.alert` and the remote calls are recorded, in order, in the `alerts`
  and `calls` fields.
* JavaScript numbers are exact rationals; object records are an identifier plus
  a typed block of fields.
-/

namespace WeddingManager

/-! ## Records -/

/-- A Firestore document as a snapshot hands it over: `doc.id` and `doc.data()`. -/
structure Doc (δ : Type) where
  id : String
  data : δ
deriving DecidableEq, Repr

/-- A record of the Local Mirror State: the object `{ id, ...fields }`. -/
structure Rec (δ : Type) where
  id : String
  fields : δ
deriving DecidableEq, Repr

/-- The object `{ id: doc.id, ...doc.data() }` built by every snapshot handler. -/
def docToRecord {δ : Type} (doc : Doc δ) : Rec δ :=
  { id := doc.id, fields := doc.data }

/-- How a promise returned by a remote call settles. -/
inductive Outcome where
  | resolved
  | rejected
deriving DecidableEq, Repr

/-- One `Alert.alert(title, message, ...)` call. -/
structure AlertCall where
  title : String
  message : String
deriving DecidableEq, Repr

/-- The payload `ExpenseModal.handleSave` passes to `onSave`. -/
structure ExpenseData where
  description : String
  amount : ℚ
  category : String
deriving DecidableEq, Repr

/-- Fields of an expense object other than `id`; `date` is set by the remote write
and missing on an optimistic record. -/
structure ExpenseFields where
  description : String
  amount : ℚ
  category : String
  date : Option String
deriving DecidableEq, Repr

/-- Fields of a task object other than `id` (`newTaskData` of `handleAddTask`, plus the
`date` that `addTaskToFirestore` adds on write). -/
structure TaskFields where
  text : String
  completed : Bool
  category : String
  createdAt : String
  deadline : Option String
  date : Option String
deriving DecidableEq, Repr

/-- Fields of a note object other than `id` (`newNoteData` of `handleAddNote`). -/
structure NoteFields where
  title : String
  text : String
  color : String
  emoji : String
  createdAt : String
deriving DecidableEq, Repr

abbrev Expense := Rec ExpenseFields
abbrev Task := Rec TaskFields
abbrev Note := Rec NoteFields

/-- The budget document `users/{uid}/budget/current`. -/
structure BudgetDoc where
  amount : ℚ
  percentageSpent : Option ℚ
deriving DecidableEq, Repr

/-- A call of one of the write helpers of `FirebaseService.js`, with its arguments. -/
inductive RemoteCall where
  | updateBudget (amount : ℚ)
  | addExpense (expense : ExpenseData)
  | editExpense (id : String) (expense : ExpenseData)
  | deleteExpense (id : String)
  | updateBudgetPercentage (percentage : ℚ)
  | addTaskToFirestore (task : TaskFields)
  | toggleTaskInFirestore (taskId : String) (newStatus : Bool)
  | deleteTaskFromFirestore (taskId : String)
  | addNoteToFirestore (note : NoteFields)
  | deleteNoteFromFirestore (noteId : String)
deriving DecidableEq, Repr

/-- The button of a confirmation dialog the user ends up pressing. -/
inductive DialogChoice where
  | cancel
  | delete
deriving DecidableEq, Repr

/-! ## Small JavaScript helpers -/

/-- White space and line terminators removed by `String.prototype.trim`. -/
def isJsWhiteSpace (c : Char) : Bool :=
  let n := c.toNat
  n == 0x09 || n == 0x0A || n == 0x0B || n == 0x0C || n == 0x0D || n == 0x20 ||
  n == 0xA0 || n == 0x1680 || (0x2000 ≤ n && n ≤ 0x200A) || n == 0x2028 ||
  n == 0x2029 || n == 0x202F || n == 0x205F || n == 0x3000 || n == 0xFEFF

/-- The method `String.prototype.trim`. -/
def jsTrim (s : String) : String :=
  String.mk ((s.data.dropWhile isJsWhiteSpace).reverse.dropWhile isJsWhiteSpace).reverse

/-- The expression `Date.now().toString()` for the clock value `now` (milliseconds). -/
def dateNowToString (now : Nat) : String := toString now

/-- The reduction `list.reduce((sum, expense) => sum + expense.amount, 0)`. -/
def sumAmounts (list : List Expense) : ℚ :=
  list.foldl (fun sum expense => sum + expense.fields.amount) 0

/-- The object `{ ...expenseData, id: tempId }`. -/
def newExpenseOf (expenseData : ExpenseData) (tempId : String) : Expense :=
  { id := tempId
    fields := { description := expenseData.description, amount := expenseData.amount,
                category := expenseData.category, date := none } }

/-- The object `{ ...e, ...expenseData }`. -/
def mergeExpense (e : Expense) (expenseData : ExpenseData) : Expense :=
  { e with fields := { e.fields with description := expenseData.description,
                                     amount := expenseData.amount,
                                     category := expenseData.category } }

/-! ## BudgetTrackerScreen -/

/-- State of `BudgetTrackerScreen`: its `useState` variables, the `isMounted` variable
of the subscription effect, and the recorded alerts and remote calls. -/
structure BudgetScreen where
  budget : ℚ
  expenses : List Expense
  showBudgetModal : Bool
  showExpenseModal : Bool
  selectedCategory : String
  editingExpense : Option Expense
  loading : Bool
  error : Option String
  isMounted : Bool
  alerts : List AlertCall
  calls : List RemoteCall
deriving DecidableEq, Repr

/-- The `useState` initial values, with the subscription effect started. -/
def BudgetScreen.initial : BudgetScreen :=
  { budget := 10000, expenses := [], showBudgetModal := false, showExpenseModal := false,
    selectedCategory := "Venue", editingExpense := none, loading := true, error := none,
    isMounted := true, alerts := [], calls := [] }

/-- The callback given to `subscribeToBudget`, fed by the wrapper of `FirebaseService`
(`doc.exists() ? doc.data().amount : 10000`). -/
def onBudgetSnapshot (doc : Option BudgetDoc) (s : BudgetScreen) : BudgetScreen :=
  let amount := match doc with
    | some d => d.amount
    | none => 10000
  if s.isMounted then { s with budget := amount, loading := false, error := none } else s

/-- The callback given to `subscribeToExpenses`, fed by the wrapper of `FirebaseService`
(`snapshot.docs.map(doc => ({ id: doc.id, ...doc.data() }))`). -/
def onExpensesSnapshot (docs : List (Doc ExpenseFields)) (s : BudgetScreen) : BudgetScreen :=
  let expensesData := docs.map docToRecord
  if s.isMounted then { s with expenses := expensesData, loading := false, error := none } else s

/-- The cleanup returned by the subscription effect of `BudgetTrackerScreen`. -/
def BudgetScreen.cleanup (s : BudgetScreen) : BudgetScreen :=
  { s with isMounted := false }

/-- A stream callback that may run while a budget-screen promise is pending. -/
inductive BudgetEvent where
  | budgetSnapshot (doc : Option BudgetDoc)
  | expensesSnapshot (docs : List (Doc ExpenseFields))
deriving DecidableEq, Repr

/-- Run one stream callback of the budget screen. -/
def BudgetEvent.deliver (s : BudgetScreen) : BudgetEvent → BudgetScreen
  | .budgetSnapshot doc => onBudgetSnapshot doc s
  | .expensesSnapshot docs => onExpensesSnapshot docs s

/-- Run the stream callbacks delivered while a promise is pending, in order. -/
def BudgetEvent.deliverAll (s : BudgetScreen) (events : List BudgetEvent) : BudgetScreen :=
  events.foldl BudgetEvent.deliver s

/-- The derived values computed by `renderContent` (lines 138-140). -/
def totalSpent (s : BudgetScreen) : ℚ := sumAmounts s.expenses

def remainingBudget (s : BudgetScreen) : ℚ := s.budget - totalSpent s

def percentageSpent (s : BudgetScreen) : ℚ :=
  if s.budget > 0 then (totalSpent s / s.budget) * 100 else 0

/-- Formatting methods of the JavaScript runtime used by the summary card. -/
structure NumberFormat where
  toLocaleString : ℚ → String
  toFixed1 : ℚ → String
  toStr : ℚ → String

/-- What the summary card of `renderContent` shows (lines 317-338). -/
structure SummaryCard where
  remainingColor : String
  remainingText : String
  progressBarWidth : String
  progressBarColor : String
  progressText : String
deriving DecidableEq, Repr

/-- The text `{remainingBudget < 0 && ' (Over)'}`: React renders nothing for `false`. -/
def overLabel (s : BudgetScreen) : String :=
  if remainingBudget s < 0 then " (Over)" else ""

/-- The summary card of `renderContent`. -/
def summaryCard (fmt : NumberFormat) (s : BudgetScreen) : SummaryCard :=
  { remainingColor := if remainingBudget s ≥ 0 then "#4ECDC4" else "#FF6B6B"
    remainingText := "$" ++ fmt.toLocaleString |remainingBudget s| ++ overLabel s
    progressBarWidth := fmt.toStr (min (percentageSpent s) 100) ++ "%"
    progressBarColor := if percentageSpent s > 80 then "#FF6B6B" else "#4ECDC4"
    progressText := fmt.toFixed1 (percentageSpent s) ++ "% of budget spent" }

/-- The list `updatedExpenses` of `handleAddExpense` (lines 194-196), from the rendered
`expenses` and `editingExpense`. -/
def handleAddExpense.updatedExpenses (r : BudgetScreen) (expenseData : ExpenseData)
    (now : Nat) : List Expense :=
  match r.editingExpense with
  | some editing =>
      r.expenses.map (fun e => if e.id = editing.id then mergeExpense e expenseData else e)
  | none => r.expenses ++ [newExpenseOf expenseData (dateNowToString now)]

/-- The value `newPercentage` of `handleAddExpense` (lines 198-199). -/
def handleAddExpense.newPercentage (r : BudgetScreen) (expenseData : ExpenseData)
    (now : Nat) : ℚ :=
  let newTotalSpent := sumAmounts (handleAddExpense.updatedExpenses r expenseData now)
  if r.budget > 0 then (newTotalSpent / r.budget) * 100 else 0

/-- The part of `handleAddExpense` that runs up to the first `await`: the optimistic
`setExpenses` and the call of `editExpense` or `addExpense`. -/
def handleAddExpense.start (r : BudgetScreen) (expenseData : ExpenseData) (now : Nat)
    (s : BudgetScreen) : BudgetScreen :=
  match r.editingExpense with
  | some editing =>
      { s with
        expenses := s.expenses.map
          (fun e => if e.id = editing.id then mergeExpense e expenseData else e)
        calls := s.calls ++ [RemoteCall.editExpense editing.id expenseData] }
  | none =>
      { s with
        expenses := s.expenses ++ [newExpenseOf expenseData (dateNowToString now)]
        calls := s.calls ++ [RemoteCall.addExpense expenseData] }

/-- The `catch` block of `handleAddExpense`; `originalExpenses` is `[...expenses]`. -/
def handleAddExpense.onError (r : BudgetScreen) (s : BudgetScreen) : BudgetScreen :=
  let originalExpenses := r.expenses
  { s with expenses := originalExpenses
           alerts := s.alerts ++ [{ title := "Error", message := "Failed to save expense" }] }

/-- The handler `handleAddExpense(expenseData)`.  `primary` settles `editExpense` /
`addExpense`, `secondary` settles `updateBudgetPercentage`; `pending₁` and `pending₂` are
the stream callbacks that run while the first and the second promise are pending. -/
def handleAddExpense (r : BudgetScreen) (expenseData : ExpenseData) (now : Nat)
    (primary secondary : Outcome) (pending₁ pending₂ : List BudgetEvent)
    (s : BudgetScreen) : BudgetScreen :=
  let s₁ := BudgetEvent.deliverAll (handleAddExpense.start r expenseData now s) pending₁
  match primary with
  | .rejected => handleAddExpense.onError r s₁
  | .resolved =>
      let s₂ := { s₁ with calls := s₁.calls ++
        [RemoteCall.updateBudgetPercentage (handleAddExpense.newPercentage r expenseData now)] }
      let s₃ := BudgetEvent.deliverAll s₂ pending₂
      match secondary with
      | .rejected => handleAddExpense.onError r s₃
      | .resolved => { s₃ with showExpenseModal := false, editingExpense := none }

/-- The value `newPercentage` of the `Delete` button of `handleDeleteExpense`
(lines 239-241). -/
def handleDeleteExpense.newPercentage (r : BudgetScreen) (expenseId : String) : ℚ :=
  let updatedExpenses := r.expenses.filter (fun e => e.id != expenseId)
  let newTotalSpent := sumAmounts updatedExpenses
  if r.budget > 0 then (newTotalSpent / r.budget) * 100 else 0

/-- The `catch` block of the `Delete` button of `handleDeleteExpense`. -/
def handleDeleteExpense.onError (r : BudgetScreen) (s : BudgetScreen) : BudgetScreen :=
  let originalExpenses := r.expenses
  { s with expenses := originalExpenses
           alerts := s.alerts ++ [{ title := "Error", message := "Failed to delete expense" }] }

/-- The `onPress` of the `Delete` button of the dialog of `handleDeleteExpense`. -/
def handleDeleteExpense.onPress (r : BudgetScreen) (expenseId : String)
    (primary secondary : Outcome) (pending₁ pending₂ : List BudgetEvent)
    (s : BudgetScreen) : BudgetScreen :=
  let s₀ := { s with expenses := s.expenses.filter (fun e => e.id != expenseId)
                     calls := s.calls ++ [RemoteCall.deleteExpense expenseId] }
  let s₁ := BudgetEvent.deliverAll s₀ pending₁
  match primary with
  | .rejected => handleDeleteExpense.onError r s₁
  | .resolved =>
      let s₂ := { s₁ with calls := s₁.calls ++
        [RemoteCall.updateBudgetPercentage (handleDeleteExpense.newPercentage r expenseId)] }
      let s₃ := BudgetEvent.deliverAll s₂ pending₂
      match secondary with
      | .rejected => handleDeleteExpense.onError r s₃
      | .resolved => s₃

/-- The handler `handleDeleteExpense(expenseId)`: the confirmation dialog, then the
button the user presses. -/
def handleDeleteExpense (r : BudgetScreen) (expenseId : String) (choice : DialogChoice)
    (primary secondary : Outcome) (pending₁ pending₂ : List BudgetEvent)
    (s : BudgetScreen) : BudgetScreen :=
  let s₀ := { s with alerts := s.alerts ++
    [{ title := "Delete Expense", message := "Are you sure you want to delete this expense?" }] }
  match choice with
  | .cancel => s₀
  | .delete => handleDeleteExpense.onPress r expenseId primary secondary pending₁ pending₂ s₀

/-- The value `newPercentage` of `handleUpdateBudget` (line 273); `totalSpent` is the
value of the enclosing render. -/
def handleUpdateBudget.newPercentage (r : BudgetScreen) (newBudget : ℚ) : ℚ :=
  if newBudget > 0 then (totalSpent r / newBudget) * 100 else 0

/-- The `catch` block of `handleUpdateBudget`. -/
def handleUpdateBudget.onError (r : BudgetScreen) (s : BudgetScreen) : BudgetScreen :=
  let originalBudget := r.budget
  { s with budget := originalBudget
           alerts := s.alerts ++ [{ title := "Error", message := "Failed to update budget" }] }

/-- The handler `handleUpdateBudget(newBudget)`. -/
def handleUpdateBudget (r : BudgetScreen) (newBudget : ℚ)
    (primary secondary : Outcome) (pending₁ pending₂ : List BudgetEvent)
    (s : BudgetScreen) : BudgetScreen :=
  let s₀ := { s with budget := newBudget, calls := s.calls ++ [RemoteCall.updateBudget newBudget] }
  let s₁ := BudgetEvent.deliverAll s₀ pending₁
  match primary with
  | .rejected => handleUpdateBudget.onError r s₁
  | .resolved =>
      let s₂ := { s₁ with calls := s₁.calls ++
        [RemoteCall.updateBudgetPercentage (handleUpdateBudget.newPercentage r newBudget)] }
      let s₃ := BudgetEvent.deliverAll s₂ pending₂
      match secondary with
      | .rejected => handleUpdateBudget.onError r s₃
      | .resolved => { s₃ with showBudgetModal := false }

/-! ## TaskListScreen -/

/-- State of `TaskListScreen`: its `useState` variables, whether the cleanup of the
subscription effect has called `unsubscribe`, and the recorded alerts and remote calls. -/
structure TaskScreen where
  newTask : String
  tasks : List Task
  selectedCategory : String
  loading : Bool
  deadline : Option String
  error : Option String
  unsubscribed : Bool
  alerts : List AlertCall
  calls : List RemoteCall
deriving DecidableEq, Repr

/-- The `useState` initial values, with the subscription effect started. -/
def TaskScreen.initial : TaskScreen :=
  { newTask := "", tasks := [], selectedCategory := "All", loading := true, deadline := none,
    error := none, unsubscribed := false, alerts := [], calls := [] }

/-- The snapshot callback given to `onSnapshot(getUserTasksRef(), ...)` (lines 64-80). -/
def onTasksSnapshot (querySnapshot : List (Doc TaskFields)) (s : TaskScreen) : TaskScreen :=
  let tasksData := querySnapshot.map docToRecord
  { s with tasks := tasksData, error := none, loading := false }

/-- The error callback given to `onSnapshot(getUserTasksRef(), ...)` (lines 81-85). -/
def onTasksError (s : TaskScreen) : TaskScreen :=
  { s with error := some "Failed to load tasks", loading := false }

/-- The cleanup returned by the subscription effect of `TaskListScreen`: `unsubscribe()`
(and `clearInterval(timer)`). -/
def TaskScreen.cleanup (s : TaskScreen) : TaskScreen :=
  { s with unsubscribed := true }

/-- A stream callback that may run while a task-screen promise is pending. -/
inductive TaskEvent where
  | snapshot (querySnapshot : List (Doc TaskFields))
  | error
deriving DecidableEq, Repr

/-- Run one stream callback of the task screen. -/
def TaskEvent.deliver (s : TaskScreen) : TaskEvent → TaskScreen
  | .snapshot querySnapshot => onTasksSnapshot querySnapshot s
  | .error => onTasksError s

/-- Run the stream callbacks delivered while a promise is pending, in order. -/
def TaskEvent.deliverAll (s : TaskScreen) (events : List TaskEvent) : TaskScreen :=
  events.foldl TaskEvent.deliver s

/-- The object `newTaskData` of `handleAddTask`; `createdAt` is `new Date().toISOString()`. -/
def handleAddTask.newTaskData (r : TaskScreen) (createdAt : String) : TaskFields :=
  { text := jsTrim r.newTask, completed := false, category := "General",
    createdAt := createdAt, deadline := r.deadline, date := none }

/-- The handler `handleAddTask()`; `o` settles `addTaskToFirestore`. -/
def handleAddTask (r : TaskScreen) (createdAt : String) (now : Nat) (o : Outcome)
    (pending : List TaskEvent) (s : TaskScreen) : TaskScreen :=
  if jsTrim r.newTask = "" then s
  else
    let newTaskData := handleAddTask.newTaskData r createdAt
    let tempId := dateNowToString now
    let tempTask : Task := { id := tempId, fields := newTaskData }
    let s₀ := { s with tasks := s.tasks ++ [tempTask], newTask := "", deadline := none
                       calls := s.calls ++ [RemoteCall.addTaskToFirestore newTaskData] }
    let s₁ := TaskEvent.deliverAll s₀ pending
    match o with
    | .resolved => s₁
    | .rejected =>
        { s₁ with tasks := s₁.tasks.filter (fun task => task.id != tempId)
                  alerts := s₁.alerts ++ [{ title := "Error", message := "Failed to add task" }] }

/-- The object `{ ...t, completed: !t.completed }`. -/
def toggleCompleted (t : Task) : Task :=
  { t with fields := { t.fields with completed := !t.fields.completed } }

/-- The `catch` block of `toggleTask`; `originalTasks` is `[...tasks]`. -/
def toggleTask.onError (r : TaskScreen) (s : TaskScreen) : TaskScreen :=
  let originalTasks := r.tasks
  { s with tasks := originalTasks
           alerts := s.alerts ++ [{ title := "Error", message := "Failed to update task" }] }

/-- The handler `toggleTask(id)`; `o` settles `toggleTaskInFirestore`.  When no rendered
task has the id, `task` is `undefined` and reading `task.completed` throws inside the
`try` block, before the remote call. -/
def toggleTask (r : TaskScreen) (id : String) (o : Outcome) (pending : List TaskEvent)
    (s : TaskScreen) : TaskScreen :=
  let task := r.tasks.find? (fun t => t.id == id)
  let s₀ := { s with tasks := s.tasks.map (fun t => if t.id = id then toggleCompleted t else t) }
  match task with
  | none => toggleTask.onError r s₀
  | some task =>
      let s₁ := { s₀ with calls := s₀.calls ++
        [RemoteCall.toggleTaskInFirestore id (!task.fields.completed)] }
      let s₂ := TaskEvent.deliverAll s₁ pending
      match o with
      | .resolved => s₂
      | .rejected => toggleTask.onError r s₂

/-- The `catch` block of the `Delete` button of `deleteTask`. -/
def deleteTask.onError (r : TaskScreen) (s : TaskScreen) : TaskScreen :=
  let originalTasks := r.tasks
  { s with tasks := originalTasks
           alerts := s.alerts ++ [{ title := "Error", message := "Failed to delete task" }] }

/-- The `onPress` of the `Delete` button of the dialog of `deleteTask`. -/
def deleteTask.onPress (r : TaskScreen) (id : String) (o : Outcome) (pending : List TaskEvent)
    (s : TaskScreen) : TaskScreen :=
  let s₀ := { s with tasks := s.tasks.filter (fun task => task.id != id)
                     calls := s.calls ++ [RemoteCall.deleteTaskFromFirestore id] }
  let s₁ := TaskEvent.deliverAll s₀ pending
  match o with
  | .resolved => s₁
  | .rejected => deleteTask.onError r s₁

/-- The handler `deleteTask(id)`: the confirmation dialog, then the button the user
presses. -/
def deleteTask (r : TaskScreen) (id : String) (choice : DialogChoice) (o : Outcome)
    (pending : List TaskEvent) (s : TaskScreen) : TaskScreen :=
  let s₀ := { s with alerts := s.alerts ++
    [{ title := "Delete Task", message := "Are you sure you want to delete this task?" }] }
  match choice with
  | .cancel => s₀
  | .delete => deleteTask.onPress r id o pending s₀

/-! ## NotesScreen -/

/-- State of `NoteScreen`: its `useState` variables, whether the cleanup of the
subscription effect has called `unsubscribe`, and the recorded alerts and remote calls. -/
structure NoteScreen where
  newTitle : String
  newNote : String
  notes : List Note
  selectedColor : String
  selectedEmoji : String
  loading : Bool
  error : Option String
  unsubscribed : Bool
  alerts : List AlertCall
  calls : List RemoteCall
deriving DecidableEq, Repr

def colorOptions : List String := ["#4ECDC4", "#FF6B6B", "#FFD93D", "#6A67CE"]

def emojiOptions : List String := ["📝", "💡", "📌", "✅", "🧠", "🎯"]

/-- The `useState` initial values, with the subscription effect started. -/
def NoteScreen.initial : NoteScreen :=
  { newTitle := "", newNote := "", notes := [], selectedColor := "#4ECDC4",
    selectedEmoji := "📝", loading := true, error := none, unsubscribed := false,
    alerts := [], calls := [] }

/-- The snapshot callback given to `onSnapshot(getUserNotesRef(), ...)` (lines 42-58). -/
def onNotesSnapshot (querySnapshot : List (Doc NoteFields)) (s : NoteScreen) : NoteScreen :=
  let notesData := querySnapshot.map docToRecord
  { s with notes := notesData, error := none, loading := false }

/-- The error callback given to `onSnapshot(getUserNotesRef(), ...)` (lines 59-63). -/
def onNotesError (s : NoteScreen) : NoteScreen :=
  { s with error := some "Failed to load notes", loading := false }

/-- The cleanup returned by the subscription effect of `NoteScreen`: `unsubscribe()`. -/
def NoteScreen.cleanup (s : NoteScreen) : NoteScreen :=
  { s with unsubscribed := true }

/-- A stream callback that may run while a note-screen promise is pending. -/
inductive NoteEvent where
  | snapshot (querySnapshot : List (Doc NoteFields))
  | error
deriving DecidableEq, Repr

/-- Run one stream callback of the note screen. -/
def NoteEvent.deliver (s : NoteScreen) : NoteEvent → NoteScreen
  | .snapshot querySnapshot => onNotesSnapshot querySnapshot s
  | .error => onNotesError s

/-- Run the stream callbacks delivered while a promise is pending, in order. -/
def NoteEvent.deliverAll (s : NoteScreen) (events : List NoteEvent) : NoteScreen :=
  events.foldl NoteEvent.deliver s

/-- The object `newNoteData` of `handleAddNote`; `createdAt` is `new Date().toISOString()`. -/
def handleAddNote.newNoteData (r : NoteScreen) (createdAt : String) : NoteFields :=
  { title := if jsTrim r.newTitle = "" then "Untitled" else jsTrim r.newTitle
    text := jsTrim r.newNote, color := r.selectedColor, emoji := r.selectedEmoji,
    createdAt := createdAt }

/-- The handler `handleAddNote()`; `o` settles `addNoteToFirestore`. -/
def handleAddNote (r : NoteScreen) (createdAt : String) (now : Nat) (o : Outcome)
    (pending : List NoteEvent) (s : NoteScreen) : NoteScreen :=
  if jsTrim r.newNote = "" then s
  else
    let newNoteData := handleAddNote.newNoteData r createdAt
    let tempId := dateNowToString now
    let tempNote : Note := { id := tempId, fields := newNoteData }
    let s₀ := { s with notes := s.notes ++ [tempNote], newNote := "", newTitle := ""
                       calls := s.calls ++ [RemoteCall.addNoteToFirestore newNoteData] }
    let s₁ := NoteEvent.deliverAll s₀ pending
    match o with
    | .resolved => s₁
    | .rejected =>
        { s₁ with notes := s₁.notes.filter (fun note => note.id != tempId)
                  alerts := s₁.alerts ++ [{ title := "Error", message := "Failed to add note" }] }

/-- The `catch` block of the `Delete` button of `handleDeleteNote`; `originalNotes` is
`[...notes]`. -/
def handleDeleteNote.onError (r : NoteScreen) (s : NoteScreen) : NoteScreen :=
  let originalNotes := r.notes
  { s with notes := originalNotes
           alerts := s.alerts ++ [{ title := "Error", message := "Failed to delete note" }] }

/-- The `onPress` of the `Delete` button of the dialog of `handleDeleteNote`. -/
def handleDeleteNote.onPress (r : NoteScreen) (id : String) (o : Outcome)
    (pending : List NoteEvent) (s : NoteScreen) : NoteScreen :=
  let s₀ := { s with notes := s.notes.filter (fun note => note.id != id)
                     calls := s.calls ++ [RemoteCall.deleteNoteFromFirestore id] }
  let s₁ := NoteEvent.deliverAll s₀ pending
  match o with
  | .resolved => s₁
  | .rejected => handleDeleteNote.onError r s₁

/-- The handler `handleDeleteNote(id)`: the confirmation dialog, then the button the user
presses. -/
def handleDeleteNote (r : NoteScreen) (id : String) (choice : DialogChoice) (o : Outcome)
    (pending : List NoteEvent) (s : NoteScreen) : NoteScreen :=
  let s₀ := { s with alerts := s.alerts ++
    [{ title := "Delete Note", message := "Are you sure you want to delete this note?" }] }
  match choice with
  | .cancel => s₀
  | .delete => handleDeleteNote.onPress r id o pending s₀

/-- The method `Array.prototype.indexOf` on an array of strings: the first index of `x`,
or `-1`. -/
def jsIndexOf (xs : List String) (x : String) : Int :=
  if x ∈ xs then (xs.indexOf x : Nat) else -1

/-- The element `options[(options.indexOf(selected) + 1) % options.length]` computed by
`cycleColor` and `cycleEmoji`; the index is always within the array. -/
def nextOption (options : List String) (selected : String) : String :=
  let index := jsIndexOf options selected
  let nextIndex := (index + 1) % (options.length : Int)
  options.getD nextIndex.toNat "undefined"

/-- The handler `cycleColor()`. -/
def cycleColor (s : NoteScreen) : NoteScreen :=
  { s with selectedColor := nextOption colorOptions s.selectedColor }

/-- The handler `cycleEmoji()`. -/
def cycleEmoji (s : NoteScreen) : NoteScreen :=
  { s with selectedEmoji := nextOption emojiOptions s.selectedEmoji }

/-- The `onPress` of the `Retry` button of the error state of `NoteScreen`. -/
def NoteScreen.retry (s : NoteScreen) : NoteScreen :=
  { s with loading := true, error := none }

/-- Everything that can happen to a mounted `NoteScreen`: typing into the two inputs, the
colour and emoji buttons, the add button (with the clock values, the outcome of the write
and the stream callbacks delivered meanwhile), the delete button of a note, a stream
callback, and the retry button. -/
inductive NoteAction where
  | typeTitle (text : String)
  | typeNote (text : String)
  | cycleColor
  | cycleEmoji
  | addNote (createdAt : String) (now : Nat) (o : Outcome) (pending : List NoteEvent)
  | deleteNote (id : String) (choice : DialogChoice) (o : Outcome) (pending : List NoteEvent)
  | stream (event : NoteEvent)
  | retry
deriving DecidableEq, Repr

/-- One action on the note screen; handlers run from the freshly rendered screen. -/
def NoteScreen.step (s : NoteScreen) : NoteAction → NoteScreen
  | .typeTitle text => { s with newTitle := text }
  | .typeNote text => { s with newNote := text }
  | .cycleColor => WeddingManager.cycleColor s
  | .cycleEmoji => WeddingManager.cycleEmoji s
  | .addNote createdAt now o pending => handleAddNote s createdAt now o pending s
  | .deleteNote id choice o pending => handleDeleteNote s id choice o pending s
  | .stream event => NoteEvent.deliver s event
  | .retry => s.retry

/-- The note screen after a sequence of actions, starting from its initial state. -/
def NoteScreen.after (actions : List NoteAction) : NoteScreen :=
  actions.foldl NoteScreen.step NoteScreen.initial

/-! ## tasksSlice -/

/-- The reducer `setTasks` of `tasksSlice`. -/
def tasksSlice.setTasks (_state : List Task) (payload : List Task) : List Task := payload

/-- The reducer `syncTasksFromFirebase` of `tasksSlice`. -/
def tasksSlice.syncTasksFromFirebase (_state : List Task) (payload : List Task) : List Task :=
  payload

/-- The remote call `handleAddExpense` awaits first: `editExpense` when an expense is
being edited, `addExpense` otherwise (lines 202-206). -/
def handleAddExpense.primaryCall (r : BudgetScreen) (expenseData : ExpenseData) : RemoteCall :=
  match r.editingExpense with
  | some editing => RemoteCall.editExpense editing.id expenseData
  | none => RemoteCall.addExpense expenseData

/-! ## The remote collections and the whole system

The remote store is the external collaborator of the screens.  A collection is the list
of its documents; the operations below are the Firestore calls made by
`FirebaseService.js`: `setDoc` on a fresh document reference, `setDoc` on the reference
of a given id (which creates the document when there is none), `updateDoc` (which
rejects when there is no document) and `deleteDoc` (which resolves also when there is no
document).  A remote write takes effect when it is issued. -/

/-- The call `setDoc(doc(collectionRef), data)`: a new document under the generated id
`newId`; `none` when `newId` is in use, which a generated id never is. -/
def Store.addDoc {δ : Type} (store : List (Doc δ)) (newId : String) (data : δ) :
    Option (List (Doc δ)) :=
  if store.any (fun d => d.id == newId) then none
  else some (store ++ [{ id := newId, data := data }])

/-- The call `setDoc(doc(collectionRef, id), data)`: replaces the data of the document,
creates the document when there is none. -/
def Store.setDoc {δ : Type} (store : List (Doc δ)) (id : String) (data : δ) : List (Doc δ) :=
  if store.any (fun d => d.id == id) then
    store.map (fun d => if d.id = id then { id := id, data := data } else d)
  else store ++ [{ id := id, data := data }]

/-- The call `updateDoc(doc(collectionRef, id), ...)`, the update being `f`; `none` when
the call rejects because there is no such document. -/
def Store.updateDoc {δ : Type} (store : List (Doc δ)) (id : String) (f : δ → δ) :
    Option (List (Doc δ)) :=
  if store.any (fun d => d.id == id) then
    some (store.map (fun d => if d.id = id then { d with data := f d.data } else d))
  else none

/-- The call `deleteDoc(doc(collectionRef, id))`. -/
def Store.deleteDoc {δ : Type} (store : List (Doc δ)) (id : String) : List (Doc δ) :=
  store.filter (fun d => d.id != id)

/-- The data `{ ...expense, date: new Date().toISOString() }` written by `addExpense` and
`editExpense`. -/
def expenseDocData (expense : ExpenseData) (date : String) : ExpenseFields :=
  { description := expense.description, amount := expense.amount,
    category := expense.category, date := some date }

/-- The remote side of the task screen: the `tasks` collection of the user. -/
abbrev TaskStore := List (Doc TaskFields)

/-- The effect of a write helper of `FirebaseService.js` on the `tasks` collection, for
an authenticated user; `newId` is the id generated for a new document and `date` the
value of `new Date().toISOString()`.  The result is `none` when the promise rejects. -/
def TaskStore.write (newId date : String) (store : TaskStore) : RemoteCall → Option TaskStore
  | .addTaskToFirestore task => Store.addDoc store newId { task with date := some date }
  | .toggleTaskInFirestore taskId newStatus =>
      Store.updateDoc store taskId (fun data => { data with completed := newStatus })
  | .deleteTaskFromFirestore taskId => some (Store.deleteDoc store taskId)
  | _ => none

/-- The remote side of the budget screen: the `expenses` collection and the budget
document of the user, and the number of `editExpense` calls so far that found no
document to replace. -/
structure BudgetStore where
  expenses : List (Doc ExpenseFields)
  budgetDoc : Option BudgetDoc
  blindEdits : Nat
deriving DecidableEq, Repr

/-- The effect of a write helper of `FirebaseService.js` on the remote side of the
budget screen, for an authenticated user.  The result is `none` when the promise
rejects. -/
def BudgetStore.write (newId date : String) (store : BudgetStore) :
    RemoteCall → Option BudgetStore
  | .updateBudget amount =>
      some { store with budgetDoc := some { amount := amount, percentageSpent := none } }
  | .addExpense expense =>
      (Store.addDoc store.expenses newId (expenseDocData expense date)).map
        (fun docs => { store with expenses := docs })
  | .editExpense id expense =>
      some { store with
        expenses := Store.setDoc store.expenses id (expenseDocData expense date)
        blindEdits := if store.expenses.any (fun d => d.id == id) then store.blindEdits
                      else store.blindEdits + 1 }
  | .deleteExpense id => some { store with expenses := Store.deleteDoc store.expenses id }
  | .updateBudgetPercentage percentage =>
      store.budgetDoc.map (fun d =>
        { store with budgetDoc := some { d with percentageSpent := some percentage } })
  | _ => none

/-- Apply remote calls in order; `none` as soon as one rejects. -/
def writeAll {σ : Type} (write : σ → RemoteCall → Option σ) (store : σ) :
    List RemoteCall → Option σ
  | [] => some store
  | call :: calls =>
      match write store call with
      | none => none
      | some store' => writeAll write store' calls

/-- A mutation made on the task screen.  `create`: the user types `text`, picks
`deadline` and presses the add button at clock value `now`. -/
inductive TaskMutation where
  | create (text : String) (deadline : Option String) (createdAt : String) (now : Nat)
      (newId date : String)
  | toggle (id : String)
  | delete (id : String)
deriving DecidableEq, Repr

/-- The task screen together with the remote `tasks` collection. -/
structure TaskSystem where
  screen : TaskScreen
  store : TaskStore
deriving DecidableEq, Repr

/-- The system once the subscription has delivered the first snapshot of `R`. -/
def TaskSystem.start (R : TaskStore) : TaskSystem :=
  { screen := onTasksSnapshot R TaskScreen.initial, store := R }

/-- The stream delivers the content of the remote collection. -/
def TaskSystem.deliver (sys : TaskSystem) : TaskSystem :=
  { sys with screen := onTasksSnapshot sys.store sys.screen }

/-- The screen after the handler of a mutation has run with every write resolving;
`none` when the press is not available (no such row) or makes no mutation (empty text). -/
def TaskSystem.handle (s : TaskScreen) : TaskMutation → Option TaskScreen
  | .create text deadline createdAt now _ _ =>
      let typed := { s with newTask := text, deadline := deadline }
      if jsTrim text = "" then none
      else some (handleAddTask typed createdAt now .resolved [] typed)
  | .toggle id =>
      match s.tasks.find? (fun t => t.id == id) with
      | none => none
      | some _ => some (toggleTask s id .resolved [] s)
  | .delete id => some (deleteTask s id .delete .resolved [] s)

/-- The id generated for a new document and the write date, carried by a mutation. -/
def TaskMutation.env : TaskMutation → String × String
  | .create _ _ _ _ newId date => (newId, date)
  | _ => ("", "")

/-- One mutation on the system: the handler runs, and the remote calls it has made are
applied to the remote collection; `none` when one of them rejects. -/
def TaskSystem.mutate (sys : TaskSystem) (m : TaskMutation) : Option TaskSystem :=
  match TaskSystem.handle sys.screen m with
  | none => none
  | some screen' =>
      match writeAll (TaskStore.write m.env.1 m.env.2) sys.store
          (screen'.calls.drop sys.screen.calls.length) with
      | none => none
      | some store' => some { screen := screen', store := store' }

/-- Run a sequence of mutations; the flag tells whether the stream delivers the content
of the remote collection before the next mutation. -/
def TaskSystem.run (sys : TaskSystem) : List (TaskMutation × Bool) → Option TaskSystem
  | [] => some sys
  | (m, delivered) :: rest =>
      match sys.mutate m with
      | none => none
      | some sys' => TaskSystem.run (if delivered then sys'.deliver else sys') rest

/-- A mutation made on the budget screen.  `add`: the `Add Expense` button, then the
modal saves `expenseData`.  `edit`: the edit button of the row with the given id, then
the modal saves `expenseData`. -/
inductive ExpenseMutation where
  | add (expenseData : ExpenseData) (now : Nat) (newId date : String)
  | edit (id : String) (expenseData : ExpenseData) (now : Nat) (date : String)
  | delete (id : String)
deriving DecidableEq, Repr

/-- The `onPress` of the `Add Expense` button (lines 361-365). -/
def pressAddExpense (s : BudgetScreen) : BudgetScreen :=
  { s with editingExpense := none, selectedCategory := "Venue", showExpenseModal := true }

/-- The handler `handleEditExpense(expense)`. -/
def handleEditExpense (expense : Expense) (s : BudgetScreen) : BudgetScreen :=
  { s with editingExpense := some expense, selectedCategory := expense.fields.category,
           showExpenseModal := true }

/-- The budget screen together with its remote side. -/
structure BudgetSystem where
  screen : BudgetScreen
  store : BudgetStore
deriving DecidableEq, Repr

/-- The system once the subscriptions have delivered the first snapshots of the
collection `R` and of the budget document. -/
def BudgetSystem.start (R : List (Doc ExpenseFields)) (budgetDoc : Option BudgetDoc) :
    BudgetSystem :=
  { screen := onBudgetSnapshot budgetDoc (onExpensesSnapshot R BudgetScreen.initial)
    store := { expenses := R, budgetDoc := budgetDoc, blindEdits := 0 } }

/-- The streams deliver the content of the remote collection and the budget document. -/
def BudgetSystem.deliver (sys : BudgetSystem) : BudgetSystem :=
  { sys with screen :=
      onBudgetSnapshot sys.store.budgetDoc (onExpensesSnapshot sys.store.expenses sys.screen) }

/-- The screen after the handler of a mutation has run with every write resolving;
`none` when the press is not available (no such row). -/
def BudgetSystem.handle (s : BudgetScreen) : ExpenseMutation → Option BudgetScreen
  | .add expenseData now _ _ =>
      let opened := pressAddExpense s
      some (handleAddExpense opened expenseData now .resolved .resolved [] [] opened)
  | .edit id expenseData now _ =>
      match s.expenses.find? (fun e => e.id == id) with
      | none => none
      | some item =>
          let opened := handleEditExpense item s
          some (handleAddExpense opened expenseData now .resolved .resolved [] [] opened)
  | .delete id => some (handleDeleteExpense s id .delete .resolved .resolved [] [] s)

/-- The id generated for a new document and the write date, carried by a mutation. -/
def ExpenseMutation.env : ExpenseMutation → String × String
  | .add _ _ newId date => (newId, date)
  | .edit _ _ _ date => ("", date)
  | .delete _ => ("", "")

/-- One mutation on the system: the handler runs, and the remote calls it has made are
applied to the remote side; `none` when one of them rejects. -/
def BudgetSystem.mutate (sys : BudgetSystem) (m : ExpenseMutation) : Option BudgetSystem :=
  match BudgetSystem.handle sys.screen m with
  | none => none
  | some screen' =>
      match writeAll (BudgetStore.write m.env.1 m.env.2) sys.store
          (screen'.calls.drop sys.screen.calls.length) with
      | none => none
      | some store' => some { screen := screen', store := store' }

/-- Run a sequence of mutations; the flag tells whether the streams deliver the content
of the remote side before the next mutation. -/
def BudgetSystem.run (sys : BudgetSystem) : List (ExpenseMutation × Bool) → Option BudgetSystem
  | [] => some sys
  | (m, delivered) :: rest =>
      match sys.mutate m with
      | none => none
      | some sys' => BudgetSystem.run (if delivered then sys'.deliver else sys') rest

/-! ## Replaying mutations against a record list

The reference the final Local Mirror State is compared with: each mutation applied, in
order, to the list of records.  A create adds a record under the id the store assigns,
an edit changes the record that has the id, a toggle flips `completed` of the record
that has the id, a delete removes the record that has the id. -/

/-- Replay one task mutation. -/
def replayTask (L : List Task) : TaskMutation → List Task
  | .create text deadline createdAt _ newId date =>
      L ++ [{ id := newId
              fields := { text := jsTrim text, completed := false, category := "General",
                          createdAt := createdAt, deadline := deadline, date := some date } }]
  | .toggle id =>
      L.map (fun t => if t.id = id then
        { t with fields := { t.fields with completed := !t.fields.completed } } else t)
  | .delete id => L.filter (fun t => t.id != id)

/-- Replay task mutations in order. -/
def replayTasks (L : List Task) (mutations : List TaskMutation) : List Task :=
  mutations.foldl replayTask L

/-- Replay one expense mutation. -/
def replayExpense (L : List Expense) : ExpenseMutation → List Expense
  | .add expenseData _ newId date =>
      L ++ [{ id := newId
              fields := { description := expenseData.description, amount := expenseData.amount,
                          category := expenseData.category, date := some date } }]
  | .edit id expenseData _ date =>
      L.map (fun e => if e.id = id then
        { e with fields := { description := expenseData.description,
                             amount := expenseData.amount,
                             category := expenseData.category, date := some date } } else e)
  | .delete id => L.filter (fun e => e.id != id)

/-- Replay expense mutations in order. -/
def replayExpenses (L : List Expense) (mutations : List ExpenseMutation) : List Expense :=
  mutations.foldl replayExpense L

/-- What relates the task list of the screen to the remote collection between two
deliveries: document ids are pairwise distinct; the first task shown under an id agrees
on `completed` with the document of that id; a task whose id no document has, and a
document whose id no task has, are not completed. -/
structure TaskSystem.Inv (sys : TaskSystem) : Prop where
  nodup : (sys.store.map (fun d => d.id)).Nodup
  agree : ∀ (t : Task) (d : Doc TaskFields),
    sys.screen.tasks.find? (fun t => t.id == d.id) = some t → d ∈ sys.store →
    t.fields.completed = d.data.completed
  localOnly : ∀ t ∈ sys.screen.tasks, (∀ d ∈ sys.store, d.id ≠ t.id) →
    t.fields.completed = false
  storeOnly : ∀ d ∈ sys.store, (∀ t ∈ sys.screen.tasks, t.id ≠ d.id) →
    d.data.completed = false

/-! ## The most recent snapshot among delivered stream callbacks -/

/-- The documents of the last task snapshot among `events`, if there is one. -/
def TaskEvent.lastSnapshot (events : List TaskEvent) : Option (List (Doc TaskFields)) :=
  events.foldl (fun acc e => match e with
    | .snapshot querySnapshot => some querySnapshot
    | .error => acc) none

/-- The documents of the last expenses snapshot among `events`, if there is one. -/
def BudgetEvent.lastExpensesSnapshot (events : List BudgetEvent) :
    Option (List (Doc ExpenseFields)) :=
  events.foldl (fun acc e => match e with
    | .expensesSnapshot docs => some docs
    | .budgetSnapshot _ => acc) none

/-! ## Subscriptions and their error callback -/

/-- What a subscription hands to `onSnapshot`: the snapshot callback and, when one is
given, the error callback (the third argument). -/
structure Listener (σ α : Type) where
  onNext : α → σ → σ
  onError : Option (σ → σ)

/-- The stream reports an error to a listener: the error callback runs when there is
one; without one the error reaches no code of the screen. -/
def Listener.reportError {σ α : Type} (listener : Listener σ α) (s : σ) : σ :=
  match listener.onError with
  | some callback => callback s
  | none => s

/-- The listener of `subscribeToBudget(callback)`: `onSnapshot(getUserBudgetRef(), ...)`
with the snapshot callback only. -/
def subscribeToBudget : Listener BudgetScreen (Option BudgetDoc) :=
  { onNext := onBudgetSnapshot, onError := none }

/-- The listener of `subscribeToExpenses(callback)`: `onSnapshot(getUserExpensesRef(), ...)`
with the snapshot callback only. -/
def subscribeToExpenses : Listener BudgetScreen (List (Doc ExpenseFields)) :=
  { onNext := onExpensesSnapshot, onError := none }

/-- The listener of `TaskListScreen`: `onSnapshot(getUserTasksRef(), ..., ...)` with both
callbacks. -/
def tasksListener : Listener TaskScreen (List (Doc TaskFields)) :=
  { onNext := onTasksSnapshot, onError := some onTasksError }

/-- The listener of `NoteScreen`: `onSnapshot(getUserNotesRef(), ..., ...)` with both
callbacks. -/
def notesListener : Listener NoteScreen (List (Doc NoteFields)) :=
  { onNext := onNotesSnapshot, onError := some onNotesError }

/-! ## The optimistic delete -/

/-- The updater `prev => prev.filter(x => x.id !== id)` of `deleteTask`,
`handleDeleteNote` and `handleDeleteExpense`. -/
def optimisticDelete {δ : Type} (list : List (Rec δ)) (id : String) : List (Rec δ) :=
  list.filter (fun x => x.id != id)

/-! ## ExpenseModal -/

/-- State of `ExpenseModal`: its `useState` variables. -/
structure ExpenseModal where
  description : String
  amount : String
  error : String
  showCategoryDropdown : Bool
deriving DecidableEq, Repr

/-- The function `resetForm()` of `ExpenseModal`. -/
def ExpenseModal.resetForm (_m : ExpenseModal) : ExpenseModal :=
  { description := "", amount := "", error := "", showCategoryDropdown := false }

/-- The handler `handleSave()` of `ExpenseModal`: the state of the modal afterwards and
the payload given to `onSave`, if `onSave` is called.  `parseFloat` yields `none` for
`NaN`; `selectedCategory` is the prop of that name. -/
def ExpenseModal.handleSave (parseFloat : String → Option ℚ) (selectedCategory : String)
    (m : ExpenseModal) : ExpenseModal × Option ExpenseData :=
  let amountValue := parseFloat m.amount
  if jsTrim m.description = "" then
    ({ m with error := "Please enter a description" }, none)
  else
    match amountValue with
    | none => ({ m with error := "Please enter a valid amount" }, none)
    | some value =>
        if value ≤ 0 then ({ m with error := "Please enter a valid amount" }, none)
        else
          (m.resetForm,
            some { description := jsTrim m.description, amount := value,
                   category := selectedCategory })

/-! ## The order of the effects of a handler

The state setters, remote calls and alerts a handler performs, in the order of its
statements. -/

/-- One effect of a handler: a call of the setter of a state variable, a call of a write
helper of `FirebaseService.js`, or a call of `Alert.alert`. -/
inductive Effect where
  | setState (name : String)
  | remote (call : RemoteCall)
  | alert (call : AlertCall)
deriving DecidableEq, Repr

/-- The remote call of an effect, if it is one. -/
def Effect.call? : Effect → Option RemoteCall
  | .remote call => some call
  | _ => none

/-- The alert of an effect, if it is one. -/
def Effect.alert? : Effect → Option AlertCall
  | .alert call => some call
  | _ => none

/-- Whether the effect is a remote call. -/
def Effect.isRemote (e : Effect) : Bool := e.call?.isSome

/-- Whether the effect is a primary write: a remote call other than
`updateBudgetPercentage`. -/
def Effect.isPrimaryWrite : Effect → Bool
  | .remote (.updateBudgetPercentage _) => false
  | .remote _ => true
  | _ => false

/-- The setter of the state variable `name` is called before the first remote call of
the trace. -/
def Effect.setsBeforeWriting (name : String) (trace : List Effect) : Prop :=
  Effect.setState name ∈ trace.takeWhile (fun e => !e.isRemote)

/-- The number of primary writes issued in the trace. -/
def Effect.primaryWrites (trace : List Effect) : Nat :=
  trace.countP Effect.isPrimaryWrite

/-- The effects of `handleAddTask()`. -/
def handleAddTask.trace (r : TaskScreen) (createdAt : String) (o : Outcome) : List Effect :=
  if jsTrim r.newTask = "" then []
  else
    [.setState "tasks", .setState "newTask", .setState "deadline",
     .remote (.addTaskToFirestore (handleAddTask.newTaskData r createdAt))] ++
    match o with
    | .resolved => []
    | .rejected => [.setState "tasks", .alert { title := "Error", message := "Failed to add task" }]

/-- The effects of `toggleTask(id)`. -/
def toggleTask.trace (r : TaskScreen) (id : String) (o : Outcome) : List Effect :=
  let onError : List Effect :=
    [.setState "tasks", .alert { title := "Error", message := "Failed to update task" }]
  [.setState "tasks"] ++
  match r.tasks.find? (fun t => t.id == id) with
  | none => onError
  | some task =>
      [.remote (.toggleTaskInFirestore id (!task.fields.completed))] ++
      match o with
      | .resolved => []
      | .rejected => onError

/-- The effects of `deleteTask(id)`. -/
def deleteTask.trace (id : String) (choice : DialogChoice) (o : Outcome) : List Effect :=
  [.alert { title := "Delete Task", message := "Are you sure you want to delete this task?" }] ++
  match choice with
  | .cancel => []
  | .delete =>
      [.setState "tasks", .remote (.deleteTaskFromFirestore id)] ++
      match o with
      | .resolved => []
      | .rejected =>
          [.setState "tasks", .alert { title := "Error", message := "Failed to delete task" }]

/-- The effects of `handleAddNote()`. -/
def handleAddNote.trace (r : NoteScreen) (createdAt : String) (o : Outcome) : List Effect :=
  if jsTrim r.newNote = "" then []
  else
    [.setState "notes", .setState "newNote", .setState "newTitle",
     .remote (.addNoteToFirestore (handleAddNote.newNoteData r createdAt))] ++
    match o with
    | .resolved => []
    | .rejected => [.setState "notes", .alert { title := "Error", message := "Failed to add note" }]

/-- The effects of `handleDeleteNote(id)`. -/
def handleDeleteNote.trace (id : String) (choice : DialogChoice) (o : Outcome) : List Effect :=
  [.alert { title := "Delete Note", message := "Are you sure you want to delete this note?" }] ++
  match choice with
  | .cancel => []
  | .delete =>
      [.setState "notes", .remote (.deleteNoteFromFirestore id)] ++
      match o with
      | .resolved => []
      | .rejected =>
          [.setState "notes", .alert { title := "Error", message := "Failed to delete note" }]

/-- The effects of `handleAddExpense(expenseData)`. -/
def handleAddExpense.trace (r : BudgetScreen) (expenseData : ExpenseData) (now : Nat)
    (primary secondary : Outcome) : List Effect :=
  let onError : List Effect :=
    [.setState "expenses", .alert { title := "Error", message := "Failed to save expense" }]
  [.setState "expenses", .remote (handleAddExpense.primaryCall r expenseData)] ++
  match primary with
  | .rejected => onError
  | .resolved =>
      [.remote (.updateBudgetPercentage (handleAddExpense.newPercentage r expenseData now))] ++
      match secondary with
      | .rejected => onError
      | .resolved => [.setState "showExpenseModal", .setState "editingExpense"]

/-- The effects of `handleDeleteExpense(expenseId)`. -/
def handleDeleteExpense.trace (r : BudgetScreen) (expenseId : String) (choice : DialogChoice)
    (primary secondary : Outcome) : List Effect :=
  let onError : List Effect :=
    [.setState "expenses", .alert { title := "Error", message := "Failed to delete expense" }]
  [.alert { title := "Delete Expense",
            message := "Are you sure you want to delete this expense?" }] ++
  match choice with
  | .cancel => []
  | .delete =>
      [.setState "expenses", .remote (.deleteExpense expenseId)] ++
      match primary with
      | .rejected => onError
      | .resolved =>
          [.remote (.updateBudgetPercentage (handleDeleteExpense.newPercentage r expenseId))] ++
          match secondary with
          | .rejected => onError
          | .resolved => []

/-- The effects of `handleUpdateBudget(newBudget)`. -/
def handleUpdateBudget.trace (r : BudgetScreen) (newBudget : ℚ)
    (primary secondary : Outcome) : List Effect :=
  let onError : List Effect :=
    [.setState "budget", .alert { title := "Error", message := "Failed to update budget" }]
  [.setState "budget", .remote (.updateBudget newBudget)] ++
  match primary with
  | .rejected => onError
  | .resolved =>
      [.remote (.updateBudgetPercentage (handleUpdateBudget.newPercentage r newBudget))] ++
      match secondary with
      | .rejected => onError
      | .resolved => [.setState "showBudgetModal"]

/-! ## FirebaseService: references, writes and reads

A promise is modelled by the way it settles: `Except.ok value` when it resolves with
`value`, `Except.error e` when it rejects with `e`.  Each helper takes the id of the
signed-in user (`auth.currentUser?.uid`, absent when nobody is signed in) and the
settlement of the one Firestore call it awaits. -/

/-- A JavaScript `Error`, by its message. -/
abbrev JsError := String

/-- The lines `const userId = auth.currentUser?.uid; if (!userId) throw new Error(...)`
shared by the four reference helpers. -/
def FirebaseService.requireUserId (userId : Option String) : Except JsError String :=
  match userId with
  | none => throw "User not authenticated"
  | some uid => if uid = "" then throw "User not authenticated" else pure uid

/-- The helper `getUserExpensesRef()`: the path of the collection. -/
def FirebaseService.getUserExpensesRef (userId : Option String) : Except JsError String := do
  let uid ← FirebaseService.requireUserId userId
  pure ("users/" ++ uid ++ "/expenses")

/-- The helper `getUserBudgetRef()`: the path of the document. -/
def FirebaseService.getUserBudgetRef (userId : Option String) : Except JsError String := do
  let uid ← FirebaseService.requireUserId userId
  pure ("users/" ++ uid ++ "/budget/current")

/-- The helper `getUserTasksRef()`: the path of the collection. -/
def FirebaseService.getUserTasksRef (userId : Option String) : Except JsError String := do
  let uid ← FirebaseService.requireUserId userId
  pure ("users/" ++ uid ++ "/tasks")

/-- The helper `getUserNotesRef()`: the path of the collection. -/
def FirebaseService.getUserNotesRef (userId : Option String) : Except JsError String := do
  let uid ← FirebaseService.requireUserId userId
  pure ("users/" ++ uid ++ "/notes")

/-- The helper `getBudget()`; `getDoc` settles with the data of the budget document, or
with nothing when the document does not exist. -/
def FirebaseService.getBudget (userId : Option String)
    (getDoc : Except JsError (Option BudgetDoc)) : Except JsError ℚ :=
  try
    let _ ← FirebaseService.getUserBudgetRef userId
    let snapshot ← getDoc
    pure (match snapshot with
      | some data => data.amount
      | none => 10000)
  catch _ => pure 10000

/-- The helper `updateBudget(amount)`. -/
def FirebaseService.updateBudget (userId : Option String) (setDoc : Except JsError Unit)
    (_amount : ℚ) : Except JsError Unit :=
  try
    let _ ← FirebaseService.getUserBudgetRef userId
    setDoc
  catch error => throw error

/-- The helper `getExpenses()`; `getDocs` settles with the documents of the collection. -/
def FirebaseService.getExpenses (userId : Option String)
    (getDocs : Except JsError (List (Doc ExpenseFields))) : Except JsError (List Expense) :=
  try
    let _ ← FirebaseService.getUserExpensesRef userId
    let snapshot ← getDocs
    pure (snapshot.map (fun doc => { id := doc.id, fields := doc.data }))
  catch _ => pure []

/-- The helper `addExpense(expense)`; `newId` is the id of the fresh document
reference, which the helper returns. -/
def FirebaseService.addExpense (userId : Option String) (setDoc : Except JsError Unit)
    (newId : String) (_expense : ExpenseData) : Except JsError String :=
  try
    let _ ← FirebaseService.getUserExpensesRef userId
    setDoc
    pure newId
  catch error => throw error

/-- The helper `editExpense(id, expense)`. -/
def FirebaseService.editExpense (userId : Option String) (setDoc : Except JsError Unit)
    (_id : String) (_expense : ExpenseData) : Except JsError Unit :=
  try
    let _ ← FirebaseService.getUserExpensesRef userId
    setDoc
  catch error => throw error

/-- The helper `deleteExpense(id)`. -/
def FirebaseService.deleteExpense (userId : Option String) (deleteDoc : Except JsError Unit)
    (_id : String) : Except JsError Unit :=
  try
    let _ ← FirebaseService.getUserExpensesRef userId
    deleteDoc
  catch error => throw error

/-- The helper `updateBudgetPercentage(percentage)`. -/
def FirebaseService.updateBudgetPercentage (userId : Option String)
    (updateDoc : Except JsError Unit) (_percentage : ℚ) : Except JsError Unit :=
  try
    let _ ← FirebaseService.getUserBudgetRef userId
    updateDoc
  catch error => throw error

/-- The helper `getTasks()`; `getDocs` settles with the documents of the collection. -/
def FirebaseService.getTasks (userId : Option String)
    (getDocs : Except JsError (List (Doc TaskFields))) : Except JsError (List Task) :=
  try
    let _ ← FirebaseService.getUserTasksRef userId
    let snapshot ← getDocs
    pure (snapshot.map (fun doc => { id := doc.id, fields := doc.data }))
  catch _ => pure []

/-- The helper `addTaskToFirestore(task)`; `newId` is the id of the fresh document
reference, which the helper returns. -/
def FirebaseService.addTaskToFirestore (userId : Option String)
    (setDoc : Except JsError Unit) (newId : String) (_task : TaskFields) :
    Except JsError String :=
  try
    let _ ← FirebaseService.getUserTasksRef userId
    setDoc
    pure newId
  catch error => throw error

/-- The helper `toggleTaskInFirestore(taskId, newStatus)`. -/
def FirebaseService.toggleTaskInFirestore (userId : Option String)
    (updateDoc : Except JsError Unit) (_taskId : String) (_newStatus : Bool) :
    Except JsError Unit :=
  try
    let _ ← FirebaseService.getUserTasksRef userId
    updateDoc
  catch error => throw error

/-- The helper `deleteTaskFromFirestore(taskId)`. -/
def FirebaseService.deleteTaskFromFirestore (userId : Option String)
    (deleteDoc : Except JsError Unit) (_taskId : String) : Except JsError Unit :=
  try
    let _ ← FirebaseService.getUserTasksRef userId
    deleteDoc
  catch error => throw error

/-- The helper `addNoteToFirestore(note)`; `addDoc` settles with the reference of the
new document, which the helper returns. -/
def FirebaseService.addNoteToFirestore (userId : Option String)
    (addDoc : Except JsError String) (_note : NoteFields) : Except JsError String :=
  try
    let _ ← FirebaseService.getUserNotesRef userId
    addDoc
  catch error => throw error

/-- The helper `deleteNoteFromFirestore(noteId)`. -/
def FirebaseService.deleteNoteFromFirestore (userId : Option String)
    (deleteDoc : Except JsError Unit) (_noteId : String) : Except JsError Unit :=
  try
    let _ ← FirebaseService.getUserNotesRef userId
    deleteDoc
  catch error => throw error

/-- The settled promise as the `Outcome` a handler awaits. -/
def Outcome.ofSettled {α : Type} : Except JsError α → Outcome
  | .ok _ => .resolved
  | .error _ => .rejected

/-! ## budgetSlice -/

/-- State of `budgetSlice`. -/
structure BudgetSliceState where
  budget : ℚ
  expenses : List Expense
deriving DecidableEq, Repr

/-- The `initialState` of `budgetSlice`. -/
def budgetSlice.initialState : BudgetSliceState :=
  { budget := 10000, expenses := [] }

/-- The reducer `updateBudget` of `budgetSlice`. -/
def budgetSlice.updateBudget (state : BudgetSliceState) (payload : ℚ) : BudgetSliceState :=
  { state with budget := payload }

/-- The reducer `addExpense` of `budgetSlice`: pushes
`{ id: Date.now().toString(), ...action.payload, date: new Date().toISOString() }`. -/
def budgetSlice.addExpense (now : Nat) (date : String) (state : BudgetSliceState)
    (payload : ExpenseData) : BudgetSliceState :=
  { state with expenses := state.expenses ++
      [{ id := dateNowToString now
         fields := { description := payload.description, amount := payload.amount,
                     category := payload.category, date := some date } }] }

/-- The reducer `deleteExpense` of `budgetSlice`. -/
def budgetSlice.deleteExpense (state : BudgetSliceState) (payload : String) :
    BudgetSliceState :=
  { state with expenses := state.expenses.filter (fun expense => expense.id != payload) }

/-- The selector `selectTotalSpent`. -/
def budgetSlice.selectTotalSpent (state : BudgetSliceState) : ℚ :=
  state.expenses.foldl (fun sum expense => sum + expense.fields.amount) 0

/-- The selector `selectRemainingBudget`. -/
def budgetSlice.selectRemainingBudget (state : BudgetSliceState) : ℚ :=
  state.budget - budgetSlice.selectTotalSpent state

/-! ## The initial fetch of BudgetTrackerScreen -/

/-- The property read `initialBudget.amount`, `initialBudget` being the number `getBudget()`
resolves to: a number has no property `amount`, the read gives `undefined` (here `none`). -/
def amountPropertyOfNumber (_initialBudget : ℚ) : Option ℚ := none

/-- The expression `value || fallback` for a value that is a number or `undefined`. -/
def jsOr (value : Option ℚ) (fallback : ℚ) : ℚ :=
  match value with
  | none => fallback
  | some x => if x = 0 then fallback else x

/-- The expression `value > 0 ? (totalSpent / value) * 100 : 0` for a value that is a
number or `undefined` (`undefined > 0` is false). -/
def percentageAgainst (totalSpent : ℚ) (value : Option ℚ) : ℚ :=
  match value with
  | none => 0
  | some x => if x > 0 then (totalSpent / x) * 100 else 0

/-- The function `fetchInitialData()` of the subscription effect (lines 67-91).
`getBudget` and `getExpenses` are the settled promises of the two reads, `write` settles
`updateBudgetPercentage`. -/
def fetchInitialData (getBudget : Except JsError ℚ)
    (getExpenses : Except JsError (List Expense)) (write : Outcome) (s : BudgetScreen) :
    BudgetScreen :=
  let onError (s : BudgetScreen) : BudgetScreen :=
    if s.isMounted then { s with error := some "Failed to load data" } else s
  let onFinally (s : BudgetScreen) : BudgetScreen :=
    if s.isMounted then { s with loading := false } else s
  match getBudget, getExpenses with
  | .ok initialBudget, .ok initialExpenses =>
      if s.isMounted then
        let totalSpent := sumAmounts initialExpenses
        let percentage := percentageAgainst totalSpent (amountPropertyOfNumber initialBudget)
        let s₁ := { s with budget := jsOr (amountPropertyOfNumber initialBudget) 10000
                           expenses := initialExpenses
                           calls := s.calls ++ [RemoteCall.updateBudgetPercentage percentage] }
        match write with
        | .resolved => onFinally s₁
        | .rejected => onFinally (onError s₁)
      else onFinally s
  | _, _ => onFinally (onError s)

/-! ## formatTimeRemaining -/

/-- The function `formatTimeRemaining(deadline)` of `TaskListScreen`; `parseDate` gives
the time value of `new Date(deadline)` and `currentTime` the one of the state variable,
both in milliseconds; `none` is `null`. -/
def formatTimeRemaining (parseDate : String → Int) (currentTime : Int)
    (deadline : Option String) : Option String :=
  match deadline with
  | none => none
  | some deadline =>
      if deadline = "" then none
      else
        let diff := parseDate deadline - currentTime
        if diff ≤ 0 then some "Overdue"
        else
          let days := diff / (1000 * 60 * 60 * 24)
          let hours := (diff % (1000 * 60 * 60 * 24)) / (1000 * 60 * 60)
          let minutes := (diff % (1000 * 60 * 60)) / (1000 * 60)
          let seconds := (diff % (1000 * 60)) / 1000
          if days > 0 then some (toString days ++ "d " ++ toString hours ++ "h")
          else if hours > 0 then some (toString hours ++ "h " ++ toString minutes ++ "m")
          else if minutes > 0 then some (toString minutes ++ "m " ++ toString seconds ++ "s")
          else some (toString seconds ++ "s")

/-! ## The pie-chart data of BudgetTrackerScreen -/

/-- The constant `categories` of `BudgetTrackerScreen`. -/
def BudgetScreen.categories : List String :=
  ["Venue", "Catering", "Attire", "Photography", "Other"]

/-- The function `getColorForCategory(category)`: `colors[category] || '#999'`. -/
def getColorForCategory (category : String) : String :=
  match [("Venue", "#FF6B6B"), ("Catering", "#4ECDC4"), ("Attire", "#6B5B95"),
      ("Photography", "#FFBE0B"), ("Other", "#999")].lookup category with
  | some color => color
  | none => "#999"

/-- One entry of `categoryData`. -/
structure PieSlice where
  name : String
  amount : ℚ
  color : String
  legendFontColor : String
  legendFontSize : Nat
deriving DecidableEq, Repr

/-- The total of one category: `expenses.filter(expense => expense.category === category)
.reduce((sum, expense) => sum + expense.amount, 0)`. -/
def categoryTotal (expenses : List Expense) (category : String) : ℚ :=
  sumAmounts (expenses.filter (fun expense => expense.fields.category == category))

/-- The list `categoryData` of `renderContent` (lines 143-154). -/
def categoryData (s : BudgetScreen) : List PieSlice :=
  (BudgetScreen.categories.map (fun category =>
    { name := category
      amount := categoryTotal s.expenses category
      color := getColorForCategory category
      legendFontColor := "#fff"
      legendFontSize := 12 })).filter (fun item => decide (item.amount > 0))

/-! ## The Retry button -/

/-- The `onPress` of the `Retry` button of the error state of `BudgetTrackerScreen`. -/
def BudgetScreen.retry (s : BudgetScreen) : BudgetScreen :=
  { s with loading := true, error := none }

/-- The `onPress` of the `Retry` button of the error state of `TaskListScreen`. -/
def TaskScreen.retry (s : TaskScreen) : TaskScreen :=
  { s with loading := true, error := none }

/-- The effects of the `onPress` of the `Retry` button, the same two statements on the
three screens: `setLoading(true); setError(null);`. -/
def retry.trace : List Effect := [.setState "loading", .setState "error"]

/-- The dependency array `[user]` of the subscription effect of the three screens: the
effect (subscriptions, initial fetch) runs again only when one of these values changes. -/
def subscriptionEffect.deps : List String := ["user"]

/-- What it means for a write helper not to swallow a failure: with nobody signed in it
rejects with `'User not authenticated'`; with a user signed in it rejects with the very
error its backend call rejects with, and resolves when the backend call resolves. -/
def FirebaseService.PropagatesFailure {α β : Type}
    (helper : Option String → Except JsError α → Except JsError β) : Prop :=
  (∀ backend, helper none backend = .error "User not authenticated") ∧
  (∀ uid e, uid ≠ "" → helper (some uid) (.error e) = .error e) ∧
  (∀ uid value, uid ≠ "" → ∃ result, helper (some uid) (.ok value) = .ok result)

/-! ## Concrete inputs used by the examples -/

/-- A task record with the given identifier and completion flag. -/
def exampleTask (id : String) (completed : Bool) : Task :=
  { id := id
    fields := { text := "Book the venue", completed := completed, category := "General",
                createdAt := "2024-01-01T00:00:00.000Z", deadline := none, date := none } }

/-- A note record with the given identifier. -/
def exampleNote (id : String) : Note :=
  { id := id
    fields := { title := "Untitled", text := "Call the florist", color := "#4ECDC4",
                emoji := "📝", createdAt := "2024-01-01T00:00:00.000Z" } }

/-- An expense record with the given identifier and amount. -/
def exampleExpense (id : String) (amount : ℚ) : Expense :=
  { id := id
    fields := { description := "Hall deposit", amount := amount, category := "Venue",
                date := some "2024-01-01T00:00:00.000Z" } }

/-- An expense of the category `category`. -/
def exampleExpenseIn (id : String) (amount : ℚ) (category : String) : Expense :=
  { id := id
    fields := { description := "Deposit", amount := amount, category := category,
                date := some "2024-01-01T00:00:00.000Z" } }

/-- The task screen showing `tasks`, with `newTask` typed into the input. -/
def exampleTaskScreen (tasks : List Task) (newTask : String) : TaskScreen :=
  { TaskScreen.initial with tasks := tasks, newTask := newTask, loading := false }

/-- The note screen showing `notes`, with `newNote` typed into the input. -/
def exampleNoteScreen (notes : List Note) (newNote : String) : NoteScreen :=
  { NoteScreen.initial with notes := notes, newNote := newNote, loading := false }

/-- The budget screen showing `expenses` under `budget`. -/
def exampleBudgetScreen (budget : ℚ) (expenses : List Expense) : BudgetScreen :=
  { BudgetScreen.initial with budget := budget, expenses := expenses, loading := false }

/-- A number format that prints every number as the empty text. -/
def exampleFormat : NumberFormat :=
  { toLocaleString := fun _ => "", toFixed1 := fun _ => "", toStr := fun _ => "" }

/-! ## Stream callbacks leave the recorded alerts and remote calls alone -/

theorem BudgetEvent.deliver_alerts (s : BudgetScreen) (e : BudgetEvent) :
    (BudgetEvent.deliver s e).alerts = s.alerts := by
  cases e <;> simp only [BudgetEvent.deliver, onBudgetSnapshot, onExpensesSnapshot] <;>
    split <;> rfl

theorem BudgetEvent.deliverAll_keeps_alerts (events : List BudgetEvent) (s : BudgetScreen) :
    (BudgetEvent.deliverAll s events).alerts = s.alerts := by
  induction events generalizing s with
  | nil => rfl
  | cons e es ih =>
      simp only [BudgetEvent.deliverAll, List.foldl_cons] at ih ⊢
      rw [ih, BudgetEvent.deliver_alerts]

theorem BudgetEvent.deliver_calls (s : BudgetScreen) (e : BudgetEvent) :
    (BudgetEvent.deliver s e).calls = s.calls := by
  cases e <;> simp only [BudgetEvent.deliver, onBudgetSnapshot, onExpensesSnapshot] <;>
    split <;> rfl

theorem BudgetEvent.deliverAll_keeps_calls (events : List BudgetEvent) (s : BudgetScreen) :
    (BudgetEvent.deliverAll s events).calls = s.calls := by
  induction events generalizing s with
  | nil => rfl
  | cons e es ih =>
      simp only [BudgetEvent.deliverAll, List.foldl_cons] at ih ⊢
      rw [ih, BudgetEvent.deliver_calls]

theorem TaskEvent.deliverAll_same_alerts (events : List TaskEvent) (s : TaskScreen) :
    (TaskEvent.deliverAll s events).alerts = s.alerts := by
  induction events generalizing s with
  | nil => rfl
  | cons e es ih =>
      simp only [TaskEvent.deliverAll, List.foldl_cons] at ih ⊢
      rw [ih]
      cases e <;> rfl

theorem TaskEvent.deliverAll_same_calls (events : List TaskEvent) (s : TaskScreen) :
    (TaskEvent.deliverAll s events).calls = s.calls := by
  induction events generalizing s with
  | nil => rfl
  | cons e es ih =>
      simp only [TaskEvent.deliverAll, List.foldl_cons] at ih ⊢
      rw [ih]
      cases e <;> rfl

/-! ## Failed writes -/

/-- C1: when the primary write (`addExpense`, `editExpense` or `deleteExpense`) rejects,
`handleAddExpense` and the `Delete` button of `handleDeleteExpense` leave the expenses
list exactly as it was when the handler started, whatever stream callbacks ran in
between, and raise their error alert. -/
theorem primary_expense_write_rejected_restores (s : BudgetScreen) (expenseData : ExpenseData)
    (now : Nat) (expenseId : String) (secondary : Outcome)
    (pending₁ pending₂ : List BudgetEvent) :
    (handleAddExpense s expenseData now .rejected secondary pending₁ pending₂ s).expenses
        = s.expenses ∧
    (handleAddExpense s expenseData now .rejected secondary pending₁ pending₂ s).alerts
        = s.alerts ++ [{ title := "Error", message := "Failed to save expense" }] ∧
    (handleDeleteExpense s expenseId .delete .rejected secondary pending₁ pending₂ s).expenses
        = s.expenses ∧
    (handleDeleteExpense s expenseId .delete .rejected secondary pending₁ pending₂ s).alerts
        = s.alerts ++
          [{ title := "Delete Expense",
             message := "Are you sure you want to delete this expense?" },
           { title := "Error", message := "Failed to delete expense" }] := by
  refine ⟨rfl, ?_, rfl, ?_⟩
  · simp only [handleAddExpense, handleAddExpense.onError, BudgetEvent.deliverAll_keeps_alerts]
    cases h : s.editingExpense <;> simp [handleAddExpense.start, h]
  · simp [handleDeleteExpense, handleDeleteExpense.onPress, handleDeleteExpense.onError,
      BudgetEvent.deliverAll_keeps_alerts]

/-- C2 (counterexample): the list holds a task (a note) whose identifier is
`"1700000000000"`, the optimistic record of an add made in the same millisecond, and the
clock reads `1700000000000`: the failure path of `handleAddTask` (`handleAddNote`) leaves
the empty list, not the list the handler started from. -/
theorem handleAdd_rejected_drops_colliding_record :
    (handleAddTask (exampleTaskScreen [exampleTask "1700000000000" false] "Cake tasting")
        "2023-11-14T22:13:20.000Z" 1700000000000 .rejected []
        (exampleTaskScreen [exampleTask "1700000000000" false] "Cake tasting")).tasks = [] ∧
    (handleAddTask (exampleTaskScreen [exampleTask "1700000000000" false] "Cake tasting")
        "2023-11-14T22:13:20.000Z" 1700000000000 .rejected []
        (exampleTaskScreen [exampleTask "1700000000000" false] "Cake tasting")).tasks
      ≠ (exampleTaskScreen [exampleTask "1700000000000" false] "Cake tasting").tasks ∧
    (handleAddNote (exampleNoteScreen [exampleNote "1700000000000"] "Cake tasting")
        "2023-11-14T22:13:20.000Z" 1700000000000 .rejected []
        (exampleNoteScreen [exampleNote "1700000000000"] "Cake tasting")).notes = [] ∧
    (handleAddNote (exampleNoteScreen [exampleNote "1700000000000"] "Cake tasting")
        "2023-11-14T22:13:20.000Z" 1700000000000 .rejected []
        (exampleNoteScreen [exampleNote "1700000000000"] "Cake tasting")).notes
      ≠ (exampleNoteScreen [exampleNote "1700000000000"] "Cake tasting").notes := by
  decide

/-- C2 (amended): when no record of the list has the placeholder identifier, the failure
path of `handleAddTask` (`handleAddNote`), which removes the records carrying the
placeholder identifier from the current list, leaves exactly the list the handler
started from. -/
theorem handleAdd_rejected_restores_of_fresh_id (s : TaskScreen) (n : NoteScreen)
    (createdAt : String) (now : Nat)
    (hs : ∀ t ∈ s.tasks, t.id ≠ dateNowToString now)
    (hn : ∀ x ∈ n.notes, x.id ≠ dateNowToString now) :
    (handleAddTask s createdAt now .rejected [] s).tasks = s.tasks ∧
    (handleAddNote n createdAt now .rejected [] n).notes = n.notes := by
  constructor
  · unfold handleAddTask
    by_cases h : jsTrim s.newTask = ""
    · simp [h]
    · simp only [h, if_false, TaskEvent.deliverAll, List.foldl_nil, List.filter_append]
      simp only [List.filter_cons, List.filter_nil, bne_self_eq_false, Bool.false_eq_true,
        if_false, List.append_nil, List.filter_eq_self]
      intro t ht
      simpa using hs t ht
  · unfold handleAddNote
    by_cases h : jsTrim n.newNote = ""
    · simp [h]
    · simp only [h, if_false, NoteEvent.deliverAll, List.foldl_nil, List.filter_append]
      simp only [List.filter_cons, List.filter_nil, bne_self_eq_false, Bool.false_eq_true,
        if_false, List.append_nil, List.filter_eq_self]
      intro x hx
      simpa using hn x hx

/-- C2 (amended) at the list holding record `"a"` and the clock at `5`. -/
theorem handleAdd_rejected_restores_of_fresh_id_witness :
    (handleAddTask (exampleTaskScreen [exampleTask "a" false] "Cake tasting") "t" 5
        .rejected [] (exampleTaskScreen [exampleTask "a" false] "Cake tasting")).tasks
      = [exampleTask "a" false] ∧
    (handleAddNote (exampleNoteScreen [exampleNote "a"] "Cake tasting") "t" 5
        .rejected [] (exampleNoteScreen [exampleNote "a"] "Cake tasting")).notes
      = [exampleNote "a"] :=
  handleAdd_rejected_restores_of_fresh_id
    (exampleTaskScreen [exampleTask "a" false] "Cake tasting")
    (exampleNoteScreen [exampleNote "a"] "Cake tasting") "t" 5 (by decide) (by decide)

theorem handleAddExpense.start_calls (r : BudgetScreen) (expenseData : ExpenseData) (now : Nat)
    (s : BudgetScreen) :
    (handleAddExpense.start r expenseData now s).calls
      = s.calls ++ [handleAddExpense.primaryCall r expenseData] := by
  unfold handleAddExpense.start handleAddExpense.primaryCall
  cases r.editingExpense <;> rfl

theorem handleAddExpense.start_alerts (r : BudgetScreen) (expenseData : ExpenseData) (now : Nat)
    (s : BudgetScreen) :
    (handleAddExpense.start r expenseData now s).alerts = s.alerts := by
  unfold handleAddExpense.start
  cases r.editingExpense <;> rfl

/-- C3 (counterexample): adding an expense to the empty list under budget 10000, with
`addExpense` resolving and `updateBudgetPercentage` rejecting, ends with the expenses list
reverted to the empty list (the optimistic record is gone) and the failure alert shown. -/
theorem secondary_rejected_reverts_and_alerts :
    (handleAddExpense (exampleBudgetScreen 10000 [])
        { description := "Hall deposit", amount := 2500, category := "Venue" } 5
        .resolved .rejected [] [] (exampleBudgetScreen 10000 [])).expenses = [] ∧
    (handleAddExpense.start (exampleBudgetScreen 10000 [])
        { description := "Hall deposit", amount := 2500, category := "Venue" } 5
        (exampleBudgetScreen 10000 [])).expenses ≠ [] ∧
    (handleAddExpense (exampleBudgetScreen 10000 [])
        { description := "Hall deposit", amount := 2500, category := "Venue" } 5
        .resolved .rejected [] [] (exampleBudgetScreen 10000 [])).alerts
      = [{ title := "Error", message := "Failed to save expense" }] := by
  refine ⟨rfl, ?_, rfl⟩
  simp [handleAddExpense.start, exampleBudgetScreen, BudgetScreen.initial]

/-- C3 (amended): when the primary write resolves and `updateBudgetPercentage` rejects,
the `catch` block of the handler runs: `handleAddExpense` and `handleDeleteExpense` set
the expenses list back to the list captured at the start and `handleUpdateBudget` sets
the budget back to the captured budget, each raises its failure alert, and the only
remote calls made are the primary write and the percentage write (the primary write is
not undone). -/
theorem secondary_rejected_runs_catch (s : BudgetScreen) (expenseData : ExpenseData)
    (now : Nat) (expenseId : String) (newBudget : ℚ) (pending₁ pending₂ : List BudgetEvent) :
    ((handleAddExpense s expenseData now .resolved .rejected pending₁ pending₂ s).expenses
        = s.expenses ∧
      (handleAddExpense s expenseData now .resolved .rejected pending₁ pending₂ s).alerts
        = s.alerts ++ [{ title := "Error", message := "Failed to save expense" }] ∧
      (handleAddExpense s expenseData now .resolved .rejected pending₁ pending₂ s).calls
        = s.calls ++ [handleAddExpense.primaryCall s expenseData,
            RemoteCall.updateBudgetPercentage
              (handleAddExpense.newPercentage s expenseData now)]) ∧
    ((handleDeleteExpense s expenseId .delete .resolved .rejected pending₁ pending₂ s).expenses
        = s.expenses ∧
      (handleDeleteExpense s expenseId .delete .resolved .rejected pending₁ pending₂ s).alerts
        = s.alerts ++
          [{ title := "Delete Expense",
             message := "Are you sure you want to delete this expense?" },
           { title := "Error", message := "Failed to delete expense" }] ∧
      (handleDeleteExpense s expenseId .delete .resolved .rejected pending₁ pending₂ s).calls
        = s.calls ++ [RemoteCall.deleteExpense expenseId,
            RemoteCall.updateBudgetPercentage
              (handleDeleteExpense.newPercentage s expenseId)]) ∧
    ((handleUpdateBudget s newBudget .resolved .rejected pending₁ pending₂ s).budget
        = s.budget ∧
      (handleUpdateBudget s newBudget .resolved .rejected pending₁ pending₂ s).alerts
        = s.alerts ++ [{ title := "Error", message := "Failed to update budget" }] ∧
      (handleUpdateBudget s newBudget .resolved .rejected pending₁ pending₂ s).calls
        = s.calls ++ [RemoteCall.updateBudget newBudget,
            RemoteCall.updateBudgetPercentage
              (handleUpdateBudget.newPercentage s newBudget)]) := by
  refine ⟨⟨rfl, ?_, ?_⟩, ⟨rfl, ?_, ?_⟩, ⟨rfl, ?_, ?_⟩⟩
  · simp [handleAddExpense, handleAddExpense.onError, BudgetEvent.deliverAll_keeps_alerts,
      handleAddExpense.start_alerts]
  · simp [handleAddExpense, handleAddExpense.onError, BudgetEvent.deliverAll_keeps_calls,
      handleAddExpense.start_calls]
  · simp [handleDeleteExpense, handleDeleteExpense.onPress, handleDeleteExpense.onError,
      BudgetEvent.deliverAll_keeps_alerts]
  · simp [handleDeleteExpense, handleDeleteExpense.onPress, handleDeleteExpense.onError,
      BudgetEvent.deliverAll_keeps_calls]
  · simp [handleUpdateBudget, handleUpdateBudget.onError, BudgetEvent.deliverAll_keeps_alerts]
  · simp [handleUpdateBudget, handleUpdateBudget.onError, BudgetEvent.deliverAll_keeps_calls]

/-! ## Stream callbacks while a write is pending -/

theorem TaskEvent.deliverAll_tasks_aux (events : List TaskEvent) (s : TaskScreen)
    (acc : Option (List (Doc TaskFields))) (base : List Task)
    (h : s.tasks = (acc.map (List.map docToRecord)).getD base) :
    (TaskEvent.deliverAll s events).tasks
      = ((events.foldl (fun acc e => match e with
          | .snapshot querySnapshot => some querySnapshot
          | .error => acc) acc).map (List.map docToRecord)).getD base := by
  induction events generalizing s acc with
  | nil => simpa [TaskEvent.deliverAll] using h
  | cons e es ih =>
      simp only [TaskEvent.deliverAll, List.foldl_cons] at ih ⊢
      apply ih
      cases e with
      | snapshot q => simp [TaskEvent.deliver, onTasksSnapshot]
      | error => simpa [TaskEvent.deliver, onTasksError] using h

theorem TaskEvent.deliverAll_tasks_of_lastSnapshot (events : List TaskEvent) (s : TaskScreen)
    (T : List (Doc TaskFields)) (h : TaskEvent.lastSnapshot events = some T) :
    (TaskEvent.deliverAll s events).tasks = T.map docToRecord := by
  have := TaskEvent.deliverAll_tasks_aux events s none s.tasks (by simp)
  unfold TaskEvent.lastSnapshot at h
  rw [this, h]
  simp

theorem BudgetEvent.deliverAll_isMounted (events : List BudgetEvent) (s : BudgetScreen) :
    (BudgetEvent.deliverAll s events).isMounted = s.isMounted := by
  induction events generalizing s with
  | nil => rfl
  | cons e es ih =>
      simp only [BudgetEvent.deliverAll, List.foldl_cons] at ih ⊢
      rw [ih]
      cases e <;> simp only [BudgetEvent.deliver, onBudgetSnapshot, onExpensesSnapshot] <;>
        split <;> rfl

theorem BudgetEvent.deliverAll_expenses_aux (events : List BudgetEvent) (s : BudgetScreen)
    (acc : Option (List (Doc ExpenseFields))) (base : List Expense)
    (hm : s.isMounted = true)
    (h : s.expenses = (acc.map (List.map docToRecord)).getD base) :
    (BudgetEvent.deliverAll s events).expenses
      = ((events.foldl (fun acc e => match e with
          | .expensesSnapshot docs => some docs
          | .budgetSnapshot _ => acc) acc).map (List.map docToRecord)).getD base := by
  induction events generalizing s acc with
  | nil => simpa [BudgetEvent.deliverAll] using h
  | cons e es ih =>
      simp only [BudgetEvent.deliverAll, List.foldl_cons] at ih ⊢
      cases e with
      | expensesSnapshot docs =>
          apply ih
          · simp [BudgetEvent.deliver, onExpensesSnapshot, hm]
          · simp [BudgetEvent.deliver, onExpensesSnapshot, hm]
      | budgetSnapshot doc =>
          apply ih
          · simp [BudgetEvent.deliver, onBudgetSnapshot, hm]
          · simpa [BudgetEvent.deliver, onBudgetSnapshot, hm] using h

/-- C4 (counterexample): `toggleTask` on the list holding task `"a"`, a snapshot with
documents `"a"` and `"b"` delivered while `toggleTaskInFirestore` is pending, then the
write rejecting: the task list ends as the one-record list captured at the start, not as
the two records of the snapshot delivered after the optimistic apply. -/
theorem rollback_replaces_newer_snapshot :
    (toggleTask (exampleTaskScreen [exampleTask "a" false] "") "a" .rejected
        [TaskEvent.snapshot
          [{ id := "a", data := (exampleTask "a" false).fields },
           { id := "b", data := (exampleTask "b" false).fields }]]
        (exampleTaskScreen [exampleTask "a" false] "")).tasks
      = [exampleTask "a" false] ∧
    (toggleTask (exampleTaskScreen [exampleTask "a" false] "") "a" .rejected
        [TaskEvent.snapshot
          [{ id := "a", data := (exampleTask "a" false).fields },
           { id := "b", data := (exampleTask "b" false).fields }]]
        (exampleTaskScreen [exampleTask "a" false] "")).tasks
      ≠ [exampleTask "a" false, exampleTask "b" false] := by
  decide

/-- C4 (amended): for `toggleTask` and the `Delete` button of `handleDeleteExpense`, with
stream callbacks delivered while the writes are pending: when every write of the handler
resolves, the list ends as the records of the most recently delivered snapshot; when a
write rejects, the list ends as the list captured when the handler started, also when a
newer snapshot was delivered in between. -/
theorem settled_write_against_snapshots (t : TaskScreen) (id : String) (task : Task)
    (pending : List TaskEvent) (T : List (Doc TaskFields))
    (b : BudgetScreen) (expenseId : String) (secondary : Outcome)
    (pending₁ pending₂ : List BudgetEvent) (E : List (Doc ExpenseFields))
    (hfind : t.tasks.find? (fun x => x.id == id) = some task)
    (hT : TaskEvent.lastSnapshot pending = some T)
    (hm : b.isMounted = true)
    (hE : BudgetEvent.lastExpensesSnapshot (pending₁ ++ pending₂) = some E) :
    (toggleTask t id .resolved pending t).tasks = T.map docToRecord ∧
    (toggleTask t id .rejected pending t).tasks = t.tasks ∧
    (handleDeleteExpense b expenseId .delete .resolved .resolved pending₁ pending₂ b).expenses
      = E.map docToRecord ∧
    (handleDeleteExpense b expenseId .delete .resolved .rejected pending₁ pending₂ b).expenses
      = b.expenses ∧
    (handleDeleteExpense b expenseId .delete .rejected secondary pending₁ pending₂ b).expenses
      = b.expenses := by
  refine ⟨?_, ?_, ?_, rfl, rfl⟩
  · simp only [toggleTask, hfind]
    exact TaskEvent.deliverAll_tasks_of_lastSnapshot pending _ T hT
  · simp only [toggleTask, hfind]
    rfl
  · simp only [handleDeleteExpense, handleDeleteExpense.onPress]
    unfold BudgetEvent.lastExpensesSnapshot at hE
    rw [List.foldl_append] at hE
    rw [BudgetEvent.deliverAll_expenses_aux pending₂ _ _
      ((b.expenses.filter (fun e => e.id != expenseId))) ?_ ?_, hE]
    · simp
    · simp [BudgetEvent.deliverAll_isMounted, hm]
    · exact BudgetEvent.deliverAll_expenses_aux pending₁ _ none _ (by simp [hm]) (by simp)

/-- C4 (amended) at a one-task list and a one-expense list, one snapshot delivered while
the first write is pending. -/
theorem settled_write_against_snapshots_witness :
    (toggleTask (exampleTaskScreen [exampleTask "a" false] "") "a" .resolved
        [TaskEvent.snapshot [{ id := "b", data := (exampleTask "b" true).fields }]]
        (exampleTaskScreen [exampleTask "a" false] "")).tasks
      = [({ id := "b", data := (exampleTask "b" true).fields } : Doc TaskFields)].map
          docToRecord ∧
    (toggleTask (exampleTaskScreen [exampleTask "a" false] "") "a" .rejected
        [TaskEvent.snapshot [{ id := "b", data := (exampleTask "b" true).fields }]]
        (exampleTaskScreen [exampleTask "a" false] "")).tasks
      = (exampleTaskScreen [exampleTask "a" false] "").tasks ∧
    (handleDeleteExpense (exampleBudgetScreen 10000 [exampleExpense "x" 2500]) "x" .delete
        .resolved .resolved [BudgetEvent.expensesSnapshot []] []
        (exampleBudgetScreen 10000 [exampleExpense "x" 2500])).expenses
      = ([] : List (Doc ExpenseFields)).map docToRecord ∧
    (handleDeleteExpense (exampleBudgetScreen 10000 [exampleExpense "x" 2500]) "x" .delete
        .resolved .rejected [BudgetEvent.expensesSnapshot []] []
        (exampleBudgetScreen 10000 [exampleExpense "x" 2500])).expenses
      = (exampleBudgetScreen 10000 [exampleExpense "x" 2500]).expenses ∧
    (handleDeleteExpense (exampleBudgetScreen 10000 [exampleExpense "x" 2500]) "x" .delete
        .rejected .resolved [BudgetEvent.expensesSnapshot []] []
        (exampleBudgetScreen 10000 [exampleExpense "x" 2500])).expenses
      = (exampleBudgetScreen 10000 [exampleExpense "x" 2500]).expenses :=
  settled_write_against_snapshots (exampleTaskScreen [exampleTask "a" false] "") "a"
    (exampleTask "a" false)
    [TaskEvent.snapshot [{ id := "b", data := (exampleTask "b" true).fields }]]
    [{ id := "b", data := (exampleTask "b" true).fields }]
    (exampleBudgetScreen 10000 [exampleExpense "x" 2500]) "x" .resolved
    [BudgetEvent.expensesSnapshot []] [] [] (by decide) (by rfl) (by rfl) (by rfl)

/-! ## Snapshot handlers -/

/-- C6: the snapshot handler of the expenses subscription (while its effect is live), of
the tasks subscription and of the notes subscription, and the reducers `setTasks` and
`syncTasksFromFirebase`, set the list to exactly the records of the snapshot, each
record being the document's id plus its data, whatever the list held before; a record
of the old list whose id no document of the snapshot has is absent afterwards. -/
theorem snapshot_replaces_list (b : BudgetScreen) (E : List (Doc ExpenseFields))
    (t : TaskScreen) (T : List (Doc TaskFields)) (n : NoteScreen) (N : List (Doc NoteFields))
    (L P : List Task) (hm : b.isMounted = true) :
    (onExpensesSnapshot E b).expenses = E.map (fun doc => { id := doc.id, fields := doc.data }) ∧
    (onTasksSnapshot T t).tasks = T.map (fun doc => { id := doc.id, fields := doc.data }) ∧
    (onNotesSnapshot N n).notes = N.map (fun doc => { id := doc.id, fields := doc.data }) ∧
    tasksSlice.setTasks L P = P ∧
    tasksSlice.syncTasksFromFirebase L P = P ∧
    (∀ x ∈ b.expenses, (∀ doc ∈ E, doc.id ≠ x.id) → x ∉ (onExpensesSnapshot E b).expenses) ∧
    (∀ x ∈ t.tasks, (∀ doc ∈ T, doc.id ≠ x.id) → x ∉ (onTasksSnapshot T t).tasks) ∧
    (∀ x ∈ n.notes, (∀ doc ∈ N, doc.id ≠ x.id) → x ∉ (onNotesSnapshot N n).notes) := by
  refine ⟨?_, rfl, rfl, rfl, rfl, ?_, ?_, ?_⟩
  · simp only [onExpensesSnapshot, hm, if_true]
    rfl
  · intro x _ hx hmem
    simp only [onExpensesSnapshot, hm, if_true, List.mem_map] at hmem
    obtain ⟨doc, hdoc, rfl⟩ := hmem
    exact hx doc hdoc rfl
  · intro x _ hx hmem
    simp only [onTasksSnapshot, List.mem_map] at hmem
    obtain ⟨doc, hdoc, rfl⟩ := hmem
    exact hx doc hdoc rfl
  · intro x _ hx hmem
    simp only [onNotesSnapshot, List.mem_map] at hmem
    obtain ⟨doc, hdoc, rfl⟩ := hmem
    exact hx doc hdoc rfl

/-- C6 at one-record lists and the empty snapshot. -/
theorem snapshot_replaces_list_witness :
    (onExpensesSnapshot [] (exampleBudgetScreen 10000 [exampleExpense "5" 2500])).expenses
      = ([] : List (Doc ExpenseFields)).map (fun doc => { id := doc.id, fields := doc.data }) ∧
    (onTasksSnapshot [] (exampleTaskScreen [exampleTask "5" false] "")).tasks
      = ([] : List (Doc TaskFields)).map (fun doc => { id := doc.id, fields := doc.data }) ∧
    (onNotesSnapshot [] (exampleNoteScreen [exampleNote "5"] "")).notes
      = ([] : List (Doc NoteFields)).map (fun doc => { id := doc.id, fields := doc.data }) ∧
    tasksSlice.setTasks [exampleTask "5" false] [] = [] ∧
    tasksSlice.syncTasksFromFirebase [exampleTask "5" false] [] = [] ∧
    (∀ x ∈ (exampleBudgetScreen 10000 [exampleExpense "5" 2500]).expenses,
      (∀ doc ∈ ([] : List (Doc ExpenseFields)), doc.id ≠ x.id) →
      x ∉ (onExpensesSnapshot [] (exampleBudgetScreen 10000 [exampleExpense "5" 2500])).expenses) ∧
    (∀ x ∈ (exampleTaskScreen [exampleTask "5" false] "").tasks,
      (∀ doc ∈ ([] : List (Doc TaskFields)), doc.id ≠ x.id) →
      x ∉ (onTasksSnapshot [] (exampleTaskScreen [exampleTask "5" false] "")).tasks) ∧
    (∀ x ∈ (exampleNoteScreen [exampleNote "5"] "").notes,
      (∀ doc ∈ ([] : List (Doc NoteFields)), doc.id ≠ x.id) →
      x ∉ (onNotesSnapshot [] (exampleNoteScreen [exampleNote "5"] "")).notes) :=
  snapshot_replaces_list (exampleBudgetScreen 10000 [exampleExpense "5" 2500]) []
    (exampleTaskScreen [exampleTask "5" false] "") []
    (exampleNoteScreen [exampleNote "5"] "") [] [exampleTask "5" false] [] rfl

/-- C7 (the code at the failing input): after the effect cleanup the budget and expenses
callbacks change nothing, but the tasks and notes callbacks, which test no liveness
flag, still replace the list, clear the error and clear the loading flag. -/
theorem snapshot_after_cleanup (b : BudgetScreen) (doc : Option BudgetDoc)
    (E : List (Doc ExpenseFields)) :
    onBudgetSnapshot doc b.cleanup = b.cleanup ∧
    onExpensesSnapshot E b.cleanup = b.cleanup ∧
    (onTasksSnapshot [{ id := "a", data := (exampleTask "a" false).fields }]
        (exampleTaskScreen [] "").cleanup).tasks = [exampleTask "a" false] ∧
    onTasksSnapshot [{ id := "a", data := (exampleTask "a" false).fields }]
        (exampleTaskScreen [] "").cleanup ≠ (exampleTaskScreen [] "").cleanup ∧
    (onNotesSnapshot [{ id := "a", data := (exampleNote "a").fields }]
        (exampleNoteScreen [] "").cleanup).notes = [exampleNote "a"] ∧
    onNotesSnapshot [{ id := "a", data := (exampleNote "a").fields }]
        (exampleNoteScreen [] "").cleanup ≠ (exampleNoteScreen [] "").cleanup := by
  refine ⟨rfl, rfl, rfl, by decide, rfl, by decide⟩

/-! ## Derived budget values -/

theorem sumAmounts_append (xs : List Expense) (e : Expense) :
    sumAmounts (xs ++ [e]) = sumAmounts xs + e.fields.amount := by
  simp [sumAmounts, List.foldl_append]

/-- C8: with a budget that is zero or negative, the percentage computed by the render
and by `handleAddExpense` and `handleDeleteExpense` (budget of the render) and by
`handleUpdateBudget` (the new budget) is exactly 0, whatever the expenses are. -/
theorem percentage_zero_of_nonpositive_budget (s : BudgetScreen) (expenseData : ExpenseData)
    (now : Nat) (expenseId : String) (newBudget : ℚ)
    (hb : s.budget ≤ 0) (hn : newBudget ≤ 0) :
    percentageSpent s = 0 ∧
    handleAddExpense.newPercentage s expenseData now = 0 ∧
    handleDeleteExpense.newPercentage s expenseId = 0 ∧
    handleUpdateBudget.newPercentage s newBudget = 0 := by
  refine ⟨?_, ?_, ?_, ?_⟩
  · simp [percentageSpent, not_lt.mpr hb]
  · simp [handleAddExpense.newPercentage, not_lt.mpr hb]
  · simp [handleDeleteExpense.newPercentage, not_lt.mpr hb]
  · simp [handleUpdateBudget.newPercentage, not_lt.mpr hn]

/-- C8 at budget 0 with one expense of 500, and new budget 0. -/
theorem percentage_zero_of_nonpositive_budget_witness :
    percentageSpent (exampleBudgetScreen 0 [exampleExpense "a" 500]) = 0 ∧
    handleAddExpense.newPercentage (exampleBudgetScreen 0 [exampleExpense "a" 500])
      { description := "Hall deposit", amount := 2500, category := "Venue" } 5 = 0 ∧
    handleDeleteExpense.newPercentage (exampleBudgetScreen 0 [exampleExpense "a" 500]) "b" = 0 ∧
    handleUpdateBudget.newPercentage (exampleBudgetScreen 0 [exampleExpense "a" 500]) 0 = 0 :=
  percentage_zero_of_nonpositive_budget (exampleBudgetScreen 0 [exampleExpense "a" 500])
    { description := "Hall deposit", amount := 2500, category := "Venue" } 5 "b" 0
    (by simp [exampleBudgetScreen]) (le_refl 0)

/-- C9: with a positive budget and a total spent above it, the percentage is
`totalSpent / budget * 100`, above 100, and it is that value the progress text prints;
the remaining amount is printed as its absolute value followed by `" (Over)"`; and on
every screen state the `" (Over)"` label is present exactly when
`budget - totalSpent < 0`. -/
theorem over_budget_display (fmt : NumberFormat) (s : BudgetScreen)
    (hb : 0 < s.budget) (hover : s.budget < totalSpent s) :
    percentageSpent s = totalSpent s / s.budget * 100 ∧
    100 < percentageSpent s ∧
    (summaryCard fmt s).progressText
      = fmt.toFixed1 (totalSpent s / s.budget * 100) ++ "% of budget spent" ∧
    (summaryCard fmt s).remainingText
      = "$" ++ fmt.toLocaleString |s.budget - totalSpent s| ++ " (Over)" ∧
    (∀ s' : BudgetScreen, overLabel s' = " (Over)" ↔ s'.budget - totalSpent s' < 0) := by
  have hp : percentageSpent s = totalSpent s / s.budget * 100 := by
    simp [percentageSpent, hb]
  have hneg : remainingBudget s < 0 := by
    simp only [remainingBudget]
    linarith
  refine ⟨hp, ?_, ?_, ?_, ?_⟩
  · rw [hp]
    have : 1 < totalSpent s / s.budget := (one_lt_div hb).mpr hover
    linarith
  · simp [summaryCard, hp]
  · simp [summaryCard, overLabel, hover, remainingBudget]
  · intro s'
    unfold overLabel remainingBudget
    by_cases h : s'.budget - totalSpent s' < 0
    · simp [h]
    · simp only [h, if_false, iff_false]
      decide

/-- C9 at budget 1000 with one expense of 2500. -/
theorem over_budget_display_witness :
    percentageSpent (exampleBudgetScreen 1000 [exampleExpense "a" 2500])
      = totalSpent (exampleBudgetScreen 1000 [exampleExpense "a" 2500])
          / (exampleBudgetScreen 1000 [exampleExpense "a" 2500]).budget * 100 ∧
    100 < percentageSpent (exampleBudgetScreen 1000 [exampleExpense "a" 2500]) ∧
    (summaryCard exampleFormat (exampleBudgetScreen 1000 [exampleExpense "a" 2500])).progressText
      = exampleFormat.toFixed1
          (totalSpent (exampleBudgetScreen 1000 [exampleExpense "a" 2500])
            / (exampleBudgetScreen 1000 [exampleExpense "a" 2500]).budget * 100)
        ++ "% of budget spent" ∧
    (summaryCard exampleFormat (exampleBudgetScreen 1000 [exampleExpense "a" 2500])).remainingText
      = "$" ++ exampleFormat.toLocaleString
          |(exampleBudgetScreen 1000 [exampleExpense "a" 2500]).budget
            - totalSpent (exampleBudgetScreen 1000 [exampleExpense "a" 2500])|
        ++ " (Over)" ∧
    (∀ s' : BudgetScreen, overLabel s' = " (Over)" ↔ s'.budget - totalSpent s' < 0) :=
  over_budget_display exampleFormat (exampleBudgetScreen 1000 [exampleExpense "a" 2500])
    (by norm_num [exampleBudgetScreen])
    (by norm_num [exampleBudgetScreen, totalSpent, sumAmounts, exampleExpense])

/-- C10: with a positive budget and no expense being edited, after the optimistic add of
`handleAddExpense` the render gives `totalSpent` increased by the new amount,
`remainingBudget = budget - totalSpent` and `percentageSpent = totalSpent / budget * 100`;
with budget 10000, no expenses and amount 2500 these are 2500, 7500 and 25. -/
theorem derived_values_after_optimistic_add (s : BudgetScreen) (expenseData : ExpenseData)
    (now : Nat) (hb : 0 < s.budget) (hedit : s.editingExpense = none) :
    totalSpent (handleAddExpense.start s expenseData now s)
      = totalSpent s + expenseData.amount ∧
    remainingBudget (handleAddExpense.start s expenseData now s)
      = s.budget - totalSpent (handleAddExpense.start s expenseData now s) ∧
    percentageSpent (handleAddExpense.start s expenseData now s)
      = totalSpent (handleAddExpense.start s expenseData now s) / s.budget * 100 ∧
    (totalSpent (handleAddExpense.start (exampleBudgetScreen 10000 [])
        { description := "Hall deposit", amount := 2500, category := "Venue" } now
        (exampleBudgetScreen 10000 [])) = 2500 ∧
      percentageSpent (handleAddExpense.start (exampleBudgetScreen 10000 [])
        { description := "Hall deposit", amount := 2500, category := "Venue" } now
        (exampleBudgetScreen 10000 [])) = 25 ∧
      remainingBudget (handleAddExpense.start (exampleBudgetScreen 10000 [])
        { description := "Hall deposit", amount := 2500, category := "Venue" } now
        (exampleBudgetScreen 10000 [])) = 7500) := by
  have hstart : ∀ (s : BudgetScreen) (d : ExpenseData), s.editingExpense = none →
      (handleAddExpense.start s d now s).expenses
          = s.expenses ++ [newExpenseOf d (dateNowToString now)] ∧
        (handleAddExpense.start s d now s).budget = s.budget := by
    intro s d h
    simp [handleAddExpense.start, h]
  have htotal : ∀ (s : BudgetScreen) (d : ExpenseData), s.editingExpense = none →
      totalSpent (handleAddExpense.start s d now s) = totalSpent s + d.amount := by
    intro s d h
    simp only [totalSpent, (hstart s d h).1, sumAmounts_append]
    rfl
  refine ⟨htotal s expenseData hedit, ?_, ?_, ?_, ?_, ?_⟩
  · simp [remainingBudget, (hstart s expenseData hedit).2]
  · simp [percentageSpent, (hstart s expenseData hedit).2, hb]
  · rw [htotal (exampleBudgetScreen 10000 []) _ rfl]
    norm_num [totalSpent, sumAmounts, exampleBudgetScreen, BudgetScreen.initial]
  · simp only [percentageSpent, htotal (exampleBudgetScreen 10000 []) _ rfl,
      (hstart (exampleBudgetScreen 10000 []) _ rfl).2]
    norm_num [totalSpent, sumAmounts, exampleBudgetScreen, BudgetScreen.initial]
  · simp only [remainingBudget, htotal (exampleBudgetScreen 10000 []) _ rfl,
      (hstart (exampleBudgetScreen 10000 []) _ rfl).2]
    norm_num [totalSpent, sumAmounts, exampleBudgetScreen, BudgetScreen.initial]

/-- C10 at budget 8000 with one expense of 500, adding 1500. -/
theorem derived_values_after_optimistic_add_witness :
    totalSpent (handleAddExpense.start (exampleBudgetScreen 8000 [exampleExpense "a" 500])
        { description := "Flowers", amount := 1500, category := "Other" } 5
        (exampleBudgetScreen 8000 [exampleExpense "a" 500])) = 2000 ∧
    remainingBudget (handleAddExpense.start (exampleBudgetScreen 8000 [exampleExpense "a" 500])
        { description := "Flowers", amount := 1500, category := "Other" } 5
        (exampleBudgetScreen 8000 [exampleExpense "a" 500])) = 6000 ∧
    percentageSpent (handleAddExpense.start (exampleBudgetScreen 8000 [exampleExpense "a" 500])
        { description := "Flowers", amount := 1500, category := "Other" } 5
        (exampleBudgetScreen 8000 [exampleExpense "a" 500])) = 25 := by
  have h := derived_values_after_optimistic_add
    (exampleBudgetScreen 8000 [exampleExpense "a" 500])
    { description := "Flowers", amount := 1500, category := "Other" } 5
    (by norm_num [exampleBudgetScreen]) rfl
  obtain ⟨h₁, h₂, h₃, -⟩ := h
  have ht : totalSpent (exampleBudgetScreen 8000 [exampleExpense "a" 500]) = 500 := by
    norm_num [totalSpent, sumAmounts, exampleBudgetScreen, exampleExpense]
  rw [ht] at h₁
  have hbud : (exampleBudgetScreen 8000 [exampleExpense "a" 500]).budget = 8000 := rfl
  rw [h₁, hbud] at h₂ h₃
  refine ⟨?_, ?_, ?_⟩
  · rw [h₁]; norm_num
  · rw [h₂]; norm_num
  · rw [h₃]; norm_num

/-! ## Mutations against the remote store -/

theorem writeAll_singleton {σ : Type} (write : σ → RemoteCall → Option σ) (store : σ)
    (call : RemoteCall) : writeAll write store [call] = write store call := by
  simp only [writeAll]
  cases write store call <;> rfl

theorem TaskSystem.handle_create (s : TaskScreen) (text : String) (deadline : Option String)
    (createdAt : String) (now : Nat) (newId date : String) (h : jsTrim text ≠ "") :
    ∃ s', TaskSystem.handle s (.create text deadline createdAt now newId date) = some s' ∧
      s'.tasks = s.tasks ++
        [{ id := dateNowToString now
           fields := { text := jsTrim text, completed := false, category := "General",
                       createdAt := createdAt, deadline := deadline, date := none } }] ∧
      s'.calls = s.calls ++ [RemoteCall.addTaskToFirestore
        { text := jsTrim text, completed := false, category := "General",
          createdAt := createdAt, deadline := deadline, date := none }] := by
  refine ⟨handleAddTask { s with newTask := text, deadline := deadline } createdAt now
    .resolved [] { s with newTask := text, deadline := deadline }, ?_, ?_, ?_⟩
  · simp only [TaskSystem.handle, h, if_false]
  · simp [handleAddTask, h, TaskEvent.deliverAll, handleAddTask.newTaskData]
  · simp [handleAddTask, h, TaskEvent.deliverAll, handleAddTask.newTaskData]

theorem TaskSystem.handle_toggle (s : TaskScreen) (id : String) (task : Task)
    (h : s.tasks.find? (fun t => t.id == id) = some task) :
    ∃ s', TaskSystem.handle s (.toggle id) = some s' ∧
      s'.tasks = s.tasks.map (fun t => if t.id = id then toggleCompleted t else t) ∧
      s'.calls = s.calls ++ [RemoteCall.toggleTaskInFirestore id (!task.fields.completed)] := by
  refine ⟨toggleTask s id .resolved [] s, ?_, ?_, ?_⟩
  · simp only [TaskSystem.handle, h]
  · simp [toggleTask, h, TaskEvent.deliverAll]
  · simp [toggleTask, h, TaskEvent.deliverAll]

theorem TaskSystem.handle_delete (s : TaskScreen) (id : String) :
    ∃ s', TaskSystem.handle s (.delete id) = some s' ∧
      s'.tasks = s.tasks.filter (fun t => t.id != id) ∧
      s'.calls = s.calls ++ [RemoteCall.deleteTaskFromFirestore id] := by
  refine ⟨deleteTask s id .delete .resolved [] s, rfl, ?_, ?_⟩
  · simp [deleteTask, deleteTask.onPress, TaskEvent.deliverAll]
  · simp [deleteTask, deleteTask.onPress, TaskEvent.deliverAll]

theorem TaskSystem.mutate_create_eq (sys sys' : TaskSystem) (text : String)
    (deadline : Option String) (createdAt : String) (now : Nat) (newId date : String)
    (h : sys.mutate (.create text deadline createdAt now newId date) = some sys') :
    (∀ d ∈ sys.store, d.id ≠ newId) ∧
    sys'.store = sys.store ++
      [{ id := newId
         data := { text := jsTrim text, completed := false, category := "General",
                   createdAt := createdAt, deadline := deadline, date := some date } }] ∧
    sys'.screen.tasks = sys.screen.tasks ++
      [{ id := dateNowToString now
         fields := { text := jsTrim text, completed := false, category := "General",
                     createdAt := createdAt, deadline := deadline, date := none } }] := by
  by_cases ht : jsTrim text = ""
  · simp [TaskSystem.mutate, TaskSystem.handle, ht] at h
  · obtain ⟨s', hs', htasks, hcalls⟩ :=
      TaskSystem.handle_create sys.screen text deadline createdAt now newId date ht
    simp only [TaskSystem.mutate, hs', hcalls, List.drop_left, writeAll_singleton,
      TaskStore.write, TaskMutation.env, Store.addDoc] at h
    by_cases hany : sys.store.any (fun d => d.id == newId) = true
    · simp [hany] at h
    · simp only [hany, Bool.false_eq_true, if_false, Option.some.injEq] at h
      subst h
      refine ⟨?_, rfl, htasks⟩
      intro d hd hid
      exact hany (List.any_eq_true.mpr ⟨d, hd, by simp [hid]⟩)

theorem TaskSystem.mutate_toggle_eq (sys sys' : TaskSystem) (id : String)
    (h : sys.mutate (.toggle id) = some sys') :
    ∃ task, sys.screen.tasks.find? (fun t => t.id == id) = some task ∧
      (∃ d ∈ sys.store, d.id = id) ∧
      sys'.store = sys.store.map (fun d => if d.id = id then
        { d with data := { d.data with completed := !task.fields.completed } } else d) ∧
      sys'.screen.tasks = sys.screen.tasks.map
        (fun t => if t.id = id then toggleCompleted t else t) := by
  cases hf : sys.screen.tasks.find? (fun t => t.id == id) with
  | none => simp [TaskSystem.mutate, TaskSystem.handle, hf] at h
  | some task =>
      obtain ⟨s', hs', htasks, hcalls⟩ := TaskSystem.handle_toggle sys.screen id task hf
      simp only [TaskSystem.mutate, hs', hcalls, List.drop_left, writeAll_singleton,
        TaskStore.write, Store.updateDoc] at h
      by_cases hany : sys.store.any (fun d => d.id == id) = true
      · simp only [hany, if_true, Option.some.injEq] at h
        subst h
        obtain ⟨d, hd, hid⟩ := List.any_eq_true.mp hany
        exact ⟨task, rfl, ⟨d, hd, by simpa using hid⟩, rfl, htasks⟩
      · simp [hany] at h

theorem TaskSystem.mutate_delete_eq (sys sys' : TaskSystem) (id : String)
    (h : sys.mutate (.delete id) = some sys') :
    sys'.store = sys.store.filter (fun d => d.id != id) ∧
    sys'.screen.tasks = sys.screen.tasks.filter (fun t => t.id != id) := by
  obtain ⟨s', hs', htasks, hcalls⟩ := TaskSystem.handle_delete sys.screen id
  simp only [TaskSystem.mutate, hs', hcalls, List.drop_left, writeAll_singleton,
    TaskStore.write, Store.deleteDoc, Option.some.injEq] at h
  subst h
  exact ⟨rfl, htasks⟩

theorem TaskSystem.deliver_inv (sys : TaskSystem)
    (hnodup : (sys.store.map (fun d => d.id)).Nodup) : sys.deliver.Inv := by
  refine ⟨hnodup, ?_, ?_, ?_⟩
  · intro t d hfind hd
    simp only [TaskSystem.deliver, onTasksSnapshot, List.find?_map] at hfind
    obtain ⟨d₀, hd₀, rfl⟩ := Option.map_eq_some'.mp hfind
    have hid : d₀.id = d.id := by
      have := List.find?_some hd₀
      simpa [docToRecord] using this
    have : d₀ = d :=
      List.inj_on_of_nodup_map hnodup (List.mem_of_find?_eq_some hd₀) hd hid
    subst this
    rfl
  · intro t ht hno
    simp only [TaskSystem.deliver, onTasksSnapshot, List.mem_map] at ht
    obtain ⟨d, hd, rfl⟩ := ht
    exact absurd rfl (hno d hd)
  · intro d hd hno
    refine absurd rfl (hno (docToRecord d) ?_)
    simp only [TaskSystem.deliver, onTasksSnapshot, List.mem_map]
    exact ⟨d, hd, rfl⟩

theorem TaskSystem.mutate_create_spec (sys sys' : TaskSystem) (text : String)
    (deadline : Option String) (createdAt : String) (now : Nat) (newId date : String)
    (hinv : sys.Inv)
    (h : sys.mutate (.create text deadline createdAt now newId date) = some sys') :
    sys'.Inv ∧
    sys'.store.map docToRecord
      = replayTask (sys.store.map docToRecord)
          (.create text deadline createdAt now newId date) := by
  obtain ⟨hfresh, hstore, htasks⟩ :=
    TaskSystem.mutate_create_eq sys sys' text deadline createdAt now newId date h
  refine ⟨⟨?_, ?_, ?_, ?_⟩, ?_⟩
  · rw [hstore, List.map_append, List.nodup_append]
    refine ⟨hinv.nodup, by simp, ?_⟩
    intro x hx hx'
    simp only [List.map_cons, List.map_nil, List.mem_singleton] at hx'
    obtain ⟨d, hd, rfl⟩ := List.mem_map.mp hx
    exact hfresh d hd hx'
  · intro t d hfind hd
    rw [htasks, List.find?_append] at hfind
    rw [hstore, List.mem_append, List.mem_singleton] at hd
    cases hl : sys.screen.tasks.find? (fun t => t.id == d.id) with
    | some t₀ =>
        rw [hl] at hfind
        simp only [Option.or_some, Option.some.injEq] at hfind
        subst hfind
        rcases hd with hd | rfl
        · exact hinv.agree t₀ d hl hd
        · have hid : t₀.id = newId := by simpa using List.find?_some hl
          refine hinv.localOnly t₀ (List.mem_of_find?_eq_some hl) ?_
          intro d hd
          rw [hid]
          exact hfresh d hd
    | none =>
        rw [hl] at hfind
        simp only [Option.none_or] at hfind
        have ht : t ∈ [({ id := dateNowToString now
                          fields := { text := jsTrim text, completed := false,
                                      category := "General", createdAt := createdAt,
                                      deadline := deadline, date := none } } : Task)] :=
          List.mem_of_find?_eq_some hfind
        rw [List.mem_singleton] at ht
        subst ht
        rcases hd with hd | rfl
        · symm
          refine hinv.storeOnly d hd ?_
          intro t ht hid
          have := List.find?_eq_none.mp hl t ht
          simp [hid] at this
        · rfl
  · intro t ht hno
    rw [htasks, List.mem_append, List.mem_singleton] at ht
    rcases ht with ht | rfl
    · refine hinv.localOnly t ht ?_
      intro d hd
      exact hno d (by rw [hstore]; exact List.mem_append_left _ hd)
    · rfl
  · intro d hd hno
    rw [hstore, List.mem_append, List.mem_singleton] at hd
    rcases hd with hd | rfl
    · refine hinv.storeOnly d hd ?_
      intro t ht
      exact hno t (by rw [htasks]; exact List.mem_append_left _ ht)
    · rfl
  · rw [hstore]
    simp [replayTask, docToRecord]

theorem find?_id_map_of_id_eq {δ : Type} (g : Rec δ → Rec δ) (hg : ∀ t, (g t).id = t.id)
    (x : String) (l : List (Rec δ)) :
    (l.map g).find? (fun t => t.id == x) = (l.find? (fun t => t.id == x)).map g := by
  rw [List.find?_map]
  congr 2
  funext t
  simp [hg]

theorem find?_id_filter_of_ne {δ : Type} (x y : String) (hxy : x ≠ y) (l : List (Rec δ)) :
    (l.filter (fun t => t.id != y)).find? (fun t => t.id == x)
      = l.find? (fun t => t.id == x) := by
  rw [List.find?_filter]
  congr 1
  funext t
  by_cases htx : t.id = x
  · have : ¬ t.id = y := fun h => hxy (htx.symm.trans h)
    simp [htx, hxy]
  · simp [htx]

theorem TaskSystem.mutate_toggle_spec (sys sys' : TaskSystem) (id : String)
    (hinv : sys.Inv) (h : sys.mutate (.toggle id) = some sys') :
    sys'.Inv ∧
    sys'.store.map docToRecord = replayTask (sys.store.map docToRecord) (.toggle id) := by
  obtain ⟨task, hf, ⟨d₁, hd₁, hid₁⟩, hstore, htasks⟩ :=
    TaskSystem.mutate_toggle_eq sys sys' id h
  have htask_id : task.id = id := by simpa using List.find?_some hf
  have htask_mem : task ∈ sys.screen.tasks := List.mem_of_find?_eq_some hf
  have hg : ∀ t : Task, (if t.id = id then toggleCompleted t else t).id = t.id := by
    intro t
    split <;> rfl
  refine ⟨⟨?_, ?_, ?_, ?_⟩, ?_⟩
  · rw [hstore, List.map_map]
    have : ((fun d : Doc TaskFields => d.id) ∘ fun d => if d.id = id then
        { d with data := { d.data with completed := !task.fields.completed } } else d)
        = fun d => d.id := by
      funext d
      simp only [Function.comp]
      split <;> rfl
    rw [this]
    exact hinv.nodup
  · intro t d hfind hd
    rw [hstore, List.mem_map] at hd
    obtain ⟨d₀, hd₀, rfl⟩ := hd
    have hdid : (if d₀.id = id then
        ({ d₀ with data := { d₀.data with completed := !task.fields.completed } } :
          Doc TaskFields) else d₀).id = d₀.id := by
      split <;> rfl
    rw [htasks, hdid, find?_id_map_of_id_eq _ hg] at hfind
    obtain ⟨t₀, ht₀, rfl⟩ := Option.map_eq_some'.mp hfind
    have ht₀id : t₀.id = d₀.id := by simpa using List.find?_some ht₀
    by_cases hd₀id : d₀.id = id
    · rw [hd₀id] at ht₀
      have : t₀ = task := Option.some.inj (ht₀.symm.trans hf)
      subst this
      simp [hd₀id, htask_id, toggleCompleted]
    · have : ¬ t₀.id = id := by rw [ht₀id]; exact hd₀id
      simp only [this, hd₀id, if_false]
      exact hinv.agree t₀ d₀ ht₀ hd₀
  · intro t ht hno
    rw [htasks, List.mem_map] at ht
    obtain ⟨t₀, ht₀, rfl⟩ := ht
    rw [hg] at hno
    have hno' : ∀ d ∈ sys.store, d.id ≠ t₀.id := by
      intro d hd
      have := hno _ (by rw [hstore]; exact List.mem_map_of_mem _ hd)
      intro hid
      apply this
      split <;> exact hid
    have hne : ¬ t₀.id = id := fun hid => hno' d₁ hd₁ (hid₁.trans hid.symm)
    simp only [hne, if_false]
    exact hinv.localOnly t₀ ht₀ hno'
  · intro d hd hno
    rw [hstore, List.mem_map] at hd
    obtain ⟨d₀, hd₀, rfl⟩ := hd
    have hdid : (if d₀.id = id then
        ({ d₀ with data := { d₀.data with completed := !task.fields.completed } } :
          Doc TaskFields) else d₀).id = d₀.id := by
      split <;> rfl
    rw [hdid] at hno
    have hno' : ∀ t ∈ sys.screen.tasks, t.id ≠ d₀.id := by
      intro t ht
      have := hno _ (by rw [htasks]; exact List.mem_map_of_mem _ ht)
      rwa [hg] at this
    have hne : ¬ d₀.id = id := fun hid => hno' task htask_mem (htask_id.trans hid.symm)
    simp only [hne, if_false]
    exact hinv.storeOnly d₀ hd₀ hno'
  · rw [hstore]
    simp only [replayTask, List.map_map]
    apply List.map_congr_left
    intro d hd
    simp only [Function.comp, docToRecord]
    by_cases hdid : d.id = id
    · have := hinv.agree task d (by rw [hdid]; exact hf) hd
      simp [hdid, this]
    · simp [hdid]

theorem TaskSystem.mutate_delete_spec (sys sys' : TaskSystem) (id : String)
    (hinv : sys.Inv) (h : sys.mutate (.delete id) = some sys') :
    sys'.Inv ∧
    sys'.store.map docToRecord = replayTask (sys.store.map docToRecord) (.delete id) := by
  obtain ⟨hstore, htasks⟩ := TaskSystem.mutate_delete_eq sys sys' id h
  refine ⟨⟨?_, ?_, ?_, ?_⟩, ?_⟩
  · rw [hstore]
    exact hinv.nodup.sublist (List.Sublist.map _ (List.filter_sublist _))
  · intro t d hfind hd
    rw [hstore, List.mem_filter] at hd
    have hne : d.id ≠ id := by simpa using hd.2
    rw [htasks, find?_id_filter_of_ne _ _ hne] at hfind
    exact hinv.agree t d hfind hd.1
  · intro t ht hno
    rw [htasks, List.mem_filter] at ht
    have hne : t.id ≠ id := by simpa using ht.2
    refine hinv.localOnly t ht.1 ?_
    intro d hd hid
    refine hno d ?_ hid
    rw [hstore, List.mem_filter]
    exact ⟨hd, by simpa [hid] using hne⟩
  · intro d hd hno
    rw [hstore, List.mem_filter] at hd
    have hne : d.id ≠ id := by simpa using hd.2
    refine hinv.storeOnly d hd.1 ?_
    intro t ht hid
    refine hno t ?_ hid
    rw [htasks, List.mem_filter]
    exact ⟨ht, by simpa [hid] using hne⟩
  · rw [hstore]
    simp only [replayTask, List.filter_map]
    congr 1

theorem TaskSystem.run_replays_tasks (sched : List (TaskMutation × Bool)) (sys sys' : TaskSystem)
    (hinv : sys.Inv) (h : sys.run sched = some sys') :
    sys'.store.map docToRecord
      = replayTasks (sys.store.map docToRecord) (sched.map Prod.fst) := by
  induction sched generalizing sys with
  | nil =>
      simp only [TaskSystem.run, Option.some.injEq] at h
      subst h
      rfl
  | cons step rest ih =>
      obtain ⟨m, delivered⟩ := step
      simp only [TaskSystem.run] at h
      cases hm : sys.mutate m with
      | none => simp [hm] at h
      | some sys₁ =>
          rw [hm] at h
          simp only at h
          have hstep : sys₁.Inv ∧
              sys₁.store.map docToRecord = replayTask (sys.store.map docToRecord) m := by
            cases m with
            | create text deadline createdAt now newId date =>
                exact TaskSystem.mutate_create_spec sys sys₁ text deadline createdAt now
                  newId date hinv hm
            | toggle id => exact TaskSystem.mutate_toggle_spec sys sys₁ id hinv hm
            | delete id => exact TaskSystem.mutate_delete_spec sys sys₁ id hinv hm
          have hinv' : (if delivered then sys₁.deliver else sys₁).Inv := by
            cases delivered
            · exact hstep.1
            · exact TaskSystem.deliver_inv sys₁ hstep.1.nodup
          have hstore : (if delivered then sys₁.deliver else sys₁).store = sys₁.store := by
            cases delivered <;> rfl
          have := ih _ hinv' h
          rw [hstore, hstep.2] at this
          simpa [replayTasks] using this

theorem writeAll_pair {σ : Type} (write : σ → RemoteCall → Option σ) (store : σ)
    (c₁ c₂ : RemoteCall) :
    writeAll write store [c₁, c₂] = (write store c₁).bind (fun store' => write store' c₂) := by
  simp only [writeAll]
  cases write store c₁ with
  | none => rfl
  | some store' =>
      simp only [Option.some_bind]
      cases write store' c₂ <;> rfl

theorem handleAddExpense.calls_of_resolved (r : BudgetScreen) (expenseData : ExpenseData)
    (now : Nat) (s : BudgetScreen) :
    (handleAddExpense r expenseData now .resolved .resolved [] [] s).calls
      = s.calls ++ [handleAddExpense.primaryCall r expenseData,
          RemoteCall.updateBudgetPercentage (handleAddExpense.newPercentage r expenseData now)] := by
  simp [handleAddExpense, BudgetEvent.deliverAll, handleAddExpense.start_calls]

theorem handleAddExpense.resolved_isMounted (r : BudgetScreen) (expenseData : ExpenseData)
    (now : Nat) (s : BudgetScreen) :
    (handleAddExpense r expenseData now .resolved .resolved [] [] s).isMounted = s.isMounted := by
  simp only [handleAddExpense, BudgetEvent.deliverAll, List.foldl_nil, handleAddExpense.start]
  cases r.editingExpense <;> rfl

theorem handleDeleteExpense.calls_when_resolved (expenseId : String) (s : BudgetScreen) :
    (handleDeleteExpense s expenseId .delete .resolved .resolved [] [] s).calls
      = s.calls ++ [RemoteCall.deleteExpense expenseId,
          RemoteCall.updateBudgetPercentage (handleDeleteExpense.newPercentage s expenseId)] := by
  simp [handleDeleteExpense, handleDeleteExpense.onPress, BudgetEvent.deliverAll]

theorem BudgetSystem.mutate_spec (sys sys' : BudgetSystem) (m : ExpenseMutation)
    (h : sys.mutate m = some sys') (hblind : sys'.store.blindEdits = 0) :
    sys.store.blindEdits = 0 ∧
    sys'.screen.isMounted = sys.screen.isMounted ∧
    sys'.store.expenses.map docToRecord
      = replayExpense (sys.store.expenses.map docToRecord) m := by
  cases m with
  | add expenseData now newId date =>
      simp only [BudgetSystem.mutate, BudgetSystem.handle, handleAddExpense.calls_of_resolved,
        pressAddExpense, List.drop_left, writeAll_pair, handleAddExpense.primaryCall,
        BudgetStore.write, ExpenseMutation.env, Store.addDoc] at h
      by_cases hany : sys.store.expenses.any (fun d => d.id == newId) = true
      · simp [hany] at h
      · simp only [hany, Bool.false_eq_true, if_false, Option.map_some', Option.some_bind] at h
        cases hdoc : sys.store.budgetDoc with
        | none => simp [hdoc] at h
        | some doc =>
            simp only [hdoc, Option.map_some', Option.some.injEq] at h
            subst h
            refine ⟨hblind, ?_, ?_⟩
            · rw [handleAddExpense.resolved_isMounted]
            · simp [replayExpense, docToRecord, expenseDocData]
  | edit id expenseData now date =>
      cases hf : sys.screen.expenses.find? (fun e => e.id == id) with
      | none => simp [BudgetSystem.mutate, BudgetSystem.handle, hf] at h
      | some item =>
          have hitem : item.id = id := by simpa using List.find?_some hf
          simp only [BudgetSystem.mutate, BudgetSystem.handle, hf,
            handleAddExpense.calls_of_resolved, handleEditExpense, List.drop_left, writeAll_pair,
            handleAddExpense.primaryCall, BudgetStore.write, ExpenseMutation.env,
            Option.some_bind, hitem] at h
          cases hdoc : sys.store.budgetDoc with
          | none => simp [hdoc] at h
          | some doc =>
              simp only [hdoc, Option.map_some', Option.some.injEq] at h
              subst h
              simp only at hblind
              by_cases hany : sys.store.expenses.any (fun d => d.id == id) = true
              · simp only [hany, if_true] at hblind
                refine ⟨hblind, ?_, ?_⟩
                · rw [handleAddExpense.resolved_isMounted]
                · simp only [Store.setDoc, hany, if_true, replayExpense, List.map_map]
                  apply List.map_congr_left
                  intro d _
                  simp only [Function.comp, docToRecord, expenseDocData]
                  split <;> simp_all
              · simp [hany] at hblind
  | delete id =>
      simp only [BudgetSystem.mutate, BudgetSystem.handle, handleDeleteExpense.calls_when_resolved,
        List.drop_left, writeAll_pair, BudgetStore.write,
        ExpenseMutation.env, Option.some_bind] at h
      cases hdoc : sys.store.budgetDoc with
      | none => simp [hdoc] at h
      | some doc =>
          simp only [hdoc, Option.map_some', Option.some.injEq] at h
          subst h
          refine ⟨hblind, rfl, ?_⟩
          simp only [replayExpense, Store.deleteDoc, List.filter_map]
          congr 1

theorem BudgetSystem.run_replays_expenses (sched : List (ExpenseMutation × Bool)) (sys sys' : BudgetSystem)
    (h : sys.run sched = some sys') (hblind : sys'.store.blindEdits = 0) :
    sys.store.blindEdits = 0 ∧
    sys'.screen.isMounted = sys.screen.isMounted ∧
    sys'.store.expenses.map docToRecord
      = replayExpenses (sys.store.expenses.map docToRecord) (sched.map Prod.fst) := by
  induction sched generalizing sys with
  | nil =>
      simp only [BudgetSystem.run, Option.some.injEq] at h
      subst h
      exact ⟨hblind, rfl, rfl⟩
  | cons step rest ih =>
      obtain ⟨m, delivered⟩ := step
      simp only [BudgetSystem.run] at h
      cases hm : sys.mutate m with
      | none => simp [hm] at h
      | some sys₁ =>
          rw [hm] at h
          simp only at h
          have hstore : (if delivered then sys₁.deliver else sys₁).store = sys₁.store := by
            cases delivered <;> rfl
          have hmounted : (if delivered then sys₁.deliver else sys₁).screen.isMounted
              = sys₁.screen.isMounted := by
            cases delivered
            · rfl
            · simp only [if_true, BudgetSystem.deliver, onBudgetSnapshot, onExpensesSnapshot]
              split <;> (try split) <;> rfl
          obtain ⟨ih₀, ih₁, ih₂⟩ := ih _ h
          rw [hstore] at ih₀ ih₂
          rw [hmounted] at ih₁
          obtain ⟨hs₁, hs₂, hs₃⟩ := BudgetSystem.mutate_spec sys sys₁ m hm ih₀
          refine ⟨hs₁, ih₁.trans hs₂, ?_⟩
          rw [ih₂, hs₃]
          simp [replayExpenses]

/-- C5 (counterexample): from the empty remote collection, add an expense (placeholder
id `"1700000000000"`, remote id `"Jq3mWz0aR7tKpX2bLh9C"`) and, before the stream has
delivered, edit the row just added.  Both handlers complete and every write resolves,
but `editExpense("1700000000000", ...)` writes a second document: after the stream has
delivered the remote content the list holds two records, while replaying the add and
the edit yields one. -/
theorem edit_before_delivery_is_not_replay :
    ((BudgetSystem.start [] (some { amount := 10000, percentageSpent := none })).run
        [(.add { description := "Hall deposit", amount := 2500, category := "Venue" }
            1700000000000 "Jq3mWz0aR7tKpX2bLh9C" "2023-11-14T22:13:20.100Z", false),
         (.edit "1700000000000"
            { description := "Hall deposit", amount := 3000, category := "Venue" }
            1700000005000 "2023-11-14T22:13:25.100Z", false)]).map
        (fun sys => sys.deliver.screen.expenses)
      = some
          [{ id := "Jq3mWz0aR7tKpX2bLh9C"
             fields := { description := "Hall deposit", amount := 2500, category := "Venue",
                         date := some "2023-11-14T22:13:20.100Z" } },
           { id := "1700000000000"
             fields := { description := "Hall deposit", amount := 3000, category := "Venue",
                         date := some "2023-11-14T22:13:25.100Z" } }] ∧
    replayExpenses []
        [.add { description := "Hall deposit", amount := 2500, category := "Venue" }
            1700000000000 "Jq3mWz0aR7tKpX2bLh9C" "2023-11-14T22:13:20.100Z",
         .edit "1700000000000"
            { description := "Hall deposit", amount := 3000, category := "Venue" }
            1700000005000 "2023-11-14T22:13:25.100Z"]
      = [{ id := "Jq3mWz0aR7tKpX2bLh9C"
           fields := { description := "Hall deposit", amount := 2500, category := "Venue",
                       date := some "2023-11-14T22:13:20.100Z" } }] ∧
    ((BudgetSystem.start [] (some { amount := 10000, percentageSpent := none })).run
        [(.add { description := "Hall deposit", amount := 2500, category := "Venue" }
            1700000000000 "Jq3mWz0aR7tKpX2bLh9C" "2023-11-14T22:13:20.100Z", false),
         (.edit "1700000000000"
            { description := "Hall deposit", amount := 3000, category := "Venue" }
            1700000005000 "2023-11-14T22:13:25.100Z", false)]).map
        (fun sys => sys.deliver.screen.expenses)
      ≠ some (replayExpenses []
        [.add { description := "Hall deposit", amount := 2500, category := "Venue" }
            1700000000000 "Jq3mWz0aR7tKpX2bLh9C" "2023-11-14T22:13:20.100Z",
         .edit "1700000000000"
            { description := "Hall deposit", amount := 3000, category := "Venue" }
            1700000005000 "2023-11-14T22:13:25.100Z"]) := by
  refine ⟨?_, ?_, ?_⟩ <;> decide

/-- C5 (amended): start from the remote collection `R` (document ids pairwise distinct
for tasks) already delivered to the screen, and make any finite sequence of mutations
on the screen, the stream delivering the remote content or not between two mutations.
If every remote write resolves and every `editExpense` call finds the document it
addresses, then once the stream has delivered the remote content after the last write
the list of the screen is the list obtained by replaying the mutations, in order,
against `R`. -/
theorem settled_state_is_replay (R : TaskStore) (sched : List (TaskMutation × Bool))
    (E : List (Doc ExpenseFields)) (budgetDoc : Option BudgetDoc)
    (sched' : List (ExpenseMutation × Bool))
    (hR : (R.map (fun d => d.id)).Nodup)
    (hrun : ((TaskSystem.start R).run sched).isSome = true)
    (hrun' : ((BudgetSystem.start E budgetDoc).run sched').map
        (fun sys => sys.store.blindEdits) = some 0) :
    ((TaskSystem.start R).run sched).map (fun sys => sys.deliver.screen.tasks)
      = some (replayTasks (R.map docToRecord) (sched.map Prod.fst)) ∧
    ((BudgetSystem.start E budgetDoc).run sched').map (fun sys => sys.deliver.screen.expenses)
      = some (replayExpenses (E.map docToRecord) (sched'.map Prod.fst)) := by
  constructor
  · obtain ⟨sys, hsys⟩ := Option.isSome_iff_exists.mp hrun
    have hinv : (TaskSystem.start R).Inv :=
      TaskSystem.deliver_inv { screen := TaskScreen.initial, store := R } hR
    have := TaskSystem.run_replays_tasks sched _ sys hinv hsys
    rw [hsys]
    simp only [Option.map_some', Option.some.injEq]
    exact this
  · obtain ⟨sys, hsys, hblind⟩ := Option.map_eq_some'.mp hrun'
    obtain ⟨-, hmounted, hstore⟩ := BudgetSystem.run_replays_expenses sched' _ sys hsys hblind
    rw [hsys]
    simp only [Option.map_some', Option.some.injEq]
    have hm : sys.screen.isMounted = true := by
      rw [hmounted]
      simp only [BudgetSystem.start, onBudgetSnapshot, onExpensesSnapshot, BudgetScreen.initial]
      rfl
    have hdeliver : sys.deliver.screen.expenses = sys.store.expenses.map docToRecord := by
      simp [BudgetSystem.deliver, onBudgetSnapshot, onExpensesSnapshot, hm]
    rw [hdeliver, hstore]
    rfl

/-- C5 (amended) at five task mutations from one remote task and four expense mutations
from the empty remote collection. -/
theorem settled_state_is_replay_witness :
    ((TaskSystem.start [{ id := "a", data := (exampleTask "a" false).fields }]).run
        [(.create " Cake tasting " none "2024-01-01" 5 "x1" "2024-01-01", false),
         (.toggle "a", false), (.delete "5", true), (.toggle "x1", false),
         (.delete "a", false)]).map (fun sys => sys.deliver.screen.tasks)
      = some (replayTasks
          ([({ id := "a", data := (exampleTask "a" false).fields } : Doc TaskFields)].map
            docToRecord)
          ([(TaskMutation.create " Cake tasting " none "2024-01-01" 5 "x1" "2024-01-01", false),
            (.toggle "a", false), (.delete "5", true), (.toggle "x1", false),
            (.delete "a", false)].map Prod.fst)) ∧
    ((BudgetSystem.start [] (some { amount := 10000, percentageSpent := none })).run
        [(.add { description := "Hall deposit", amount := 2500, category := "Venue" }
            5 "x1" "2024-01-01", true),
         (.edit "x1" { description := "Hall deposit", amount := 3000, category := "Venue" }
            6 "2024-01-02", false),
         (.add { description := "Flowers", amount := 400, category := "Other" }
            7 "x2" "2024-01-03", false),
         (.delete "x1", false)]).map (fun sys => sys.deliver.screen.expenses)
      = some (replayExpenses (([] : List (Doc ExpenseFields)).map docToRecord)
          ([(ExpenseMutation.add
              { description := "Hall deposit", amount := 2500, category := "Venue" }
              5 "x1" "2024-01-01", true),
            (.edit "x1" { description := "Hall deposit", amount := 3000, category := "Venue" }
              6 "2024-01-02", false),
            (.add { description := "Flowers", amount := 400, category := "Other" }
              7 "x2" "2024-01-03", false),
            (.delete "x1", false)].map Prod.fst)) :=
  settled_state_is_replay [{ id := "a", data := (exampleTask "a" false).fields }] _ [] _ _
    (by decide) (by decide) (by decide)

/-! ## The percentage write -/

theorem handleAddExpense.updatedExpenses_eq_start (s : BudgetScreen)
    (expenseData : ExpenseData) (now : Nat) :
    handleAddExpense.updatedExpenses s expenseData now
      = (handleAddExpense.start s expenseData now s).expenses := by
  unfold handleAddExpense.updatedExpenses handleAddExpense.start
  cases s.editingExpense <;> rfl

theorem handleAddExpense_calls (r : BudgetScreen) (expenseData : ExpenseData) (now : Nat)
    (primary secondary : Outcome) (pending₁ pending₂ : List BudgetEvent) (s : BudgetScreen) :
    (handleAddExpense r expenseData now primary secondary pending₁ pending₂ s).calls
      = s.calls ++ handleAddExpense.primaryCall r expenseData ::
          (match primary with
            | .resolved => [RemoteCall.updateBudgetPercentage
                (handleAddExpense.newPercentage r expenseData now)]
            | .rejected => []) := by
  cases primary <;> cases secondary <;>
    simp [handleAddExpense, handleAddExpense.onError, BudgetEvent.deliverAll_keeps_calls,
      handleAddExpense.start_calls]

theorem handleDeleteExpense_calls (r : BudgetScreen) (expenseId : String)
    (primary secondary : Outcome) (pending₁ pending₂ : List BudgetEvent) (s : BudgetScreen) :
    (handleDeleteExpense r expenseId .delete primary secondary pending₁ pending₂ s).calls
      = s.calls ++ RemoteCall.deleteExpense expenseId ::
          (match primary with
            | .resolved => [RemoteCall.updateBudgetPercentage
                (handleDeleteExpense.newPercentage r expenseId)]
            | .rejected => []) := by
  cases primary <;> cases secondary <;>
    simp [handleDeleteExpense, handleDeleteExpense.onPress, handleDeleteExpense.onError,
      BudgetEvent.deliverAll_keeps_calls]

theorem handleUpdateBudget_calls (r : BudgetScreen) (newBudget : ℚ)
    (primary secondary : Outcome) (pending₁ pending₂ : List BudgetEvent) (s : BudgetScreen) :
    (handleUpdateBudget r newBudget primary secondary pending₁ pending₂ s).calls
      = s.calls ++ RemoteCall.updateBudget newBudget ::
          (match primary with
            | .resolved => [RemoteCall.updateBudgetPercentage
                (handleUpdateBudget.newPercentage r newBudget)]
            | .rejected => []) := by
  cases primary <;> cases secondary <;>
    simp [handleUpdateBudget, handleUpdateBudget.onError, BudgetEvent.deliverAll_keeps_calls]

/-- C11: the value `handleAddExpense` (add or edit) and `handleDeleteExpense` pass to
`updateBudgetPercentage` is the sum of the amounts of the list after the mutation,
divided by the budget, times 100 when the budget is positive, and 0 otherwise; the list
after the mutation is the list with the new record appended, with the edited record
merged, resp. with the deleted record filtered out.  `handleUpdateBudget` passes
`totalSpent / newBudget * 100` when the new budget is positive and 0 otherwise. -/
theorem percentage_written_is_of_mutated_list (s : BudgetScreen) (expenseData : ExpenseData)
    (now : Nat) (expenseId : String) (newBudget : ℚ) (secondary : Outcome)
    (pending₁ pending₂ : List BudgetEvent) :
    ((handleAddExpense s expenseData now .resolved secondary pending₁ pending₂ s).calls
        = s.calls ++ [handleAddExpense.primaryCall s expenseData,
            RemoteCall.updateBudgetPercentage
              (if s.budget > 0 then
                sumAmounts (handleAddExpense s expenseData now .resolved .resolved [] [] s).expenses
                  / s.budget * 100
               else 0)] ∧
      (handleAddExpense s expenseData now .resolved .resolved [] [] s).expenses
        = (match s.editingExpense with
            | some editing =>
                s.expenses.map (fun e =>
                  if e.id = editing.id then
                    { e with fields := { e.fields with description := expenseData.description,
                                                       amount := expenseData.amount,
                                                       category := expenseData.category } }
                  else e)
            | none =>
                s.expenses ++
                  [{ id := dateNowToString now
                     fields := { description := expenseData.description,
                                 amount := expenseData.amount,
                                 category := expenseData.category, date := none } }])) ∧
    ((handleDeleteExpense s expenseId .delete .resolved secondary pending₁ pending₂ s).calls
        = s.calls ++ [RemoteCall.deleteExpense expenseId,
            RemoteCall.updateBudgetPercentage
              (if s.budget > 0 then
                sumAmounts
                  (handleDeleteExpense s expenseId .delete .resolved .resolved [] [] s).expenses
                  / s.budget * 100
               else 0)] ∧
      (handleDeleteExpense s expenseId .delete .resolved .resolved [] [] s).expenses
        = s.expenses.filter (fun e => e.id != expenseId)) ∧
    (handleUpdateBudget s newBudget .resolved secondary pending₁ pending₂ s).calls
      = s.calls ++ [RemoteCall.updateBudget newBudget,
          RemoteCall.updateBudgetPercentage
            (if newBudget > 0 then sumAmounts s.expenses / newBudget * 100 else 0)] := by
  have hadd : (handleAddExpense s expenseData now .resolved .resolved [] [] s).expenses
      = (handleAddExpense.start s expenseData now s).expenses := rfl
  refine ⟨⟨?_, ?_⟩, ⟨?_, rfl⟩, ?_⟩
  · rw [handleAddExpense_calls, hadd, ← handleAddExpense.updatedExpenses_eq_start]
    rfl
  · rw [hadd]
    unfold handleAddExpense.start
    cases s.editingExpense <;> rfl
  · rw [handleDeleteExpense_calls]
    rfl
  · rw [handleUpdateBudget_calls]
    rfl

/-- C12: the remote calls `handleAddExpense`, the `Delete` button of
`handleDeleteExpense`, and `handleUpdateBudget` make are the primary write followed,
exactly when the primary write has resolved, by one `updateBudgetPercentage` call;
when the primary write rejects the primary write is the only call, and the `Cancel`
button of the dialog makes no call at all. -/
theorem percentage_write_follows_resolved_primary (s : BudgetScreen)
    (expenseData : ExpenseData) (now : Nat) (expenseId : String) (newBudget : ℚ)
    (primary secondary : Outcome) (pending₁ pending₂ : List BudgetEvent) :
    (handleAddExpense s expenseData now primary secondary pending₁ pending₂ s).calls
      = s.calls ++ handleAddExpense.primaryCall s expenseData ::
          (if primary = .resolved then
            [RemoteCall.updateBudgetPercentage
              (handleAddExpense.newPercentage s expenseData now)]
           else []) ∧
    (handleDeleteExpense s expenseId .delete primary secondary pending₁ pending₂ s).calls
      = s.calls ++ RemoteCall.deleteExpense expenseId ::
          (if primary = .resolved then
            [RemoteCall.updateBudgetPercentage
              (handleDeleteExpense.newPercentage s expenseId)]
           else []) ∧
    (handleDeleteExpense s expenseId .cancel primary secondary pending₁ pending₂ s).calls
      = s.calls ∧
    (handleUpdateBudget s newBudget primary secondary pending₁ pending₂ s).calls
      = s.calls ++ RemoteCall.updateBudget newBudget ::
          (if primary = .resolved then
            [RemoteCall.updateBudgetPercentage
              (handleUpdateBudget.newPercentage s newBudget)]
           else []) ∧
    (∀ percentage, handleAddExpense.primaryCall s expenseData
      ≠ RemoteCall.updateBudgetPercentage percentage) := by
  refine ⟨?_, ?_, rfl, ?_, ?_⟩
  · rw [handleAddExpense_calls]
    cases primary <;> rfl
  · rw [handleDeleteExpense_calls]
    cases primary <;> rfl
  · rw [handleUpdateBudget_calls]
    cases primary <;> rfl
  · intro percentage
    unfold handleAddExpense.primaryCall
    cases s.editingExpense <;> simp

/-! ## Identifiers -/

/-- C13 (counterexample): two tasks added within the same millisecond (clock
`1700000000000` both times), starting from the empty list, whose identifiers are
pairwise distinct: the list after the second optimistic insert holds two records with
the identifier `"1700000000000"`.  The same happens for notes and for expenses. -/
theorem creates_in_same_millisecond_collide :
    ((handleAddTask
        { handleAddTask (exampleTaskScreen [] "Cake tasting") "2023-11-14T22:13:20.000Z"
            1700000000000 .resolved [] (exampleTaskScreen [] "Cake tasting")
          with newTask := "Flowers" }
        "2023-11-14T22:13:20.000Z" 1700000000000 .resolved []
        { handleAddTask (exampleTaskScreen [] "Cake tasting") "2023-11-14T22:13:20.000Z"
            1700000000000 .resolved [] (exampleTaskScreen [] "Cake tasting")
          with newTask := "Flowers" }).tasks.map (fun t => t.id))
      = ["1700000000000", "1700000000000"] ∧
    ¬ ((handleAddTask
        { handleAddTask (exampleTaskScreen [] "Cake tasting") "2023-11-14T22:13:20.000Z"
            1700000000000 .resolved [] (exampleTaskScreen [] "Cake tasting")
          with newTask := "Flowers" }
        "2023-11-14T22:13:20.000Z" 1700000000000 .resolved []
        { handleAddTask (exampleTaskScreen [] "Cake tasting") "2023-11-14T22:13:20.000Z"
            1700000000000 .resolved [] (exampleTaskScreen [] "Cake tasting")
          with newTask := "Flowers" }).tasks.map (fun t => t.id)).Nodup ∧
    ¬ ((handleAddNote
        { handleAddNote (exampleNoteScreen [] "Cake tasting") "2023-11-14T22:13:20.000Z"
            1700000000000 .resolved [] (exampleNoteScreen [] "Cake tasting")
          with newNote := "Flowers" }
        "2023-11-14T22:13:20.000Z" 1700000000000 .resolved []
        { handleAddNote (exampleNoteScreen [] "Cake tasting") "2023-11-14T22:13:20.000Z"
            1700000000000 .resolved [] (exampleNoteScreen [] "Cake tasting")
          with newNote := "Flowers" }).notes.map (fun x => x.id)).Nodup ∧
    ¬ ((handleAddExpense.start
        (handleAddExpense.start (exampleBudgetScreen 10000 [])
          { description := "Hall deposit", amount := 2500, category := "Venue" }
          1700000000000 (exampleBudgetScreen 10000 []))
        { description := "Flowers", amount := 400, category := "Other" } 1700000000000
        (handleAddExpense.start (exampleBudgetScreen 10000 [])
          { description := "Hall deposit", amount := 2500, category := "Venue" }
          1700000000000 (exampleBudgetScreen 10000 []))).expenses.map
        (fun e => e.id)).Nodup := by
  refine ⟨by decide, by decide, by decide, by decide⟩

/-- C13 (amended): when the identifiers of the list are pairwise distinct and none of
them is the placeholder identifier `Date.now().toString()`, the list produced by the
optimistic insert of `handleAddTask`, `handleAddNote` and `handleAddExpense` again has
pairwise distinct identifiers. -/
theorem optimistic_create_keeps_ids_distinct (t : TaskScreen) (n : NoteScreen)
    (b : BudgetScreen) (expenseData : ExpenseData) (createdAt : String) (now : Nat)
    (ht : (t.tasks.map (fun x => x.id)).Nodup)
    (hn : (n.notes.map (fun x => x.id)).Nodup)
    (hb : (b.expenses.map (fun x => x.id)).Nodup)
    (ht' : ∀ x ∈ t.tasks, x.id ≠ dateNowToString now)
    (hn' : ∀ x ∈ n.notes, x.id ≠ dateNowToString now)
    (hb' : ∀ x ∈ b.expenses, x.id ≠ dateNowToString now)
    (hadd : b.editingExpense = none) :
    ((handleAddTask t createdAt now .resolved [] t).tasks.map (fun x => x.id)).Nodup ∧
    ((handleAddNote n createdAt now .resolved [] n).notes.map (fun x => x.id)).Nodup ∧
    ((handleAddExpense.start b expenseData now b).expenses.map (fun x => x.id)).Nodup := by
  have key : ∀ {δ : Type} (l : List (Rec δ)) (r : Rec δ),
      (l.map (fun x => x.id)).Nodup → (∀ x ∈ l, x.id ≠ r.id) →
      ((l ++ [r]).map (fun x => x.id)).Nodup := by
    intro δ l r hl hr
    rw [List.map_append, List.nodup_append]
    refine ⟨hl, by simp, ?_⟩
    intro a ha ha'
    simp only [List.map_cons, List.map_nil, List.mem_singleton] at ha'
    obtain ⟨x, hx, rfl⟩ := List.mem_map.mp ha
    exact hr x hx ha'
  refine ⟨?_, ?_, ?_⟩
  · unfold handleAddTask
    by_cases h : jsTrim t.newTask = ""
    · simpa [h] using ht
    · simp only [h, if_false, TaskEvent.deliverAll, List.foldl_nil]
      exact key _ _ ht ht'
  · unfold handleAddNote
    by_cases h : jsTrim n.newNote = ""
    · simpa [h] using hn
    · simp only [h, if_false, NoteEvent.deliverAll, List.foldl_nil]
      exact key _ _ hn hn'
  · simp only [handleAddExpense.start, hadd]
    exact key _ _ hb hb'

/-- C13 (amended) at one-record lists under identifier `"a"` and the clock at `5`. -/
theorem optimistic_create_keeps_ids_distinct_witness :
    ((handleAddTask (exampleTaskScreen [exampleTask "a" false] "Cake tasting") "t" 5
        .resolved [] (exampleTaskScreen [exampleTask "a" false] "Cake tasting")).tasks.map
        (fun x => x.id)).Nodup ∧
    ((handleAddNote (exampleNoteScreen [exampleNote "a"] "Cake tasting") "t" 5
        .resolved [] (exampleNoteScreen [exampleNote "a"] "Cake tasting")).notes.map
        (fun x => x.id)).Nodup ∧
    ((handleAddExpense.start (exampleBudgetScreen 10000 [exampleExpense "a" 500])
        { description := "Flowers", amount := 400, category := "Other" } 5
        (exampleBudgetScreen 10000 [exampleExpense "a" 500])).expenses.map
        (fun x => x.id)).Nodup :=
  optimistic_create_keeps_ids_distinct
    (exampleTaskScreen [exampleTask "a" false] "Cake tasting")
    (exampleNoteScreen [exampleNote "a"] "Cake tasting")
    (exampleBudgetScreen 10000 [exampleExpense "a" 500])
    { description := "Flowers", amount := 400, category := "Other" } "t" 5
    (by decide) (by decide) (by decide) (by decide) (by decide) (by decide) rfl

/-! ## Stream errors -/

/-- C14 (the code at the failing input): an error reported by the stream of the tasks or
the notes subscription reaches the error callback, which sets the error message and
clears the loading flag; the budget and expenses subscriptions register no error
callback, so an error reported by their stream changes nothing: the budget screen that
was loading without an error message still is. -/
theorem stream_error_reaches_only_tasks_and_notes (b : BudgetScreen) (t : TaskScreen)
    (n : NoteScreen) :
    ((tasksListener.reportError t).error = some "Failed to load tasks" ∧
      (tasksListener.reportError t).loading = false) ∧
    ((notesListener.reportError n).error = some "Failed to load notes" ∧
      (notesListener.reportError n).loading = false) ∧
    subscribeToBudget.reportError b = b ∧
    subscribeToExpenses.reportError b = b ∧
    ((subscribeToExpenses.reportError BudgetScreen.initial).error = none ∧
      (subscribeToExpenses.reportError BudgetScreen.initial).loading = true) ∧
    ((subscribeToBudget.reportError BudgetScreen.initial).error = none ∧
      (subscribeToBudget.reportError BudgetScreen.initial).loading = true) := by
  refine ⟨⟨rfl, rfl⟩, ⟨rfl, rfl⟩, rfl, rfl, ⟨rfl, rfl⟩, ⟨rfl, rfl⟩⟩

theorem NoteEvent.deliverAll_notes_alerts (events : List NoteEvent) (s : NoteScreen) :
    (NoteEvent.deliverAll s events).alerts = s.alerts := by
  induction events generalizing s with
  | nil => rfl
  | cons e es ih =>
      simp only [NoteEvent.deliverAll, List.foldl_cons] at ih ⊢
      rw [ih]
      cases e <;> rfl

theorem NoteEvent.deliverAll_notes_calls (events : List NoteEvent) (s : NoteScreen) :
    (NoteEvent.deliverAll s events).calls = s.calls := by
  induction events generalizing s with
  | nil => rfl
  | cons e es ih =>
      simp only [NoteEvent.deliverAll, List.foldl_cons] at ih ⊢
      rw [ih]
      cases e <;> rfl

/-- C15: when the remote write rejects, `toggleTask`, the `Delete` button of
`deleteTask` and of `handleDeleteNote`, and `handleUpdateBudget` leave the task list,
the note list, resp. the budget equal to the value captured before the optimistic
change, whatever stream callbacks ran in between, and raise their error alert. -/
theorem rejected_write_restores_captured_value (t : TaskScreen) (n : NoteScreen)
    (b : BudgetScreen) (id : String) (newBudget : ℚ) (secondary : Outcome)
    (pending : List TaskEvent) (pending' : List NoteEvent)
    (pending₁ pending₂ : List BudgetEvent) :
    ((toggleTask t id .rejected pending t).tasks = t.tasks ∧
      (toggleTask t id .rejected pending t).alerts
        = t.alerts ++ [{ title := "Error", message := "Failed to update task" }]) ∧
    ((deleteTask t id .delete .rejected pending t).tasks = t.tasks ∧
      (deleteTask t id .delete .rejected pending t).alerts
        = t.alerts ++
          [{ title := "Delete Task", message := "Are you sure you want to delete this task?" },
           { title := "Error", message := "Failed to delete task" }]) ∧
    ((handleDeleteNote n id .delete .rejected pending' n).notes = n.notes ∧
      (handleDeleteNote n id .delete .rejected pending' n).alerts
        = n.alerts ++
          [{ title := "Delete Note", message := "Are you sure you want to delete this note?" },
           { title := "Error", message := "Failed to delete note" }]) ∧
    ((handleUpdateBudget b newBudget .rejected secondary pending₁ pending₂ b).budget = b.budget ∧
      (handleUpdateBudget b newBudget .rejected secondary pending₁ pending₂ b).alerts
        = b.alerts ++ [{ title := "Error", message := "Failed to update budget" }]) := by
  refine ⟨⟨?_, ?_⟩, ⟨rfl, ?_⟩, ⟨rfl, ?_⟩, ⟨rfl, ?_⟩⟩
  · unfold toggleTask
    cases t.tasks.find? (fun x => x.id == id) <;> rfl
  · unfold toggleTask
    cases t.tasks.find? (fun x => x.id == id) <;>
      simp [toggleTask.onError, TaskEvent.deliverAll_same_alerts]
  · simp [deleteTask, deleteTask.onPress, deleteTask.onError, TaskEvent.deliverAll_same_alerts]
  · simp [handleDeleteNote, handleDeleteNote.onPress, handleDeleteNote.onError,
      NoteEvent.deliverAll_notes_alerts]
  · simp [handleUpdateBudget, handleUpdateBudget.onError, BudgetEvent.deliverAll_keeps_alerts]

/-! ## The optimistic delete -/

/-- C16: the optimistic delete of `deleteTask`, `handleDeleteNote` and
`handleDeleteExpense` is `optimisticDelete`; on a list with no record of the given id it
returns the list itself; applying it twice is applying it once; afterwards no record
has the id, every record with another id is still there, and the result is a sublist
of the list (the records kept are in their former order). -/
theorem optimisticDelete_properties {δ : Type} (S T : List (Rec δ)) (x : String)
    (t : TaskScreen) (n : NoteScreen) (b : BudgetScreen)
    (hT : ∀ r ∈ T, r.id ≠ x) :
    optimisticDelete T x = T ∧
    optimisticDelete (optimisticDelete S x) x = optimisticDelete S x ∧
    (∀ r ∈ optimisticDelete S x, r.id ≠ x) ∧
    (∀ r ∈ S, r.id ≠ x → r ∈ optimisticDelete S x) ∧
    (optimisticDelete S x).Sublist S ∧
    (deleteTask t x .delete .resolved [] t).tasks = optimisticDelete t.tasks x ∧
    (handleDeleteNote n x .delete .resolved [] n).notes = optimisticDelete n.notes x ∧
    (handleDeleteExpense b x .delete .resolved .resolved [] [] b).expenses
      = optimisticDelete b.expenses x := by
  refine ⟨?_, ?_, ?_, ?_, ?_, rfl, rfl, rfl⟩
  · unfold optimisticDelete
    rw [List.filter_eq_self]
    intro r hr
    simpa using hT r hr
  · unfold optimisticDelete
    rw [List.filter_filter]
    congr 1
    funext r
    simp
  · intro r hr
    unfold optimisticDelete at hr
    simpa using (List.mem_filter.mp hr).2
  · intro r hr hne
    unfold optimisticDelete
    exact List.mem_filter.mpr ⟨hr, by simpa using hne⟩
  · exact List.filter_sublist _

/-- C16 at the task list `"a"`, `"b"`, `"a"`, `"c"` and the identifier `"a"`, and at the
list `"b"`, `"c"`, which has no record of that identifier. -/
theorem optimisticDelete_properties_witness :
    optimisticDelete [exampleTask "b" false, exampleTask "c" true] "a"
      = [exampleTask "b" false, exampleTask "c" true] ∧
    optimisticDelete (optimisticDelete
        [exampleTask "a" false, exampleTask "b" false, exampleTask "a" true,
          exampleTask "c" true] "a") "a"
      = optimisticDelete
        [exampleTask "a" false, exampleTask "b" false, exampleTask "a" true,
          exampleTask "c" true] "a" ∧
    (∀ r ∈ optimisticDelete
        [exampleTask "a" false, exampleTask "b" false, exampleTask "a" true,
          exampleTask "c" true] "a", r.id ≠ "a") ∧
    (∀ r ∈ [exampleTask "a" false, exampleTask "b" false, exampleTask "a" true,
          exampleTask "c" true],
      r.id ≠ "a" → r ∈ optimisticDelete
        [exampleTask "a" false, exampleTask "b" false, exampleTask "a" true,
          exampleTask "c" true] "a") ∧
    (optimisticDelete
        [exampleTask "a" false, exampleTask "b" false, exampleTask "a" true,
          exampleTask "c" true] "a").Sublist
      [exampleTask "a" false, exampleTask "b" false, exampleTask "a" true,
        exampleTask "c" true] ∧
    (deleteTask (exampleTaskScreen [exampleTask "a" false] "") "a" .delete .resolved []
        (exampleTaskScreen [exampleTask "a" false] "")).tasks
      = optimisticDelete (exampleTaskScreen [exampleTask "a" false] "").tasks "a" ∧
    (handleDeleteNote (exampleNoteScreen [exampleNote "a"] "") "a" .delete .resolved []
        (exampleNoteScreen [exampleNote "a"] "")).notes
      = optimisticDelete (exampleNoteScreen [exampleNote "a"] "").notes "a" ∧
    (handleDeleteExpense (exampleBudgetScreen 10000 [exampleExpense "a" 500]) "a" .delete
        .resolved .resolved [] [] (exampleBudgetScreen 10000 [exampleExpense "a" 500])).expenses
      = optimisticDelete (exampleBudgetScreen 10000 [exampleExpense "a" 500]).expenses "a" :=
  optimisticDelete_properties
    [exampleTask "a" false, exampleTask "b" false, exampleTask "a" true, exampleTask "c" true]
    [exampleTask "b" false, exampleTask "c" true] "a"
    (exampleTaskScreen [exampleTask "a" false] "") (exampleNoteScreen [exampleNote "a"] "")
    (exampleBudgetScreen 10000 [exampleExpense "a" 500]) (by decide)

/-! ## The order of effects -/

theorem handleAddTask_trace_agrees (r : TaskScreen) (createdAt : String) (now : Nat)
    (o : Outcome) (pending : List TaskEvent) (s : TaskScreen) :
    (handleAddTask r createdAt now o pending s).calls
      = s.calls ++ (handleAddTask.trace r createdAt o).filterMap Effect.call? ∧
    (handleAddTask r createdAt now o pending s).alerts
      = s.alerts ++ (handleAddTask.trace r createdAt o).filterMap Effect.alert? := by
  unfold handleAddTask handleAddTask.trace
  by_cases h : jsTrim r.newTask = ""
  · simp [h]
  · cases o <;>
      simp [h, Effect.call?, Effect.alert?, TaskEvent.deliverAll_same_calls,
        TaskEvent.deliverAll_same_alerts]

theorem toggleTask_trace_agrees (r : TaskScreen) (id : String) (o : Outcome)
    (pending : List TaskEvent) (s : TaskScreen) :
    (toggleTask r id o pending s).calls
      = s.calls ++ (toggleTask.trace r id o).filterMap Effect.call? ∧
    (toggleTask r id o pending s).alerts
      = s.alerts ++ (toggleTask.trace r id o).filterMap Effect.alert? := by
  unfold toggleTask toggleTask.trace
  cases r.tasks.find? (fun t => t.id == id) with
  | none => simp [toggleTask.onError, Effect.call?, Effect.alert?]
  | some task =>
      cases o <;>
        simp [toggleTask.onError, Effect.call?, Effect.alert?,
          TaskEvent.deliverAll_same_calls, TaskEvent.deliverAll_same_alerts]

theorem deleteTask_trace_agrees (r : TaskScreen) (id : String) (choice : DialogChoice)
    (o : Outcome) (pending : List TaskEvent) (s : TaskScreen) :
    (deleteTask r id choice o pending s).calls
      = s.calls ++ (deleteTask.trace id choice o).filterMap Effect.call? ∧
    (deleteTask r id choice o pending s).alerts
      = s.alerts ++ (deleteTask.trace id choice o).filterMap Effect.alert? := by
  unfold deleteTask deleteTask.trace
  cases choice <;> cases o <;>
    simp [deleteTask.onPress, deleteTask.onError, Effect.call?, Effect.alert?,
      TaskEvent.deliverAll_same_calls, TaskEvent.deliverAll_same_alerts]

theorem handleAddNote_trace_agrees (r : NoteScreen) (createdAt : String) (now : Nat)
    (o : Outcome) (pending : List NoteEvent) (s : NoteScreen) :
    (handleAddNote r createdAt now o pending s).calls
      = s.calls ++ (handleAddNote.trace r createdAt o).filterMap Effect.call? ∧
    (handleAddNote r createdAt now o pending s).alerts
      = s.alerts ++ (handleAddNote.trace r createdAt o).filterMap Effect.alert? := by
  unfold handleAddNote handleAddNote.trace
  by_cases h : jsTrim r.newNote = ""
  · simp [h]
  · cases o <;>
      simp [h, Effect.call?, Effect.alert?, NoteEvent.deliverAll_notes_calls,
        NoteEvent.deliverAll_notes_alerts]

theorem handleDeleteNote_trace_agrees (r : NoteScreen) (id : String) (choice : DialogChoice)
    (o : Outcome) (pending : List NoteEvent) (s : NoteScreen) :
    (handleDeleteNote r id choice o pending s).calls
      = s.calls ++ (handleDeleteNote.trace id choice o).filterMap Effect.call? ∧
    (handleDeleteNote r id choice o pending s).alerts
      = s.alerts ++ (handleDeleteNote.trace id choice o).filterMap Effect.alert? := by
  unfold handleDeleteNote handleDeleteNote.trace
  cases choice <;> cases o <;>
    simp [handleDeleteNote.onPress, handleDeleteNote.onError, Effect.call?, Effect.alert?,
      NoteEvent.deliverAll_notes_calls, NoteEvent.deliverAll_notes_alerts]

theorem handleAddExpense_trace_agrees (r : BudgetScreen) (expenseData : ExpenseData)
    (now : Nat) (primary secondary : Outcome) (pending₁ pending₂ : List BudgetEvent)
    (s : BudgetScreen) :
    (handleAddExpense r expenseData now primary secondary pending₁ pending₂ s).calls
      = s.calls ++
        (handleAddExpense.trace r expenseData now primary secondary).filterMap Effect.call? ∧
    (handleAddExpense r expenseData now primary secondary pending₁ pending₂ s).alerts
      = s.alerts ++
        (handleAddExpense.trace r expenseData now primary secondary).filterMap Effect.alert? := by
  unfold handleAddExpense handleAddExpense.trace
  cases primary <;> cases secondary <;>
    simp [handleAddExpense.onError, Effect.call?, Effect.alert?,
      BudgetEvent.deliverAll_keeps_calls, BudgetEvent.deliverAll_keeps_alerts,
      handleAddExpense.start_calls, handleAddExpense.start_alerts]

theorem handleDeleteExpense_trace_agrees (r : BudgetScreen) (expenseId : String)
    (choice : DialogChoice) (primary secondary : Outcome)
    (pending₁ pending₂ : List BudgetEvent) (s : BudgetScreen) :
    (handleDeleteExpense r expenseId choice primary secondary pending₁ pending₂ s).calls
      = s.calls ++
        (handleDeleteExpense.trace r expenseId choice primary secondary).filterMap
          Effect.call? ∧
    (handleDeleteExpense r expenseId choice primary secondary pending₁ pending₂ s).alerts
      = s.alerts ++
        (handleDeleteExpense.trace r expenseId choice primary secondary).filterMap
          Effect.alert? := by
  unfold handleDeleteExpense handleDeleteExpense.trace
  cases choice <;> cases primary <;> cases secondary <;>
    simp [handleDeleteExpense.onPress, handleDeleteExpense.onError, Effect.call?,
      Effect.alert?, BudgetEvent.deliverAll_keeps_calls, BudgetEvent.deliverAll_keeps_alerts]

theorem handleUpdateBudget_trace_agrees (r : BudgetScreen) (newBudget : ℚ)
    (primary secondary : Outcome) (pending₁ pending₂ : List BudgetEvent) (s : BudgetScreen) :
    (handleUpdateBudget r newBudget primary secondary pending₁ pending₂ s).calls
      = s.calls ++
        (handleUpdateBudget.trace r newBudget primary secondary).filterMap Effect.call? ∧
    (handleUpdateBudget r newBudget primary secondary pending₁ pending₂ s).alerts
      = s.alerts ++
        (handleUpdateBudget.trace r newBudget primary secondary).filterMap Effect.alert? := by
  unfold handleUpdateBudget handleUpdateBudget.trace
  cases primary <;> cases secondary <;>
    simp [handleUpdateBudget.onError, Effect.call?, Effect.alert?,
      BudgetEvent.deliverAll_keeps_calls, BudgetEvent.deliverAll_keeps_alerts]

/-- C17 (counterexample): `handleAddTask` invoked with only white space typed, `toggleTask`
invoked with an identifier no task has, and `deleteTask` answered with `Cancel` issue no
remote write at all. -/
theorem guarded_invocation_issues_no_write :
    (Effect.primaryWrites
        (handleAddTask.trace (exampleTaskScreen [] "   ") "2023-11-14T22:13:20.000Z"
          .resolved) = 0 ∧
      (handleAddTask (exampleTaskScreen [] "   ") "2023-11-14T22:13:20.000Z" 1700000000000
        .resolved [] (exampleTaskScreen [] "   ")).calls = []) ∧
    (Effect.primaryWrites
        (toggleTask.trace (exampleTaskScreen [exampleTask "a" false] "") "b" .resolved) = 0 ∧
      (toggleTask (exampleTaskScreen [exampleTask "a" false] "") "b" .resolved []
        (exampleTaskScreen [exampleTask "a" false] "")).calls = []) ∧
    (Effect.primaryWrites (deleteTask.trace "a" .cancel .resolved) = 0 ∧
      (deleteTask (exampleTaskScreen [exampleTask "a" false] "") "a" .cancel .resolved []
        (exampleTaskScreen [exampleTask "a" false] "")).calls = []) := by
  decide

/-- C17 (amended): for every invocation that passes the guard of its handler (text that
is not blank for `handleAddTask` and `handleAddNote`, a rendered task with the identifier
for `toggleTask`, the `Delete` button for the three delete dialogs; `handleAddExpense`
and `handleUpdateBudget` have no guard), the setter of the list (of the budget) is
called before the first remote call, and exactly one primary write is issued, whether it
resolves or rejects; the remote calls of the trace are the calls the handler makes. -/
theorem handler_updates_then_writes_once (t : TaskScreen) (n : NoteScreen)
    (b : BudgetScreen) (task : Task) (id createdAt : String) (now : Nat)
    (expenseData : ExpenseData) (newBudget : ℚ) (o primary secondary : Outcome)
    (pending : List TaskEvent) (pending' : List NoteEvent)
    (pending₁ pending₂ : List BudgetEvent)
    (ht : jsTrim t.newTask ≠ "") (hn : jsTrim n.newNote ≠ "")
    (hfind : t.tasks.find? (fun x => x.id == id) = some task) :
    (Effect.setsBeforeWriting "tasks" (handleAddTask.trace t createdAt o) ∧
      Effect.primaryWrites (handleAddTask.trace t createdAt o) = 1 ∧
      (handleAddTask t createdAt now o pending t).calls
        = t.calls ++ (handleAddTask.trace t createdAt o).filterMap Effect.call?) ∧
    (Effect.setsBeforeWriting "tasks" (toggleTask.trace t id o) ∧
      Effect.primaryWrites (toggleTask.trace t id o) = 1 ∧
      (toggleTask t id o pending t).calls
        = t.calls ++ (toggleTask.trace t id o).filterMap Effect.call?) ∧
    (Effect.setsBeforeWriting "tasks" (deleteTask.trace id .delete o) ∧
      Effect.primaryWrites (deleteTask.trace id .delete o) = 1 ∧
      (deleteTask t id .delete o pending t).calls
        = t.calls ++ (deleteTask.trace id .delete o).filterMap Effect.call?) ∧
    (Effect.setsBeforeWriting "notes" (handleAddNote.trace n createdAt o) ∧
      Effect.primaryWrites (handleAddNote.trace n createdAt o) = 1 ∧
      (handleAddNote n createdAt now o pending' n).calls
        = n.calls ++ (handleAddNote.trace n createdAt o).filterMap Effect.call?) ∧
    (Effect.setsBeforeWriting "notes" (handleDeleteNote.trace id .delete o) ∧
      Effect.primaryWrites (handleDeleteNote.trace id .delete o) = 1 ∧
      (handleDeleteNote n id .delete o pending' n).calls
        = n.calls ++ (handleDeleteNote.trace id .delete o).filterMap Effect.call?) ∧
    (Effect.setsBeforeWriting "expenses"
        (handleAddExpense.trace b expenseData now primary secondary) ∧
      Effect.primaryWrites (handleAddExpense.trace b expenseData now primary secondary) = 1 ∧
      (handleAddExpense b expenseData now primary secondary pending₁ pending₂ b).calls
        = b.calls ++
          (handleAddExpense.trace b expenseData now primary secondary).filterMap
            Effect.call?) ∧
    (Effect.setsBeforeWriting "expenses"
        (handleDeleteExpense.trace b id .delete primary secondary) ∧
      Effect.primaryWrites (handleDeleteExpense.trace b id .delete primary secondary) = 1 ∧
      (handleDeleteExpense b id .delete primary secondary pending₁ pending₂ b).calls
        = b.calls ++
          (handleDeleteExpense.trace b id .delete primary secondary).filterMap
            Effect.call?) ∧
    (Effect.setsBeforeWriting "budget"
        (handleUpdateBudget.trace b newBudget primary secondary) ∧
      Effect.primaryWrites (handleUpdateBudget.trace b newBudget primary secondary) = 1 ∧
      (handleUpdateBudget b newBudget primary secondary pending₁ pending₂ b).calls
        = b.calls ++
          (handleUpdateBudget.trace b newBudget primary secondary).filterMap
            Effect.call?) := by
  refine ⟨⟨?_, ?_, (handleAddTask_trace_agrees t createdAt now o pending t).1⟩,
    ⟨?_, ?_, (toggleTask_trace_agrees t id o pending t).1⟩,
    ⟨?_, ?_, (deleteTask_trace_agrees t id .delete o pending t).1⟩,
    ⟨?_, ?_, (handleAddNote_trace_agrees n createdAt now o pending' n).1⟩,
    ⟨?_, ?_, (handleDeleteNote_trace_agrees n id .delete o pending' n).1⟩,
    ⟨?_, ?_, (handleAddExpense_trace_agrees b expenseData now primary secondary
      pending₁ pending₂ b).1⟩,
    ⟨?_, ?_, (handleDeleteExpense_trace_agrees b id .delete primary secondary
      pending₁ pending₂ b).1⟩,
    ⟨?_, ?_, (handleUpdateBudget_trace_agrees b newBudget primary secondary
      pending₁ pending₂ b).1⟩⟩
  · cases o <;>
      simp [Effect.setsBeforeWriting, handleAddTask.trace, ht, Effect.isRemote, Effect.call?,
        List.takeWhile]
  · cases o <;>
      simp [Effect.primaryWrites, handleAddTask.trace, ht, Effect.isPrimaryWrite]
  · cases o <;>
      simp [Effect.setsBeforeWriting, toggleTask.trace, hfind, Effect.isRemote, Effect.call?,
        List.takeWhile]
  · cases o <;>
      simp [Effect.primaryWrites, toggleTask.trace, hfind, Effect.isPrimaryWrite]
  · cases o <;>
      simp [Effect.setsBeforeWriting, deleteTask.trace, Effect.isRemote, Effect.call?,
        List.takeWhile]
  · cases o <;>
      simp [Effect.primaryWrites, deleteTask.trace, Effect.isPrimaryWrite]
  · cases o <;>
      simp [Effect.setsBeforeWriting, handleAddNote.trace, hn, Effect.isRemote, Effect.call?,
        List.takeWhile]
  · cases o <;>
      simp [Effect.primaryWrites, handleAddNote.trace, hn, Effect.isPrimaryWrite]
  · cases o <;>
      simp [Effect.setsBeforeWriting, handleDeleteNote.trace, Effect.isRemote, Effect.call?,
        List.takeWhile]
  · cases o <;>
      simp [Effect.primaryWrites, handleDeleteNote.trace, Effect.isPrimaryWrite]
  · cases primary <;> cases secondary <;>
      simp [Effect.setsBeforeWriting, handleAddExpense.trace, Effect.isRemote, Effect.call?,
        List.takeWhile]
  · unfold handleAddExpense.trace handleAddExpense.primaryCall
    cases b.editingExpense <;> cases primary <;> cases secondary <;>
      simp [Effect.primaryWrites, Effect.isPrimaryWrite]
  · cases primary <;> cases secondary <;>
      simp [Effect.setsBeforeWriting, handleDeleteExpense.trace, Effect.isRemote,
        Effect.call?, List.takeWhile]
  · cases primary <;> cases secondary <;>
      simp [Effect.primaryWrites, handleDeleteExpense.trace, Effect.isPrimaryWrite]
  · cases primary <;> cases secondary <;>
      simp [Effect.setsBeforeWriting, handleUpdateBudget.trace, Effect.isRemote, Effect.call?,
        List.takeWhile]
  · cases primary <;> cases secondary <;>
      simp [Effect.primaryWrites, handleUpdateBudget.trace, Effect.isPrimaryWrite]

/-- C17 (amended) at the task screen showing task `"a"` with `Cake tasting` typed, for
`handleAddTask` whose write rejects and `toggleTask` of `"a"` whose write rejects. -/
theorem handler_updates_then_writes_once_witness :
    (jsTrim (exampleTaskScreen [exampleTask "a" false] "Cake tasting").newTask ≠ "" ∧
      (exampleTaskScreen [exampleTask "a" false] "Cake tasting").tasks.find?
        (fun x => x.id == "a") = some (exampleTask "a" false)) ∧
    (Effect.setsBeforeWriting "tasks"
        (handleAddTask.trace (exampleTaskScreen [exampleTask "a" false] "Cake tasting")
          "2023-11-14T22:13:20.000Z" .rejected) ∧
      Effect.primaryWrites
        (handleAddTask.trace (exampleTaskScreen [exampleTask "a" false] "Cake tasting")
          "2023-11-14T22:13:20.000Z" .rejected) = 1 ∧
      (handleAddTask (exampleTaskScreen [exampleTask "a" false] "Cake tasting")
          "2023-11-14T22:13:20.000Z" 1700000000000 .rejected []
          (exampleTaskScreen [exampleTask "a" false] "Cake tasting")).calls
        = (exampleTaskScreen [exampleTask "a" false] "Cake tasting").calls ++
          (handleAddTask.trace (exampleTaskScreen [exampleTask "a" false] "Cake tasting")
            "2023-11-14T22:13:20.000Z" .rejected).filterMap Effect.call?) ∧
    (Effect.setsBeforeWriting "tasks"
        (toggleTask.trace (exampleTaskScreen [exampleTask "a" false] "Cake tasting") "a"
          .rejected) ∧
      Effect.primaryWrites
        (toggleTask.trace (exampleTaskScreen [exampleTask "a" false] "Cake tasting") "a"
          .rejected) = 1 ∧
      (toggleTask (exampleTaskScreen [exampleTask "a" false] "Cake tasting") "a" .rejected []
          (exampleTaskScreen [exampleTask "a" false] "Cake tasting")).calls
        = (exampleTaskScreen [exampleTask "a" false] "Cake tasting").calls ++
          (toggleTask.trace (exampleTaskScreen [exampleTask "a" false] "Cake tasting") "a"
            .rejected).filterMap Effect.call?) :=
  have h := handler_updates_then_writes_once
    (exampleTaskScreen [exampleTask "a" false] "Cake tasting")
    (exampleNoteScreen [] "Call the florist") (exampleBudgetScreen 10000 [])
    (exampleTask "a" false) "a" "2023-11-14T22:13:20.000Z" 1700000000000
    { description := "Hall deposit", amount := 2500, category := "Venue" } 12000
    .rejected .rejected .rejected [] [] [] [] (by decide) (by decide) (by decide)
  ⟨⟨by decide, by decide⟩, h.1, h.2.1⟩

/-! ## ExpenseModal -/

/-- C18: `ExpenseModal.handleSave` calls `onSave` exactly when the trimmed description is
not empty and the parsed amount is a number greater than 0; a payload given to `onSave`
has an amount greater than 0, the trimmed description (which is not empty) and the
`selectedCategory` prop as category; and when `onSave` is not called an error message is
set. -/
theorem handleSave_validates (parseFloat : String → Option ℚ) (selectedCategory : String)
    (m : ExpenseModal) :
    (((ExpenseModal.handleSave parseFloat selectedCategory m).2.isSome = true) ↔
      (jsTrim m.description ≠ "" ∧ ∃ value, parseFloat m.amount = some value ∧ 0 < value)) ∧
    (∀ payload, (ExpenseModal.handleSave parseFloat selectedCategory m).2 = some payload →
      0 < payload.amount ∧ parseFloat m.amount = some payload.amount ∧
      payload.description = jsTrim m.description ∧ payload.description ≠ "" ∧
      payload.category = selectedCategory) ∧
    ((ExpenseModal.handleSave parseFloat selectedCategory m).2 = none →
      ((ExpenseModal.handleSave parseFloat selectedCategory m).1.error
          = "Please enter a description" ∨
        (ExpenseModal.handleSave parseFloat selectedCategory m).1.error
          = "Please enter a valid amount") ∧
      (ExpenseModal.handleSave parseFloat selectedCategory m).1.error ≠ "") := by
  unfold ExpenseModal.handleSave
  by_cases hd : jsTrim m.description = ""
  · simp [hd]
  · cases hp : parseFloat m.amount with
    | none => simp [hd]
    | some value =>
        by_cases hv : value ≤ 0
        · simp [hd, hv]
        · have hv' : 0 < value := not_le.mp hv
          simp [hd, hv, hv']

/-! ## Notes -/

/-- C19: when the trimmed note text is not empty, `handleAddNote` appends a note (and
sends a payload) whose title is `"Untitled"` if the trimmed title is empty and the
trimmed title otherwise; when the trimmed note text is empty, `handleAddNote` returns
the state unchanged: no state variable changes, no remote call and no alert is made. -/
theorem handleAddNote_title_and_blank_text (s s' : NoteScreen) (createdAt : String)
    (now : Nat) (o : Outcome) (pending : List NoteEvent)
    (hs : jsTrim s.newNote ≠ "") (hs' : jsTrim s'.newNote = "") :
    (handleAddNote s createdAt now .resolved [] s).notes
      = s.notes ++
        [{ id := dateNowToString now
           fields := { title := if jsTrim s.newTitle = "" then "Untitled"
                                else jsTrim s.newTitle
                       text := jsTrim s.newNote, color := s.selectedColor,
                       emoji := s.selectedEmoji, createdAt := createdAt } }] ∧
    (handleAddNote s createdAt now o pending s).calls
      = s.calls ++
        [RemoteCall.addNoteToFirestore
          { title := if jsTrim s.newTitle = "" then "Untitled" else jsTrim s.newTitle
            text := jsTrim s.newNote, color := s.selectedColor,
            emoji := s.selectedEmoji, createdAt := createdAt }] ∧
    handleAddNote s' createdAt now o pending s' = s' := by
  refine ⟨?_, ?_, ?_⟩
  · simp [handleAddNote, hs, NoteEvent.deliverAll, handleAddNote.newNoteData]
  · rw [(handleAddNote_trace_agrees s createdAt now o pending s).1]
    cases o <;> simp [handleAddNote.trace, hs, Effect.call?, handleAddNote.newNoteData]
  · simp [handleAddNote, hs']

/-- C19 at a note screen with text `Call the florist` and blank title, and at a note
screen with blank text. -/
theorem handleAddNote_title_and_blank_text_witness :
    (handleAddNote (exampleNoteScreen [] "Call the florist") "2023-11-14T22:13:20.000Z"
        1700000000000 .resolved [] (exampleNoteScreen [] "Call the florist")).notes
      = [{ id := "1700000000000"
           fields := { title := "Untitled", text := "Call the florist", color := "#4ECDC4",
                       emoji := "📝", createdAt := "2023-11-14T22:13:20.000Z" } }] ∧
    handleAddNote (exampleNoteScreen [] "  ") "2023-11-14T22:13:20.000Z" 1700000000000
        .rejected [] (exampleNoteScreen [] "  ") = exampleNoteScreen [] "  " :=
  have h := handleAddNote_title_and_blank_text (exampleNoteScreen [] "Call the florist")
    (exampleNoteScreen [] "  ") "2023-11-14T22:13:20.000Z" 1700000000000 .rejected []
    (by decide) (by decide)
  ⟨h.1.trans (by decide), h.2.2⟩

theorem nextOption_colorOptions_mem (x : String) : nextOption colorOptions x ∈ colorOptions := by
  by_cases h : x ∈ colorOptions
  · simp only [colorOptions, List.mem_cons, List.mem_singleton, List.not_mem_nil,
      or_false] at h
    rcases h with rfl | rfl | rfl | rfl <;> decide
  · simp only [nextOption, jsIndexOf, h, if_false]
    decide

theorem nextOption_emojiOptions_mem (x : String) : nextOption emojiOptions x ∈ emojiOptions := by
  by_cases h : x ∈ emojiOptions
  · simp only [emojiOptions, List.mem_cons, List.mem_singleton, List.not_mem_nil,
      or_false] at h
    rcases h with rfl | rfl | rfl | rfl | rfl | rfl <;> decide
  · simp only [nextOption, jsIndexOf, h, if_false]
    decide

theorem NoteEvent.deliverAll_selection (events : List NoteEvent) (s : NoteScreen) :
    (NoteEvent.deliverAll s events).selectedColor = s.selectedColor ∧
    (NoteEvent.deliverAll s events).selectedEmoji = s.selectedEmoji := by
  induction events generalizing s with
  | nil => exact ⟨rfl, rfl⟩
  | cons e es ih =>
      simp only [NoteEvent.deliverAll, List.foldl_cons] at ih ⊢
      rw [(ih _).1, (ih _).2]
      cases e <;> exact ⟨rfl, rfl⟩

theorem NoteScreen.step_selection (s : NoteScreen) (a : NoteAction)
    (h : s.selectedColor ∈ colorOptions ∧ s.selectedEmoji ∈ emojiOptions) :
    (s.step a).selectedColor ∈ colorOptions ∧ (s.step a).selectedEmoji ∈ emojiOptions := by
  cases a with
  | typeTitle text => exact h
  | typeNote text => exact h
  | cycleColor => exact ⟨nextOption_colorOptions_mem _, h.2⟩
  | cycleEmoji => exact ⟨h.1, nextOption_emojiOptions_mem _⟩
  | addNote createdAt now o pending =>
      simp only [NoteScreen.step, handleAddNote]
      by_cases ht : jsTrim s.newNote = ""
      · simpa [ht] using h
      · cases o <;>
          simpa [ht, (NoteEvent.deliverAll_selection pending _).1,
            (NoteEvent.deliverAll_selection pending _).2] using h
  | deleteNote id choice o pending =>
      simp only [NoteScreen.step, handleDeleteNote, handleDeleteNote.onPress,
        handleDeleteNote.onError]
      cases choice <;> cases o <;>
        simpa [(NoteEvent.deliverAll_selection pending _).1,
          (NoteEvent.deliverAll_selection pending _).2] using h
  | stream event => cases event <;> exact h
  | retry => exact h

theorem NoteScreen.foldl_step_selection (actions : List NoteAction) (s : NoteScreen)
    (h : s.selectedColor ∈ colorOptions ∧ s.selectedEmoji ∈ emojiOptions) :
    (actions.foldl NoteScreen.step s).selectedColor ∈ colorOptions ∧
    (actions.foldl NoteScreen.step s).selectedEmoji ∈ emojiOptions := by
  induction actions generalizing s with
  | nil => exact h
  | cons a rest ih => exact ih _ (NoteScreen.step_selection s a h)

/-- C20: after any sequence of actions on the note screen, starting from its initial
state, the selected colour is a member of `colorOptions` and the selected emoji a member
of `emojiOptions`, also after one more `cycleColor` or `cycleEmoji`; the note
`handleAddNote` then creates has that colour and that emoji; and `cycleColor` applied 4
times, resp. `cycleEmoji` applied 6 times, gives back the state it started from. -/
theorem selection_stays_in_options (actions : List NoteAction) (createdAt : String) :
    (NoteScreen.initial.selectedColor ∈ colorOptions ∧
      NoteScreen.initial.selectedEmoji ∈ emojiOptions) ∧
    ((NoteScreen.after actions).selectedColor ∈ colorOptions ∧
      (NoteScreen.after actions).selectedEmoji ∈ emojiOptions) ∧
    ((cycleColor (NoteScreen.after actions)).selectedColor ∈ colorOptions ∧
      (cycleEmoji (NoteScreen.after actions)).selectedEmoji ∈ emojiOptions) ∧
    ((handleAddNote.newNoteData (NoteScreen.after actions) createdAt).color ∈ colorOptions ∧
      (handleAddNote.newNoteData (NoteScreen.after actions) createdAt).emoji ∈ emojiOptions) ∧
    cycleColor (cycleColor (cycleColor (cycleColor (NoteScreen.after actions))))
      = NoteScreen.after actions ∧
    cycleEmoji (cycleEmoji (cycleEmoji (cycleEmoji (cycleEmoji (cycleEmoji
        (NoteScreen.after actions))))))
      = NoteScreen.after actions := by
  have hinit : NoteScreen.initial.selectedColor ∈ colorOptions ∧
      NoteScreen.initial.selectedEmoji ∈ emojiOptions := by decide
  have hinv := NoteScreen.foldl_step_selection actions NoteScreen.initial hinit
  change (NoteScreen.after actions).selectedColor ∈ colorOptions ∧
    (NoteScreen.after actions).selectedEmoji ∈ emojiOptions at hinv
  have hcolor : ∀ x ∈ colorOptions,
      nextOption colorOptions (nextOption colorOptions (nextOption colorOptions
        (nextOption colorOptions x))) = x := by decide
  have hemoji : ∀ x ∈ emojiOptions,
      nextOption emojiOptions (nextOption emojiOptions (nextOption emojiOptions
        (nextOption emojiOptions (nextOption emojiOptions (nextOption emojiOptions x)))))
      = x := by decide
  refine ⟨hinit, hinv, ⟨nextOption_colorOptions_mem _, nextOption_emojiOptions_mem _⟩,
    hinv, ?_, ?_⟩
  · have := hcolor _ hinv.1
    simp only [cycleColor, this]
  · have := hemoji _ hinv.2
    simp only [cycleEmoji, this]

/-! ## FirebaseService -/

theorem FirebaseService.requireUserId_some (uid : String) (h : uid ≠ "") :
    FirebaseService.requireUserId (some uid) = .ok uid := by
  simp [FirebaseService.requireUserId, h, pure, Except.pure]

/-- C21: each of the ten write helpers of `FirebaseService` rejects with
`'User not authenticated'` when nobody is signed in, rejects with the error of its
backend call when that call rejects, and resolves when that call resolves. -/
theorem write_helpers_propagate_failure (amount percentage : ℚ) (id newId : String)
    (expense : ExpenseData) (task : TaskFields) (note : NoteFields) (newStatus : Bool) :
    FirebaseService.PropagatesFailure
      (fun userId backend => FirebaseService.updateBudget userId backend amount) ∧
    FirebaseService.PropagatesFailure
      (fun userId backend => FirebaseService.addExpense userId backend newId expense) ∧
    FirebaseService.PropagatesFailure
      (fun userId backend => FirebaseService.editExpense userId backend id expense) ∧
    FirebaseService.PropagatesFailure
      (fun userId backend => FirebaseService.deleteExpense userId backend id) ∧
    FirebaseService.PropagatesFailure
      (fun userId backend => FirebaseService.updateBudgetPercentage userId backend percentage) ∧
    FirebaseService.PropagatesFailure
      (fun userId backend => FirebaseService.addTaskToFirestore userId backend newId task) ∧
    FirebaseService.PropagatesFailure
      (fun userId backend => FirebaseService.toggleTaskInFirestore userId backend id newStatus) ∧
    FirebaseService.PropagatesFailure
      (fun userId backend => FirebaseService.deleteTaskFromFirestore userId backend id) ∧
    FirebaseService.PropagatesFailure
      (fun userId backend => FirebaseService.addNoteToFirestore userId backend note) ∧
    FirebaseService.PropagatesFailure
      (fun userId backend => FirebaseService.deleteNoteFromFirestore userId backend id) := by
  refine ⟨?_, ?_, ?_, ?_, ?_, ?_, ?_, ?_, ?_, ?_⟩ <;>
    refine ⟨fun backend => rfl, fun uid e h => ?_, fun uid value h => ?_⟩ <;>
    simp [FirebaseService.updateBudget, FirebaseService.addExpense,
      FirebaseService.editExpense, FirebaseService.deleteExpense,
      FirebaseService.updateBudgetPercentage, FirebaseService.addTaskToFirestore,
      FirebaseService.toggleTaskInFirestore, FirebaseService.deleteTaskFromFirestore,
      FirebaseService.addNoteToFirestore, FirebaseService.deleteNoteFromFirestore,
      FirebaseService.getUserBudgetRef, FirebaseService.getUserExpensesRef,
      FirebaseService.getUserTasksRef, FirebaseService.getUserNotesRef,
      FirebaseService.requireUserId_some _ h, tryCatch, tryCatchThe, MonadExcept.tryCatch,
      Except.tryCatch, bind, Except.bind, pure, Except.pure, throw, throwThe,
      MonadExceptOf.throw] <;>
    first
      | rfl
      | exact ⟨_, rfl⟩

/-! ## budgetSlice -/

/-- C22: after the reducer `addExpense`, `selectTotalSpent` is larger by exactly the
amount of the payload, `selectRemainingBudget` is the budget minus the new total, and
the budget is unchanged; from the initial state, adding the amount 2500 gives the total
2500 and the remaining budget 7500. -/
theorem addExpense_reducer_totals (state : BudgetSliceState) (payload : ExpenseData)
    (now : Nat) (date : String) :
    budgetSlice.selectTotalSpent (budgetSlice.addExpense now date state payload)
      = budgetSlice.selectTotalSpent state + payload.amount ∧
    budgetSlice.selectRemainingBudget (budgetSlice.addExpense now date state payload)
      = state.budget
        - budgetSlice.selectTotalSpent (budgetSlice.addExpense now date state payload) ∧
    (budgetSlice.addExpense now date state payload).budget = state.budget ∧
    (budgetSlice.initialState.budget = 10000 ∧ budgetSlice.initialState.expenses = []) ∧
    budgetSlice.selectTotalSpent (budgetSlice.addExpense now date budgetSlice.initialState
      { description := "Hall deposit", amount := 2500, category := "Venue" }) = 2500 ∧
    budgetSlice.selectRemainingBudget (budgetSlice.addExpense now date
      budgetSlice.initialState
      { description := "Hall deposit", amount := 2500, category := "Venue" }) = 7500 := by
  have htotal : ∀ (st : BudgetSliceState) (p : ExpenseData),
      budgetSlice.selectTotalSpent (budgetSlice.addExpense now date st p)
        = budgetSlice.selectTotalSpent st + p.amount := by
    intro st p
    simp [budgetSlice.selectTotalSpent, budgetSlice.addExpense, List.foldl_append]
  refine ⟨htotal _ _, rfl, rfl, ⟨rfl, rfl⟩, ?_, ?_⟩
  · rw [htotal]
    norm_num [budgetSlice.selectTotalSpent, budgetSlice.initialState]
  · simp only [budgetSlice.selectRemainingBudget, htotal]
    norm_num [budgetSlice.selectTotalSpent, budgetSlice.initialState, budgetSlice.addExpense]

/-! ## The initial fetch -/

/-- C23 (the code at the failing input): with the stored budget 20000 and one stored
expense of 5000, `getBudget` resolves to the number 20000 and `fetchInitialData` reads
`.amount` of that number: it sets the local budget to 10000, not 20000, and passes 0 to
`updateBudgetPercentage`, not 25.  For every stored budget and every stored expenses
list, the budget it sets on the mounted screen is 10000 and the percentage it passes
is 0. -/
theorem fetchInitialData_ignores_stored_budget (B : ℚ) (percentageSpent : Option ℚ)
    (docs : List (Doc ExpenseFields)) (write : Outcome) (s : BudgetScreen) :
    FirebaseService.getBudget (some "u1")
        (.ok (some { amount := 20000, percentageSpent := none })) = .ok 20000 ∧
    (fetchInitialData (.ok 20000) (.ok [exampleExpense "a" 5000]) .resolved
        BudgetScreen.initial).budget = 10000 ∧
    (fetchInitialData (.ok 20000) (.ok [exampleExpense "a" 5000]) .resolved
        BudgetScreen.initial).calls = [RemoteCall.updateBudgetPercentage 0] ∧
    FirebaseService.getBudget (some "u1")
        (.ok (some { amount := B, percentageSpent := percentageSpent })) = .ok B ∧
    (fetchInitialData
        (FirebaseService.getBudget (some "u1")
          (.ok (some { amount := B, percentageSpent := percentageSpent })))
        (FirebaseService.getExpenses (some "u1") (.ok docs)) write
        { s with isMounted := true }).budget = 10000 ∧
    (fetchInitialData
        (FirebaseService.getBudget (some "u1")
          (.ok (some { amount := B, percentageSpent := percentageSpent })))
        (FirebaseService.getExpenses (some "u1") (.ok docs)) write
        { s with isMounted := true }).calls
      = s.calls ++ [RemoteCall.updateBudgetPercentage 0] := by
  have hB : FirebaseService.getBudget (some "u1")
      (.ok (some { amount := B, percentageSpent := percentageSpent })) = .ok B := rfl
  have hE : FirebaseService.getExpenses (some "u1") (.ok docs)
      = .ok (docs.map (fun doc => { id := doc.id, fields := doc.data })) := rfl
  refine ⟨rfl, rfl, rfl, hB, ?_, ?_⟩ <;>
    rw [hB, hE] <;>
    cases write <;>
    simp [fetchInitialData, jsOr, amountPropertyOfNumber, percentageAgainst]

/-! ## The optimistic create and toggle -/

/-- C24: the optimistic create of `handleAddTask`, `handleAddNote` (text not blank) and
`handleAddExpense` (no expense being edited) yields the former list followed by one
record, the payload sent to the remote under the placeholder id: the length grows by
one, the new record is last, and every record of the former list keeps its position. -/
theorem optimistic_create_appends (t : TaskScreen) (n : NoteScreen) (b : BudgetScreen)
    (createdAt : String) (now : Nat) (expenseData : ExpenseData)
    (ht : jsTrim t.newTask ≠ "") (hn : jsTrim n.newNote ≠ "")
    (hb : b.editingExpense = none) :
    ((handleAddTask t createdAt now .resolved [] t).tasks
        = t.tasks ++ [{ id := dateNowToString now
                        fields := handleAddTask.newTaskData t createdAt }] ∧
      (handleAddTask t createdAt now .resolved [] t).calls
        = t.calls ++ [RemoteCall.addTaskToFirestore (handleAddTask.newTaskData t createdAt)] ∧
      (handleAddTask t createdAt now .resolved [] t).tasks.length = t.tasks.length + 1 ∧
      (handleAddTask t createdAt now .resolved [] t).tasks.getLast?
        = some { id := dateNowToString now, fields := handleAddTask.newTaskData t createdAt } ∧
      (∀ i, i < t.tasks.length →
        (handleAddTask t createdAt now .resolved [] t).tasks.get? i = t.tasks.get? i)) ∧
    ((handleAddNote n createdAt now .resolved [] n).notes
        = n.notes ++ [{ id := dateNowToString now
                        fields := handleAddNote.newNoteData n createdAt }] ∧
      (handleAddNote n createdAt now .resolved [] n).calls
        = n.calls ++ [RemoteCall.addNoteToFirestore (handleAddNote.newNoteData n createdAt)] ∧
      (handleAddNote n createdAt now .resolved [] n).notes.length = n.notes.length + 1 ∧
      (handleAddNote n createdAt now .resolved [] n).notes.getLast?
        = some { id := dateNowToString now, fields := handleAddNote.newNoteData n createdAt } ∧
      (∀ i, i < n.notes.length →
        (handleAddNote n createdAt now .resolved [] n).notes.get? i = n.notes.get? i)) ∧
    ((handleAddExpense.start b expenseData now b).expenses
        = b.expenses ++
          [{ id := dateNowToString now
             fields := { description := expenseData.description,
                         amount := expenseData.amount,
                         category := expenseData.category, date := none } }] ∧
      (handleAddExpense.start b expenseData now b).calls
        = b.calls ++ [RemoteCall.addExpense expenseData] ∧
      (handleAddExpense.start b expenseData now b).expenses.length = b.expenses.length + 1 ∧
      (handleAddExpense.start b expenseData now b).expenses.getLast?
        = some { id := dateNowToString now
                 fields := { description := expenseData.description,
                             amount := expenseData.amount,
                             category := expenseData.category, date := none } } ∧
      (∀ i, i < b.expenses.length →
        (handleAddExpense.start b expenseData now b).expenses.get? i = b.expenses.get? i)) := by
  have key : ∀ {α : Type} (L L' : List α) (x : α), L' = L ++ [x] →
      L'.length = L.length + 1 ∧ L'.getLast? = some x ∧
      ∀ i, i < L.length → L'.get? i = L.get? i := by
    intro α L L' x h
    subst h
    refine ⟨by simp, by simp, ?_⟩
    intro i hi
    simp [List.getElem?_append_left hi]
  have h₁ : (handleAddTask t createdAt now .resolved [] t).tasks
      = t.tasks ++ [{ id := dateNowToString now
                      fields := handleAddTask.newTaskData t createdAt }] := by
    simp [handleAddTask, ht, TaskEvent.deliverAll]
  have h₂ : (handleAddNote n createdAt now .resolved [] n).notes
      = n.notes ++ [{ id := dateNowToString now
                      fields := handleAddNote.newNoteData n createdAt }] := by
    simp [handleAddNote, hn, NoteEvent.deliverAll]
  have h₃ : (handleAddExpense.start b expenseData now b).expenses
      = b.expenses ++
        [{ id := dateNowToString now
           fields := { description := expenseData.description,
                       amount := expenseData.amount,
                       category := expenseData.category, date := none } }] := by
    simp [handleAddExpense.start, hb, newExpenseOf]
  refine ⟨⟨h₁, ?_, key _ _ _ h₁⟩, ⟨h₂, ?_, key _ _ _ h₂⟩, ⟨h₃, ?_, key _ _ _ h₃⟩⟩
  · simp [handleAddTask, ht, TaskEvent.deliverAll]
  · simp [handleAddNote, hn, NoteEvent.deliverAll]
  · simp [handleAddExpense.start, hb]

/-- C24 at one-record lists under identifier `"a"`, with `Cake tasting` typed and the
clock at `1700000000000`. -/
theorem optimistic_create_appends_witness :
    (handleAddTask (exampleTaskScreen [exampleTask "a" false] "Cake tasting")
        "2023-11-14T22:13:20.000Z" 1700000000000 .resolved []
        (exampleTaskScreen [exampleTask "a" false] "Cake tasting")).tasks
      = [exampleTask "a" false,
         { id := "1700000000000"
           fields := { text := "Cake tasting", completed := false, category := "General",
                       createdAt := "2023-11-14T22:13:20.000Z", deadline := none,
                       date := none } }] ∧
    (handleAddNote (exampleNoteScreen [exampleNote "a"] "Cake tasting")
        "2023-11-14T22:13:20.000Z" 1700000000000 .resolved []
        (exampleNoteScreen [exampleNote "a"] "Cake tasting")).notes.length = 2 ∧
    (handleAddExpense.start (exampleBudgetScreen 10000 [exampleExpense "a" 500])
        { description := "Flowers", amount := 400, category := "Other" } 1700000000000
        (exampleBudgetScreen 10000 [exampleExpense "a" 500])).expenses.length = 2 :=
  have h := optimistic_create_appends
    (exampleTaskScreen [exampleTask "a" false] "Cake tasting")
    (exampleNoteScreen [exampleNote "a"] "Cake tasting")
    (exampleBudgetScreen 10000 [exampleExpense "a" 500])
    "2023-11-14T22:13:20.000Z" 1700000000000
    { description := "Flowers", amount := 400, category := "Other" }
    (by decide) (by decide) rfl
  ⟨h.1.1.trans (by decide), h.2.1.2.2.1, h.2.2.2.2.1⟩

theorem toggleCompleted_twice (r : Task) : toggleCompleted (toggleCompleted r) = r := by
  cases r with
  | mk id fields =>
      cases fields
      simp [toggleCompleted]

theorem toggleTask_resolved_tasks (u : TaskScreen) (x : String) (task : Task)
    (h : u.tasks.find? (fun r => r.id == x) = some task) :
    (toggleTask u x .resolved [] u).tasks
      = u.tasks.map (fun r => if r.id = x then toggleCompleted r else r) := by
  simp [toggleTask, h, TaskEvent.deliverAll]

/-- C25: for a task list with pairwise distinct ids and an id `x` that the task `task`
of the list has, `toggleTask(x)` maps the list record by record, replacing a record of
id `x` by the same record with `completed` negated and keeping every other record;
`task` is the only record of id `x`; the value sent to `toggleTaskInFirestore` is the
new `completed` value of that record; and a second `toggleTask(x)` gives back the
list. -/
theorem toggleTask_negates_one_record (t : TaskScreen) (x : String) (task : Task)
    (hnodup : (t.tasks.map (fun r => r.id)).Nodup)
    (hfind : t.tasks.find? (fun r => r.id == x) = some task) :
    (toggleTask t x .resolved [] t).tasks
      = t.tasks.map (fun r =>
          if r.id = x then
            { id := r.id
              fields := { text := r.fields.text, completed := !r.fields.completed,
                          category := r.fields.category, createdAt := r.fields.createdAt,
                          deadline := r.fields.deadline, date := r.fields.date } }
          else r) ∧
    (task ∈ t.tasks ∧ task.id = x ∧ ∀ r ∈ t.tasks, r.id = x → r = task) ∧
    (toggleTask t x .resolved [] t).calls
      = t.calls ++ [RemoteCall.toggleTaskInFirestore x (!task.fields.completed)] ∧
    (({ id := task.id
        fields := { text := task.fields.text, completed := !task.fields.completed,
                    category := task.fields.category, createdAt := task.fields.createdAt,
                    deadline := task.fields.deadline, date := task.fields.date } } : Task)
      ∈ (toggleTask t x .resolved [] t).tasks) ∧
    (toggleTask (toggleTask t x .resolved [] t) x .resolved []
        (toggleTask t x .resolved [] t)).tasks = t.tasks := by
  have hmem : task ∈ t.tasks := List.mem_of_find?_eq_some hfind
  have hid : task.id = x := by simpa using List.find?_some hfind
  have hg : ∀ r : Task, (if r.id = x then toggleCompleted r else r).id = r.id := by
    intro r
    split <;> rfl
  have h₁ : (toggleTask t x .resolved [] t).tasks
      = t.tasks.map (fun r => if r.id = x then toggleCompleted r else r) := by
    simp [toggleTask, hfind, TaskEvent.deliverAll]
  have hfind' : (toggleTask t x .resolved [] t).tasks.find? (fun r => r.id == x)
      = some (toggleCompleted task) := by
    rw [h₁, find?_id_map_of_id_eq _ hg, hfind]
    simp [hid]
  refine ⟨h₁, ⟨hmem, hid, ?_⟩, ?_, ?_, ?_⟩
  · intro r hr hrx
    exact List.inj_on_of_nodup_map hnodup hr hmem (hrx.trans hid.symm)
  · simp [toggleTask, hfind, TaskEvent.deliverAll]
  · rw [h₁]
    refine List.mem_map.mpr ⟨task, hmem, ?_⟩
    simp [hid, toggleCompleted]
  · have h₂ : (toggleTask (toggleTask t x .resolved [] t) x .resolved []
        (toggleTask t x .resolved [] t)).tasks
        = (toggleTask t x .resolved [] t).tasks.map
            (fun r => if r.id = x then toggleCompleted r else r) :=
      toggleTask_resolved_tasks _ x _ hfind'
    rw [h₂, h₁, List.map_map]
    conv_rhs => rw [← List.map_id t.tasks]
    apply List.map_congr_left
    intro r _
    simp only [Function.comp, id]
    by_cases hr : r.id = x
    · have : (toggleCompleted r).id = x := hr
      simp [hr, this, toggleCompleted_twice]
    · simp [hr]

/-- C25 at the list of tasks `"a"` (not completed) and `"b"` (completed), toggling
`"a"`. -/
theorem toggleTask_negates_one_record_witness :
    (toggleTask (exampleTaskScreen [exampleTask "a" false, exampleTask "b" true] "") "a"
        .resolved [] (exampleTaskScreen [exampleTask "a" false, exampleTask "b" true] "")).tasks
      = [exampleTask "a" true, exampleTask "b" true] ∧
    (toggleTask (exampleTaskScreen [exampleTask "a" false, exampleTask "b" true] "") "a"
        .resolved [] (exampleTaskScreen [exampleTask "a" false, exampleTask "b" true] "")).calls
      = [RemoteCall.toggleTaskInFirestore "a" true] :=
  have h := toggleTask_negates_one_record
    (exampleTaskScreen [exampleTask "a" false, exampleTask "b" true] "") "a"
    (exampleTask "a" false) (by decide) (by decide)
  ⟨h.1.trans (by decide), h.2.2.1.trans (by decide)⟩

/-- C26: when no record of the task list has the id, `toggleTask` makes no remote call,
leaves the task list as it was and raises the alert `Failed to update task`, whatever
the outcome and the stream callbacks handed to it (neither is reached). -/
theorem toggleTask_unknown_id_fails_locally (t : TaskScreen) (x : String) (o : Outcome)
    (pending : List TaskEvent) (hx : ∀ r ∈ t.tasks, r.id ≠ x) :
    t.tasks.find? (fun r => r.id == x) = none ∧
    (toggleTask t x o pending t).calls = t.calls ∧
    (toggleTask t x o pending t).tasks = t.tasks ∧
    (toggleTask t x o pending t).alerts
      = t.alerts ++ [{ title := "Error", message := "Failed to update task" }] ∧
    toggleTask.trace t x o
      = [.setState "tasks", .setState "tasks",
         .alert { title := "Error", message := "Failed to update task" }] := by
  have hnone : t.tasks.find? (fun r => r.id == x) = none := by
    rw [List.find?_eq_none]
    intro r hr
    simpa using hx r hr
  refine ⟨hnone, ?_, ?_, ?_, ?_⟩
  · simp [toggleTask, hnone, toggleTask.onError]
  · simp [toggleTask, hnone, toggleTask.onError]
  · simp [toggleTask, hnone, toggleTask.onError]
  · simp [toggleTask.trace, hnone]

/-- C26 at the list holding task `"a"` and the id `"b"`. -/
theorem toggleTask_unknown_id_fails_locally_witness :
    (toggleTask (exampleTaskScreen [exampleTask "a" false] "") "b" .resolved []
        (exampleTaskScreen [exampleTask "a" false] "")).calls = [] ∧
    (toggleTask (exampleTaskScreen [exampleTask "a" false] "") "b" .resolved []
        (exampleTaskScreen [exampleTask "a" false] "")).tasks = [exampleTask "a" false] ∧
    (toggleTask (exampleTaskScreen [exampleTask "a" false] "") "b" .resolved []
        (exampleTaskScreen [exampleTask "a" false] "")).alerts
      = [{ title := "Error", message := "Failed to update task" }] :=
  have h := toggleTask_unknown_id_fails_locally
    (exampleTaskScreen [exampleTask "a" false] "") "b" .resolved [] (by decide)
  ⟨h.2.1, h.2.2.1, h.2.2.2.1⟩

/-! ## formatTimeRemaining -/

theorem append_letter_ne_overdue (a : String) (c : Char) (hc : c ≠ 'e') :
    a ++ String.singleton c ≠ "Overdue" := by
  intro h
  have h₂ := congrArg (fun s => s.data.getLast?) h
  simp only [String.data_append, String.singleton] at h₂
  have h₃ : (a.data ++ ("".push c).data).getLast? = some c := by
    simp [String.push]
  rw [h₃] at h₂
  have h₄ : "Overdue".data.getLast? = some 'e' := by decide
  rw [h₄] at h₂
  exact hc (Option.some.inj h₂)

/-- C27: `formatTimeRemaining` returns `null` when the deadline is absent (or the empty
text) and, for a present deadline, `'Overdue'` exactly when `deadline - currentTime` is
at most 0; for a positive difference the hours, minutes and seconds it computes lie in
`[0, 24)`, `[0, 60)` and `[0, 60)`, the days, hours, minutes and seconds add up to the
difference rounded down to a whole second, and the text is `"{d}d {h}h"` when `d > 0`,
else `"{h}h {m}m"` when `h > 0`, else `"{m}m {s}s"` when `m > 0`, else `"{s}s"`. -/
theorem formatTimeRemaining_result (parseDate : String → Int) (currentTime : Int)
    (deadline : String) (hd : deadline ≠ "") :
    formatTimeRemaining parseDate currentTime none = none ∧
    formatTimeRemaining parseDate currentTime (some "") = none ∧
    (formatTimeRemaining parseDate currentTime (some deadline) = some "Overdue" ↔
      parseDate deadline - currentTime ≤ 0) ∧
    (0 < parseDate deadline - currentTime →
      (0 ≤ (parseDate deadline - currentTime) % 86400000 / 3600000 ∧
        (parseDate deadline - currentTime) % 86400000 / 3600000 < 24) ∧
      (0 ≤ (parseDate deadline - currentTime) % 3600000 / 60000 ∧
        (parseDate deadline - currentTime) % 3600000 / 60000 < 60) ∧
      (0 ≤ (parseDate deadline - currentTime) % 60000 / 1000 ∧
        (parseDate deadline - currentTime) % 60000 / 1000 < 60) ∧
      ((parseDate deadline - currentTime) / 86400000 * 86400000
          + (parseDate deadline - currentTime) % 86400000 / 3600000 * 3600000
          + (parseDate deadline - currentTime) % 3600000 / 60000 * 60000
          + (parseDate deadline - currentTime) % 60000 / 1000 * 1000
            ≤ parseDate deadline - currentTime ∧
        parseDate deadline - currentTime
          < (parseDate deadline - currentTime) / 86400000 * 86400000
            + (parseDate deadline - currentTime) % 86400000 / 3600000 * 3600000
            + (parseDate deadline - currentTime) % 3600000 / 60000 * 60000
            + (parseDate deadline - currentTime) % 60000 / 1000 * 1000 + 1000) ∧
      formatTimeRemaining parseDate currentTime (some deadline)
        = some
          (if (parseDate deadline - currentTime) / 86400000 > 0 then
            toString ((parseDate deadline - currentTime) / 86400000) ++ "d " ++
              toString ((parseDate deadline - currentTime) % 86400000 / 3600000) ++ "h"
           else if (parseDate deadline - currentTime) % 86400000 / 3600000 > 0 then
            toString ((parseDate deadline - currentTime) % 86400000 / 3600000) ++ "h " ++
              toString ((parseDate deadline - currentTime) % 3600000 / 60000) ++ "m"
           else if (parseDate deadline - currentTime) % 3600000 / 60000 > 0 then
            toString ((parseDate deadline - currentTime) % 3600000 / 60000) ++ "m " ++
              toString ((parseDate deadline - currentTime) % 60000 / 1000) ++ "s"
           else toString ((parseDate deadline - currentTime) % 60000 / 1000) ++ "s")) := by
  have hpos : 0 < parseDate deadline - currentTime →
      formatTimeRemaining parseDate currentTime (some deadline)
        = some
          (if (parseDate deadline - currentTime) / 86400000 > 0 then
            toString ((parseDate deadline - currentTime) / 86400000) ++ "d " ++
              toString ((parseDate deadline - currentTime) % 86400000 / 3600000) ++ "h"
           else if (parseDate deadline - currentTime) % 86400000 / 3600000 > 0 then
            toString ((parseDate deadline - currentTime) % 86400000 / 3600000) ++ "h " ++
              toString ((parseDate deadline - currentTime) % 3600000 / 60000) ++ "m"
           else if (parseDate deadline - currentTime) % 3600000 / 60000 > 0 then
            toString ((parseDate deadline - currentTime) % 3600000 / 60000) ++ "m " ++
              toString ((parseDate deadline - currentTime) % 60000 / 1000) ++ "s"
           else toString ((parseDate deadline - currentTime) % 60000 / 1000) ++ "s") := by
    intro h
    have h' : ¬ parseDate deadline - currentTime ≤ 0 := not_le.mpr h
    simp only [formatTimeRemaining, hd, if_false, h']
    norm_num
    split_ifs <;> rfl
  refine ⟨rfl, rfl, ?_, ?_⟩
  · constructor
    · intro h
      by_contra hn
      rw [hpos (not_le.mp hn)] at h
      have h := Option.some.inj h
      split_ifs at h
      · exact append_letter_ne_overdue _ 'h' (by decide) h
      · exact append_letter_ne_overdue _ 'm' (by decide) h
      · exact append_letter_ne_overdue _ 's' (by decide) h
      · exact append_letter_ne_overdue _ 's' (by decide) h
    · intro h
      simp [formatTimeRemaining, hd, h]
  · intro h
    refine ⟨by omega, by omega, by omega, by omega, hpos h⟩

theorem formatTimeRemaining_result_witness :
    "2030-01-01" ≠ "" ∧
    0 < (fun _ => (90061000 : Int)) "2030-01-01" - 0 ∧
    formatTimeRemaining (fun _ => 90061000) 0 (some "2030-01-01") = some "1d 1h" :=
  ⟨by decide, by decide,
    ((formatTimeRemaining_result (fun _ => 90061000) 0 "2030-01-01" (by decide)).2.2.2
      (by decide)).2.2.2.2.trans (by decide)⟩

/-! ## Read helpers of FirebaseService -/

/-- C29: the read helpers never reject. `getBudget` resolves to the stored amount when
the budget document exists and to 10000 when it does not exist, when the backend call
fails, or when no user is authenticated; `getExpenses` and `getTasks` resolve to the
stored records (document id plus stored fields) and to the empty array on any failure. -/
theorem read_helpers_never_reject :
    (∀ userId getDoc, ∃ amount, FirebaseService.getBudget userId getDoc = .ok amount) ∧
    (∀ userId getDocs, ∃ list, FirebaseService.getExpenses userId getDocs = .ok list) ∧
    (∀ userId getDocs, ∃ list, FirebaseService.getTasks userId getDocs = .ok list) ∧
    (∀ uid (stored : BudgetDoc), uid ≠ "" →
      FirebaseService.getBudget (some uid) (.ok (some stored)) = .ok stored.amount) ∧
    (∀ uid, uid ≠ "" → FirebaseService.getBudget (some uid) (.ok none) = .ok 10000) ∧
    (∀ userId e, FirebaseService.getBudget userId (.error e) = .ok 10000) ∧
    (∀ getDoc, FirebaseService.getBudget none getDoc = .ok 10000) ∧
    (∀ getDoc, FirebaseService.getBudget (some "") getDoc = .ok 10000) ∧
    (∀ uid docs, uid ≠ "" →
      FirebaseService.getExpenses (some uid) (.ok docs)
        = .ok (docs.map (fun doc => { id := doc.id, fields := doc.data }))) ∧
    (∀ userId e, FirebaseService.getExpenses userId (.error e) = .ok []) ∧
    (∀ getDocs, FirebaseService.getExpenses none getDocs = .ok []) ∧
    (∀ getDocs, FirebaseService.getExpenses (some "") getDocs = .ok []) ∧
    (∀ uid docs, uid ≠ "" →
      FirebaseService.getTasks (some uid) (.ok docs)
        = .ok (docs.map (fun doc => { id := doc.id, fields := doc.data }))) ∧
    (∀ userId e, FirebaseService.getTasks userId (.error e) = .ok []) ∧
    (∀ getDocs, FirebaseService.getTasks none getDocs = .ok []) ∧
    (∀ getDocs, FirebaseService.getTasks (some "") getDocs = .ok []) := by
  have hsome : ∀ uid : String, uid ≠ "" →
      FirebaseService.requireUserId (some uid) = .ok uid :=
    fun uid h => FirebaseService.requireUserId_some uid h
  have hb_ok : ∀ uid (stored : BudgetDoc), uid ≠ "" →
      FirebaseService.getBudget (some uid) (.ok (some stored)) = .ok stored.amount := by
    intro uid stored h
    simp [FirebaseService.getBudget, FirebaseService.getUserBudgetRef, hsome uid h,
      tryCatch, tryCatchThe, MonadExcept.tryCatch, Except.tryCatch, bind, Except.bind,
      pure, Except.pure]
    rfl
  have hb_none : ∀ uid, uid ≠ "" →
      FirebaseService.getBudget (some uid) (.ok none) = .ok 10000 := by
    intro uid h
    simp [FirebaseService.getBudget, FirebaseService.getUserBudgetRef, hsome uid h,
      tryCatch, tryCatchThe, MonadExcept.tryCatch, Except.tryCatch, bind, Except.bind,
      pure, Except.pure]
    rfl
  have hb_err : ∀ userId e, FirebaseService.getBudget userId (.error e) = .ok 10000 := by
    intro userId e
    rcases userId with _ | uid
    · rfl
    · by_cases h : uid = ""
      · subst h; rfl
      · simp [FirebaseService.getBudget, FirebaseService.getUserBudgetRef, hsome uid h,
          tryCatch, tryCatchThe, MonadExcept.tryCatch, Except.tryCatch, bind, Except.bind,
          pure, Except.pure]
        rfl
  have he_ok : ∀ uid docs, uid ≠ "" →
      FirebaseService.getExpenses (some uid) (.ok docs)
        = .ok (docs.map (fun doc => { id := doc.id, fields := doc.data })) := by
    intro uid docs h
    simp [FirebaseService.getExpenses, FirebaseService.getUserExpensesRef, hsome uid h,
      tryCatch, tryCatchThe, MonadExcept.tryCatch, Except.tryCatch, bind, Except.bind,
      pure, Except.pure]
    rfl
  have he_err : ∀ userId e, FirebaseService.getExpenses userId (.error e) = .ok [] := by
    intro userId e
    rcases userId with _ | uid
    · rfl
    · by_cases h : uid = ""
      · subst h; rfl
      · simp [FirebaseService.getExpenses, FirebaseService.getUserExpensesRef, hsome uid h,
          tryCatch, tryCatchThe, MonadExcept.tryCatch, Except.tryCatch, bind, Except.bind,
          pure, Except.pure]
        rfl
  have ht_ok : ∀ uid docs, uid ≠ "" →
      FirebaseService.getTasks (some uid) (.ok docs)
        = .ok (docs.map (fun doc => { id := doc.id, fields := doc.data })) := by
    intro uid docs h
    simp [FirebaseService.getTasks, FirebaseService.getUserTasksRef, hsome uid h,
      tryCatch, tryCatchThe, MonadExcept.tryCatch, Except.tryCatch, bind, Except.bind,
      pure, Except.pure]
    rfl
  have ht_err : ∀ userId e, FirebaseService.getTasks userId (.error e) = .ok [] := by
    intro userId e
    rcases userId with _ | uid
    · rfl
    · by_cases h : uid = ""
      · subst h; rfl
      · simp [FirebaseService.getTasks, FirebaseService.getUserTasksRef, hsome uid h,
          tryCatch, tryCatchThe, MonadExcept.tryCatch, Except.tryCatch, bind, Except.bind,
          pure, Except.pure]
        rfl
  refine ⟨?_, ?_, ?_, hb_ok, hb_none, hb_err, fun _ => rfl, fun _ => rfl,
    he_ok, he_err, fun _ => rfl, fun _ => rfl, ht_ok, ht_err, fun _ => rfl, fun _ => rfl⟩
  · intro userId getDoc
    rcases userId with _ | uid
    · exact ⟨_, rfl⟩
    · by_cases h : uid = ""
      · subst h; exact ⟨_, rfl⟩
      · rcases getDoc with e | (_ | stored)
        · exact ⟨_, hb_err _ e⟩
        · exact ⟨_, hb_none uid h⟩
        · exact ⟨_, hb_ok uid stored h⟩
  · intro userId getDocs
    rcases userId with _ | uid
    · exact ⟨_, rfl⟩
    · by_cases h : uid = ""
      · subst h; exact ⟨_, rfl⟩
      · rcases getDocs with e | docs
        · exact ⟨_, he_err _ e⟩
        · exact ⟨_, he_ok uid docs h⟩
  · intro userId getDocs
    rcases userId with _ | uid
    · exact ⟨_, rfl⟩
    · by_cases h : uid = ""
      · subst h; exact ⟨_, rfl⟩
      · rcases getDocs with e | docs
        · exact ⟨_, ht_err _ e⟩
        · exact ⟨_, ht_ok uid docs h⟩

/-! ## The Retry button -/

/-- C30: the `Retry` button of the error state of the budget, task and note screens sets
`loading` to `true` and `error` to `null` and changes nothing else: the record lists, the
budget, the remote calls issued and the alerts shown stay as they were; its effects are
two setter calls, none a remote call, and neither setter belongs to a dependency of the
subscription effect, so no subscription or fetch is started.  Afterwards every handler
that completes with no stream callback delivered leaves `loading` at `true`, and a stream
callback of a live subscription sets it to `false`. -/
theorem retry_changes_only_loading_and_error (b : BudgetScreen) (t : TaskScreen)
    (n : NoteScreen) :
    (b.retry.loading = true ∧ b.retry.error = none ∧
      { b.retry with loading := b.loading, error := b.error } = b ∧
      b.retry.budget = b.budget ∧ b.retry.expenses = b.expenses ∧
      b.retry.calls = b.calls ∧ b.retry.alerts = b.alerts) ∧
    (t.retry.loading = true ∧ t.retry.error = none ∧
      { t.retry with loading := t.loading, error := t.error } = t ∧
      t.retry.tasks = t.tasks ∧ t.retry.calls = t.calls ∧ t.retry.alerts = t.alerts) ∧
    (n.retry.loading = true ∧ n.retry.error = none ∧
      { n.retry with loading := n.loading, error := n.error } = n ∧
      n.retry.notes = n.notes ∧ n.retry.calls = n.calls ∧ n.retry.alerts = n.alerts) ∧
    (retry.trace = [Effect.setState "loading", Effect.setState "error"] ∧
      retry.trace.filterMap Effect.call? = [] ∧
      retry.trace.filterMap Effect.alert? = [] ∧
      ∀ name ∈ subscriptionEffect.deps, Effect.setState name ∉ retry.trace) ∧
    ((∀ r expenseData now primary secondary,
        (handleAddExpense r expenseData now primary secondary [] [] b.retry).loading = true) ∧
      (∀ r expenseId choice primary secondary,
        (handleDeleteExpense r expenseId choice primary secondary [] [] b.retry).loading
          = true) ∧
      (∀ r newBudget primary secondary,
        (handleUpdateBudget r newBudget primary secondary [] [] b.retry).loading = true) ∧
      (∀ r createdAt now o, (handleAddTask r createdAt now o [] t.retry).loading = true) ∧
      (∀ r id o, (toggleTask r id o [] t.retry).loading = true) ∧
      (∀ r id choice o, (deleteTask r id choice o [] t.retry).loading = true) ∧
      (∀ r createdAt now o, (handleAddNote r createdAt now o [] n.retry).loading = true) ∧
      (∀ r id choice o, (handleDeleteNote r id choice o [] n.retry).loading = true) ∧
      (cycleColor n.retry).loading = true ∧ (cycleEmoji n.retry).loading = true) ∧
    ((∀ event, (BudgetEvent.deliver b.retry event).loading = !b.isMounted) ∧
      (∀ event, (TaskEvent.deliver t.retry event).loading = false) ∧
      (∀ event, (NoteEvent.deliver n.retry event).loading = false)) := by
  refine ⟨⟨rfl, rfl, rfl, rfl, rfl, rfl, rfl⟩, ⟨rfl, rfl, rfl, rfl, rfl, rfl⟩,
    ⟨rfl, rfl, rfl, rfl, rfl, rfl⟩, ⟨rfl, rfl, rfl, by decide⟩,
    ⟨?_, ?_, ?_, ?_, ?_, ?_, ?_, ?_, rfl, rfl⟩, ⟨?_, ?_, ?_⟩⟩
  · intro r expenseData now primary secondary
    cases primary <;> cases secondary <;> cases h : r.editingExpense <;>
      simp [handleAddExpense, handleAddExpense.start, handleAddExpense.onError,
        BudgetEvent.deliverAll, BudgetScreen.retry, h]
  · intro r expenseId choice primary secondary
    cases choice <;> cases primary <;> cases secondary <;>
      simp [handleDeleteExpense, handleDeleteExpense.onPress, handleDeleteExpense.onError,
        BudgetEvent.deliverAll, BudgetScreen.retry]
  · intro r newBudget primary secondary
    cases primary <;> cases secondary <;>
      simp [handleUpdateBudget, handleUpdateBudget.onError, BudgetEvent.deliverAll,
        BudgetScreen.retry]
  · intro r createdAt now o
    unfold handleAddTask
    by_cases h : jsTrim r.newTask = ""
    · simp [h, TaskScreen.retry]
    · cases o <;> simp [h, TaskEvent.deliverAll, TaskScreen.retry]
  · intro r id o
    unfold toggleTask
    cases r.tasks.find? (fun t => t.id == id) <;> cases o <;>
      simp [toggleTask.onError, TaskEvent.deliverAll, TaskScreen.retry]
  · intro r id choice o
    cases choice <;> cases o <;>
      simp [deleteTask, deleteTask.onPress, deleteTask.onError, TaskEvent.deliverAll,
        TaskScreen.retry]
  · intro r createdAt now o
    unfold handleAddNote
    by_cases h : jsTrim r.newNote = ""
    · simp [h, NoteScreen.retry]
    · cases o <;> simp [h, NoteEvent.deliverAll, NoteScreen.retry]
  · intro r id choice o
    cases choice <;> cases o <;>
      simp [handleDeleteNote, handleDeleteNote.onPress, handleDeleteNote.onError,
        NoteEvent.deliverAll, NoteScreen.retry]
  · intro event
    cases event <;> cases h : b.isMounted <;>
      simp [BudgetEvent.deliver, onBudgetSnapshot, onExpensesSnapshot, BudgetScreen.retry, h]
  · intro event
    cases event <;> rfl
  · intro event
    cases event <;> rfl

/-! ## The pie-chart data -/

theorem foldl_amounts_eq (l : List Expense) (a : ℚ) :
    l.foldl (fun sum expense => sum + expense.fields.amount) a
      = a + (l.map (fun e => e.fields.amount)).sum := by
  induction l generalizing a with
  | nil => simp
  | cons e l ih => simp [List.foldl_cons, ih, add_assoc]

theorem sumAmounts_eq_sum (l : List Expense) :
    sumAmounts l = (l.map (fun e => e.fields.amount)).sum := by
  simp [sumAmounts, foldl_amounts_eq]

theorem sumAmounts_cons (e : Expense) (l : List Expense) :
    sumAmounts (e :: l) = e.fields.amount + sumAmounts l := by
  simp [sumAmounts_eq_sum]

theorem sumAmounts_insert (l₁ l₂ : List Expense) (e : Expense) :
    sumAmounts (l₁ ++ e :: l₂) = sumAmounts (l₁ ++ l₂) + e.fields.amount := by
  simp [sumAmounts_eq_sum]
  ring

theorem categoryTotal_cons (e : Expense) (l : List Expense) (category : String) :
    categoryTotal (e :: l) category
      = (if e.fields.category = category then e.fields.amount else 0)
        + categoryTotal l category := by
  unfold categoryTotal
  by_cases h : e.fields.category = category
  · simp [List.filter_cons, h, sumAmounts_cons]
  · simp [List.filter_cons, h]

theorem categoryTotal_nonneg (l : List Expense) (category : String)
    (hpos : ∀ e ∈ l, e.fields.amount > 0) : 0 ≤ categoryTotal l category := by
  induction l with
  | nil => simp [categoryTotal, sumAmounts]
  | cons e l ih =>
      rw [categoryTotal_cons]
      have h₁ := hpos e (List.mem_cons_self _ _)
      have h₂ := ih (fun x hx => hpos x (List.mem_cons_of_mem _ hx))
      split_ifs <;> linarith

theorem categoryTotal_insert (l₁ l₂ : List Expense) (e : Expense) (category : String)
    (h : e.fields.category ≠ category) :
    categoryTotal (l₁ ++ e :: l₂) category = categoryTotal (l₁ ++ l₂) category := by
  simp [categoryTotal, List.filter_append, List.filter_cons, h]

theorem sumAmounts_eq_category_totals (l : List Expense)
    (hcat : ∀ e ∈ l, e.fields.category ∈ BudgetScreen.categories) :
    sumAmounts l = (BudgetScreen.categories.map (categoryTotal l)).sum := by
  induction l with
  | nil => simp [categoryTotal, sumAmounts, BudgetScreen.categories]
  | cons e l ih =>
      have h₁ := hcat e (List.mem_cons_self _ _)
      have h₂ := ih (fun x hx => hcat x (List.mem_cons_of_mem _ hx))
      rw [sumAmounts_cons, h₂]
      simp only [BudgetScreen.categories, List.mem_cons, List.mem_singleton,
        List.not_mem_nil, or_false] at h₁
      rcases h₁ with h | h | h | h | h <;>
        simp [BudgetScreen.categories, categoryTotal_cons, h] <;> ring

theorem sum_positive_slices (slices : List PieSlice)
    (h : ∀ slice ∈ slices, 0 ≤ slice.amount) :
    ((slices.filter (fun item => decide (item.amount > 0))).map (fun x => x.amount)).sum
      = (slices.map (fun x => x.amount)).sum := by
  induction slices with
  | nil => simp
  | cons x xs ih =>
      have h₁ := h x (List.mem_cons_self _ _)
      have h₂ := ih (fun y hy => h y (List.mem_cons_of_mem _ hy))
      by_cases hx : x.amount > 0
      · simp [List.filter_cons, hx, h₂]
      · have h0 : x.amount = 0 := le_antisymm (not_lt.mp hx) h₁
        simp [List.filter_cons, hx, h₂, h0]

/-- C28: for an expenses list whose records all have a positive amount and one of the
five fixed categories, `categoryData` has at most one slice per category (the slice names
are pairwise distinct and among the five), every slice amount is positive and equals the
sum of the amounts of the expenses of that category, and the slice amounts add up to
`totalSpent`; an expense `extra` of a category outside the fixed list, inserted anywhere
into a list, adds its amount to `totalSpent` and leaves `categoryData` unchanged, and no
slice carries its category. -/
theorem categoryData_slices (s : BudgetScreen) (extra : Expense)
    (hpos : ∀ e ∈ s.expenses, e.fields.amount > 0)
    (hcat : ∀ e ∈ s.expenses, e.fields.category ∈ BudgetScreen.categories)
    (hextra : extra.fields.category ∉ BudgetScreen.categories) :
    ((categoryData s).map (fun slice => slice.name)).Nodup ∧
    (∀ slice ∈ categoryData s, slice.name ∈ BudgetScreen.categories) ∧
    (∀ slice ∈ categoryData s,
      slice.amount > 0 ∧
      slice.amount = sumAmounts
        (s.expenses.filter (fun expense => expense.fields.category == slice.name))) ∧
    ((categoryData s).map (fun slice => slice.amount)).sum = totalSpent s ∧
    (∀ (b : BudgetScreen) (l₁ l₂ : List Expense),
      totalSpent { b with expenses := l₁ ++ extra :: l₂ }
        = totalSpent { b with expenses := l₁ ++ l₂ } + extra.fields.amount ∧
      categoryData { b with expenses := l₁ ++ extra :: l₂ }
        = categoryData { b with expenses := l₁ ++ l₂ } ∧
      ∀ slice ∈ categoryData { b with expenses := l₁ ++ extra :: l₂ },
        slice.name ≠ extra.fields.category) := by
  have hmem : ∀ (b : BudgetScreen), ∀ slice ∈ categoryData b,
      slice.name ∈ BudgetScreen.categories ∧ slice.amount > 0 ∧
      slice.amount = categoryTotal b.expenses slice.name := by
    intro b slice hslice
    simp only [categoryData, List.mem_filter, List.mem_map, decide_eq_true_eq] at hslice
    obtain ⟨⟨category, hc, rfl⟩, hgt⟩ := hslice
    exact ⟨hc, hgt, rfl⟩
  refine ⟨?_, fun slice h => (hmem s slice h).1, fun slice h => ⟨(hmem s slice h).2.1,
    (hmem s slice h).2.2⟩, ?_, ?_⟩
  · have hsub : ((categoryData s).map (fun slice => slice.name)).Sublist
        BudgetScreen.categories := by
      have h₀ : (categoryData s).Sublist (BudgetScreen.categories.map (fun category =>
          ({ name := category
             amount := categoryTotal s.expenses category
             color := getColorForCategory category
             legendFontColor := "#fff"
             legendFontSize := 12 } : PieSlice))) := List.filter_sublist _
      have h₁ := h₀.map (fun slice => slice.name)
      simpa [List.map_map, Function.comp_def] using h₁
    exact hsub.nodup (by decide)
  · unfold categoryData totalSpent
    rw [sum_positive_slices]
    · rw [sumAmounts_eq_category_totals s.expenses hcat, List.map_map]
      rfl
    · intro slice hslice
      simp only [List.mem_map] at hslice
      obtain ⟨category, _, rfl⟩ := hslice
      exact categoryTotal_nonneg s.expenses category hpos
  · intro b l₁ l₂
    have hdata : categoryData { b with expenses := l₁ ++ extra :: l₂ }
        = categoryData { b with expenses := l₁ ++ l₂ } := by
      unfold categoryData
      congr 1
      apply List.map_congr_left
      intro category hc
      have hne : extra.fields.category ≠ category := fun h => hextra (h ▸ hc)
      simp [categoryTotal_insert l₁ l₂ extra category hne]
    refine ⟨sumAmounts_insert l₁ l₂ extra, hdata, ?_⟩
    intro slice hslice heq
    exact hextra (heq ▸ (hmem _ slice hslice).1)

theorem categoryData_slices_witness :
    (∀ e ∈ (exampleBudgetScreen 10000
        [exampleExpenseIn "1" 300 "Venue", exampleExpenseIn "2" 200 "Other",
         exampleExpenseIn "3" 100 "Venue"]).expenses, e.fields.amount > 0) ∧
    (∀ e ∈ (exampleBudgetScreen 10000
        [exampleExpenseIn "1" 300 "Venue", exampleExpenseIn "2" 200 "Other",
         exampleExpenseIn "3" 100 "Venue"]).expenses,
      e.fields.category ∈ BudgetScreen.categories) ∧
    (exampleExpenseIn "4" 50 "Flowers").fields.category ∉ BudgetScreen.categories ∧
    ((categoryData (exampleBudgetScreen 10000
        [exampleExpenseIn "1" 300 "Venue", exampleExpenseIn "2" 200 "Other",
         exampleExpenseIn "3" 100 "Venue"])).map (fun slice => slice.amount)).sum
      = totalSpent (exampleBudgetScreen 10000
        [exampleExpenseIn "1" 300 "Venue", exampleExpenseIn "2" 200 "Other",
         exampleExpenseIn "3" 100 "Venue"]) :=
  ⟨by simp [exampleBudgetScreen, exampleExpenseIn],
   by simp [exampleBudgetScreen, exampleExpenseIn, BudgetScreen.categories],
   by simp [exampleExpenseIn, BudgetScreen.categories],
   (categoryData_slices _ (exampleExpenseIn "4" 50 "Flowers")
      (by simp [exampleBudgetScreen, exampleExpenseIn])
      (by simp [exampleBudgetScreen, exampleExpenseIn, BudgetScreen.categories])
      (by simp [exampleExpenseIn, BudgetScreen.categories])).2.2.2.1⟩

end WeddingManager
